import Mathlib

/-!
# kai-gosdk: message codec, size negotiation, publishing and dispatch

A shallow embedding of `sdk/messaging/messaging_internals.go`,
`sdk/messaging/messaging_utils.go`, of the exit runner's copies of the same
functions in `runner/exit/subscriber.go`, and of the exit runner's handler registry
(`runner/exit/exit_runner.go`) and dispatcher (`processMessage`), of the composers and
the startup of the task runner (`runner/task/helpers.go`, `runner/task/task_runner.go`),
and of the trigger runner (`runner/trigger/helpers.go`, `runner/trigger/trigger_runner.go`).

Conventions of the embedding.

* A Go `[]byte` is a list of bytes, a Go `int64` is an `Int` (the code only compares
  sizes, it never does arithmetic on them, and `int64(len(msg))` is exact).
* A Go `(value, error)` result is an `Except GoError value`; a lone `error` result is an
  `Option GoError` (`none` is the nil error).
* Calls into collaborators whose code is outside the embedded files (the protobuf
  library, the compression helpers of `internal/common`, the broker client, the
  configuration store, the identifier generator) are fields of the structures `Deps`,
  `JetStream`, `NatsConn` and `Viper`: every theorem holds for all their behaviours,
  unless it names the behaviour it assumes.
* A function with effects returns the trace of its effects: the calls to the broker's
  `Publish` and the errors handed to the logger, in program order. Informational log
  lines carry no data and are not recorded. The dispatcher's trace records in addition
  the acknowledgment, the stage calls and the metric recording.
* A user callback is modelled by the error it returns; what it does with the SDK it is
  given is its own and is not part of the dispatcher's trace. Where composition and
  startup are concerned (task and trigger runners), a callback is modelled by what it
  returns together with the trace of what it does, so that a composed stage can be
  compared with the callback it wraps.
* A panic ends a run: `Run` returns the panic message in place of a trace.
* The trigger runner's waiter table is followed through sequential histories of
  registrations and replies; the interleaving of goroutines is not modelled. What a send
  finds on a response channel, which has no buffer (a receiver that takes the value, no
  receiver, or a closed channel), is an argument of the response handler, and the handler
  returns only when the send completes.
-/

namespace KaiGoSDK

/-- One octet. -/
abbrev Byte := Fin 256

/-- A Go byte slice. -/
abbrev Bytes := List Byte

/-- A Go `error` value: the sentinel `errors.ErrMessageToBig`, an error produced by a
collaborator (identified by its text), or an error built by
`fmt.Errorf(context + "%w", cause)`. -/
inductive GoError where
  | ErrMessageToBig : GoError
  | external (text : String) : GoError
  | wrapped (context : String) (cause : GoError) : GoError
deriving DecidableEq, Repr

/-- The chain test of Go's `errors.Is`: `target` is the error itself or one of the causes
it wraps. -/
def GoError.Is : GoError → GoError → Bool
  | .wrapped context cause, target =>
      decide (GoError.wrapped context cause = target) || GoError.Is cause target
  | err, target => decide (err = target)

/-- Modelled from the spec: the generated `protos` package is not part of the embedded
files; the spec enumerates the message types as OK, ERROR and EARLY_EXIT. -/
inductive MessageType where
  | OK : MessageType
  | ERROR : MessageType
  | EARLY_EXIT : MessageType
deriving DecidableEq, Repr

/-- The polymorphic payload container `anypb.Any`: a type tag and the serialized value. -/
structure AnyPb where
  TypeUrl : String
  Value : Bytes
deriving DecidableEq, Repr

/-- The envelope `kai.KaiNatsMessage`, with the five fields the code reads and writes.
A nil `Payload` pointer is `none`; an unset string field is the empty string. -/
structure KaiNatsMessage where
  RequestId : String
  Payload : Option AnyPb
  FromNode : String
  MessageType : MessageType
  Error : String
deriving DecidableEq, Repr

/-- The library and helper calls made by the embedded code, for user messages of type `M`:
`proto.Marshal`, `proto.Unmarshal` (into a fresh envelope: the state the envelope is left
in, and the error), `anypb.New`, `common.CompressData`, `common.UncompressData`,
`common.IsCompressed` and `uuid.New().String()`. -/
structure Deps (M : Type) where
  Marshal : KaiNatsMessage → Except GoError Bytes
  Unmarshal : Bytes → KaiNatsMessage × Option GoError
  anyNew : M → Except GoError AnyPb
  CompressData : Bytes → Except GoError Bytes
  UncompressData : Bytes → Except GoError Bytes
  IsCompressed : Bytes → Bool
  uuidNew : String

/-- The configuration values read through `viper.GetString`, named after their keys. -/
structure Viper where
  ConfigNatsOutputKey : String
  ConfigMetadataProcessIDKey : String
  ConfigNatsStreamKey : String

/-- The part of `nats.StreamInfo` that is read: `Config.MaxMsgSize` (an `int32`). -/
structure StreamInfo where
  MaxMsgSize : Int

/-- The broker's stream context `nats.JetStreamContext`: the outcome of `StreamInfo` for a
stream name and of `Publish` for a subject and a payload. -/
structure JetStream where
  StreamInfo : String → Except GoError StreamInfo
  Publish : String → Bytes → Option GoError

/-- The broker connection `*nats.Conn`: the value of `MaxPayload()`. -/
structure NatsConn where
  MaxPayload : Int

/-- An observable effect: a call `jetstream.Publish(subject, data)` or an error handed to
the logger. -/
inductive Event where
  | publish (subject : String) (data : Bytes) : Event
  | logError (err : GoError) : Event
deriving DecidableEq, Repr

/-- The payloads handed to the broker's `Publish` in a trace, with their subjects. -/
def published : List Event → List (String × Bytes)
  | [] => []
  | Event.publish subject data :: rest => (subject, data) :: published rest
  | Event.logError _ :: rest => published rest

/-! ## `sdk/messaging/messaging_utils.go` -/

/-- The interface `messagingUtils`: the outcome of a call to `GetMaxMessageSize()`. -/
structure MessagingUtils where
  GetMaxMessageSize : Except GoError Int

/-- The struct `MessagingUtilsImpl`. -/
structure MessagingUtilsImpl where
  jetstream : JetStream
  nats : NatsConn

/-- The method `MessagingUtilsImpl.GetMaxMessageSize`. -/
def MessagingUtilsImpl.GetMaxMessageSize (cfg : Viper) (mu : MessagingUtilsImpl) :
    Except GoError Int :=
  match mu.jetstream.StreamInfo cfg.ConfigNatsStreamKey with
  | .error err => .error (.wrapped "error getting stream's max message size: " err)
  | .ok streamInfo =>
    let streamMaxSize : Int := streamInfo.MaxMsgSize
    let serverMaxSize : Int := mu.nats.MaxPayload
    if streamMaxSize = -1 then .ok serverMaxSize
    else if streamMaxSize < serverMaxSize then .ok streamMaxSize
    else .ok serverMaxSize

/-- The implementation seen through the interface. -/
def MessagingUtilsImpl.toMessagingUtils (cfg : Viper) (mu : MessagingUtilsImpl) :
    MessagingUtils :=
  ⟨mu.GetMaxMessageSize cfg⟩

/-! ## `sdk/messaging/messaging_internals.go` -/

/-- The struct `Messaging`: the fields read by the embedded methods. -/
structure Messaging where
  jetstream : JetStream
  messagingUtils : MessagingUtils

namespace Messaging

/-- The method `Messaging.getOutputSubject`. -/
def getOutputSubject (cfg : Viper) (channel : String) : String :=
  let outputSubject := cfg.ConfigNatsOutputKey
  if channel ≠ "" then outputSubject ++ "." ++ channel
  else outputSubject

/-- The method `Messaging.prepareOutputMessage`. -/
def prepareOutputMessage {M : Type} (deps : Deps M) (ms : Messaging) (msg : Bytes) :
    Except GoError Bytes :=
  match ms.messagingUtils.GetMaxMessageSize with
  | .error err => .error (.wrapped "error getting max message size: " err)
  | .ok maxSize =>
    let lenMsg : Int := msg.length
    if lenMsg ≤ maxSize then .ok msg
    else
      match deps.CompressData msg with
      | .error err => .error err
      | .ok outMsg =>
        let lenOutMsg : Int := outMsg.length
        if lenOutMsg > maxSize then .error GoError.ErrMessageToBig
        else .ok outMsg

/-- The method `Messaging.publishResponse`. -/
def publishResponse {M : Type} (deps : Deps M) (cfg : Viper) (ms : Messaging)
    (responseMsg : KaiNatsMessage) (channel : String) : List Event :=
  let outputSubject := getOutputSubject cfg channel
  match deps.Marshal responseMsg with
  | .error err => [Event.logError err]
  | .ok outputMsg =>
    match prepareOutputMessage deps ms outputMsg with
    | .error err => [Event.logError err]
    | .ok outputMsg =>
      match ms.jetstream.Publish outputSubject outputMsg with
      | some err => [Event.publish outputSubject outputMsg, Event.logError err]
      | none => [Event.publish outputSubject outputMsg]

/-- The method `Messaging.newResponseMsg`. -/
def newResponseMsg (cfg : Viper) (payload : Option AnyPb) (requestID : String)
    (msgType : MessageType) : KaiNatsMessage :=
  { RequestId := requestID
    Payload := payload
    FromNode := cfg.ConfigMetadataProcessIDKey
    MessageType := msgType
    Error := "" }

/-- The method `Messaging.publishMsg`: the returned error and the trace. -/
def publishMsg {M : Type} (deps : Deps M) (cfg : Viper) (ms : Messaging) (msg : M)
    (requestID : String) (msgType : MessageType) (channel : String) :
    Option GoError × List Event :=
  match deps.anyNew msg with
  | .error err => (some (.wrapped "the handler result is not a valid protobuf: " err), [])
  | .ok payload =>
    let requestID := if requestID = "" then deps.uuidNew else requestID
    let responseMsg := newResponseMsg cfg (some payload) requestID msgType
    (none, publishResponse deps cfg ms responseMsg channel)

/-- The method `Messaging.publishAny`. -/
def publishAny {M : Type} (deps : Deps M) (cfg : Viper) (ms : Messaging)
    (payload : Option AnyPb) (requestID : String) (msgType : MessageType)
    (channel : String) : List Event :=
  let requestID := if requestID = "" then deps.uuidNew else requestID
  let responseMsg := newResponseMsg cfg payload requestID msgType
  publishResponse deps cfg ms responseMsg channel

/-- The method `Messaging.publishError`. -/
def publishError {M : Type} (deps : Deps M) (cfg : Viper) (ms : Messaging)
    (requestID errMsg channel : String) : List Event :=
  let responseMsg : KaiNatsMessage :=
    { RequestId := requestID
      Error := errMsg
      FromNode := cfg.ConfigMetadataProcessIDKey
      MessageType := MessageType.ERROR
      Payload := none }
  publishResponse deps cfg ms responseMsg channel

end Messaging

/-! ## `runner/exit/subscriber.go`: the exit runner's codec, negotiator and publisher -/

namespace ExitRunner

/-- The struct `Runner` of package `exit`: the broker handles read by the embedded
methods. -/
structure Runner where
  nats : NatsConn
  jetstream : JetStream

/-- The method `Runner.getMaxMessageSize`. -/
def getMaxMessageSize (cfg : Viper) (er : Runner) : Except GoError Int :=
  match er.jetstream.StreamInfo cfg.ConfigNatsStreamKey with
  | .error err => .error (.wrapped "error getting stream's max message size: " err)
  | .ok streamInfo =>
    let streamMaxSize : Int := streamInfo.MaxMsgSize
    let serverMaxSize : Int := er.nats.MaxPayload
    if streamMaxSize = -1 then .ok serverMaxSize
    else if streamMaxSize < serverMaxSize then .ok streamMaxSize
    else .ok serverMaxSize

/-- The method `Runner.getOutputSubject`. -/
def getOutputSubject (cfg : Viper) (channel : String) : String :=
  let outputSubject := cfg.ConfigNatsOutputKey
  if channel ≠ "" then outputSubject ++ "." ++ channel
  else outputSubject

/-- The method `Runner.prepareOutputMessage`. -/
def prepareOutputMessage {M : Type} (deps : Deps M) (cfg : Viper) (er : Runner)
    (msg : Bytes) : Except GoError Bytes :=
  match getMaxMessageSize cfg er with
  | .error err => .error (.wrapped "error getting max message size: " err)
  | .ok maxSize =>
    let lenMsg : Int := msg.length
    if lenMsg ≤ maxSize then .ok msg
    else
      match deps.CompressData msg with
      | .error err => .error err
      | .ok outMsg =>
        let lenOutMsg : Int := outMsg.length
        if lenOutMsg > maxSize then .error GoError.ErrMessageToBig
        else .ok outMsg

/-- The method `Runner.publishResponse`. -/
def publishResponse {M : Type} (deps : Deps M) (cfg : Viper) (er : Runner)
    (responseMsg : KaiNatsMessage) (channel : String) : List Event :=
  let outputSubject := getOutputSubject cfg channel
  match deps.Marshal responseMsg with
  | .error err => [Event.logError err]
  | .ok outputMsg =>
    match prepareOutputMessage deps cfg er outputMsg with
    | .error err => [Event.logError err]
    | .ok outputMsg =>
      match er.jetstream.Publish outputSubject outputMsg with
      | some err => [Event.publish outputSubject outputMsg, Event.logError err]
      | none => [Event.publish outputSubject outputMsg]

/-- The method `Runner.publishError`. -/
def publishError {M : Type} (deps : Deps M) (cfg : Viper) (er : Runner)
    (requestID errMsg : String) : List Event :=
  let responseMsg : KaiNatsMessage :=
    { RequestId := requestID
      Error := errMsg
      FromNode := cfg.ConfigMetadataProcessIDKey
      MessageType := MessageType.ERROR
      Payload := none }
  publishResponse deps cfg er responseMsg ""

/-- The method `Runner.newRequestMessage`: the returned pointer (`none` is nil), the
returned error, and the trace. -/
def newRequestMessage {M : Type} (deps : Deps M) (data : Bytes) :
    (Option KaiNatsMessage × Option GoError) × List Event :=
  if deps.IsCompressed data then
    match deps.UncompressData data with
    | .error err => ((none, some err), [Event.logError err])
    | .ok data =>
      let (requestMsg, err) := deps.Unmarshal data
      ((some requestMsg, err), [])
  else
    let (requestMsg, err) := deps.Unmarshal data
    ((some requestMsg, err), [])

end ExitRunner

/-! ## `sdk/messaging/messaging_internals.go`: reading the request identifier -/

/-- The part of a broker delivery `*nats.Msg` that is read: its subject, its data, and the
outcome of a call to `msg.Ack()`. -/
structure NatsMsg where
  Subject : String
  Data : Bytes
  Ack : Option GoError

/-- The nil-safe getter `(*KaiNatsMessage).GetRequestId`. -/
def GetRequestId : Option KaiNatsMessage → String
  | some m => m.RequestId
  | none => ""

/-- The nil-safe getter `(*KaiNatsMessage).GetFromNode`. -/
def GetFromNode : Option KaiNatsMessage → String
  | some m => m.FromNode
  | none => ""

/-- The nil-safe getter `(*KaiNatsMessage).GetPayload`. -/
def GetPayload : Option KaiNatsMessage → Option AnyPb
  | some m => m.Payload
  | none => none

/-- The method `Messaging.GetRequestID`: the returned identifier, the returned error, and
the trace. -/
def Messaging.GetRequestID {M : Type} (deps : Deps M) (msg : NatsMsg) :
    (String × Option GoError) × List Event :=
  let data := msg.Data
  if deps.IsCompressed data then
    match deps.UncompressData data with
    | .error err => (("", some err), [Event.logError err])
    | .ok data =>
      match deps.Unmarshal data with
      | (_, some err) => (("", some err), [Event.logError err])
      | (requestMsg, none) => ((requestMsg.RequestId, none), [])
  else
    match deps.Unmarshal data with
    | (_, some err) => (("", some err), [Event.logError err])
    | (requestMsg, none) => ((requestMsg.RequestId, none), [])

/-! ## `runner/exit/exit_runner.go` and `runner/exit/subscriber.go`: the dispatcher -/

/-- The standard-library calls made by the dispatcher: `strings.ToLower`, the `%q` verb of
`fmt` on a string, and the `Error()` text of an error (the `%s` verb on an error). -/
structure Std where
  ToLower : String → String
  Quote : String → String
  ErrorText : GoError → String

namespace ExitRunner

/-- The callback type `common.Handler` (and `Preprocessor`, `Handler`, `Postprocessor`
defined from it): what the callback returns for the SDK copy that carries the request and
for the payload. What the callback itself does with the SDK is not part of the model. -/
abbrev Handler := Option KaiNatsMessage → Option AnyPb → Option GoError

/-- The callback fields of the struct `Runner`, with the process name answered by
`er.sdk.Metadata.GetProcess()`. The map `responseHandlers` gives the handler stored under
a key, `none` when the key is absent; a nil `preprocessor` or `postprocessor` is `none`. -/
structure Callbacks where
  process : String
  responseHandlers : String → Option Handler
  preprocessor : Option Handler
  postprocessor : Option Handler

/-- Modelled from the spec: `runner/exit/helpers.go` is not part of the embedded files; by
the spec the composed handler invokes the user callback if present, propagating its result
unchanged, and returns success if absent (`composeHandler` of `runner/task/helpers.go` has
this shape). -/
def composeHandler (handler : Option Handler) : Handler :=
  fun kaiSDK response =>
    match handler with
    | some h => h kaiSDK response
    | none => none

/-- The callbacks of `NewExitRunner`: an empty handler map and no stage. -/
def NewExitRunner (process : String) : Callbacks :=
  { process := process
    responseHandlers := fun _ => none
    preprocessor := none
    postprocessor := none }

/-- The method `Runner.WithHandler`. -/
def WithHandler (er : Callbacks) (handler : Option Handler) : Callbacks :=
  { er with
    responseHandlers := fun key =>
      if key = "default" then some (composeHandler handler) else er.responseHandlers key }

/-- The method `Runner.WithCustomHandler`. -/
def WithCustomHandler (std : Std) (er : Callbacks) (subject : String)
    (handler : Option Handler) : Callbacks :=
  { er with
    responseHandlers := fun key =>
      if key = std.ToLower subject then some (composeHandler handler)
      else er.responseHandlers key }

/-- The method `Runner.getResponseHandler`; `none` is the nil handler. -/
def getResponseHandler (er : Callbacks) (subject : String) : Option Handler :=
  match er.responseHandlers subject with
  | some responseHandler => some responseHandler
  | none => er.responseHandlers "default"

/-- The three stages of the pipeline. -/
inductive Stage where
  | preprocessor : Stage
  | handler : Stage
  | postprocessor : Stage
deriving DecidableEq, Repr

/-- An observable step of the dispatcher: a call to `msg.Ack()`, a call of a stage with
the payload it is given, a call to `messagesMetric.Record` tagged with a request
identifier, or an effect of the publisher or the logger. -/
inductive RunnerEvent where
  | ack : RunnerEvent
  | invoke (stage : Stage) (payload : Option AnyPb) : RunnerEvent
  | record (requestID : String) : RunnerEvent
  | effect (e : Event) : RunnerEvent
deriving DecidableEq, Repr

/-- The method `Runner.processRunnerError`. -/
def processRunnerError {M : Type} (deps : Deps M) (cfg : Viper) (er : Runner)
    (msg : NatsMsg) (errMsg requestID : String) : List RunnerEvent :=
  let ackLog : List RunnerEvent :=
    match msg.Ack with
    | some ackErr => [RunnerEvent.effect (Event.logError ackErr)]
    | none => []
  [RunnerEvent.ack] ++ ackLog ++
    (publishError deps cfg er requestID errMsg).map RunnerEvent.effect

/-- The method `Runner.processMessage`. The deferred metric recording is the last step of
every path on which the `defer` statement has been reached. -/
def processMessage {M : Type} (deps : Deps M) (std : Std) (cfg : Viper) (er : Runner)
    (cb : Callbacks) (msg : NatsMsg) : List RunnerEvent :=
  match newRequestMessage deps msg.Data with
  | ((requestMsg, some err), decodeLog) =>
    let errMsg := "Error parsing msg.data coming from subject " ++ msg.Subject ++
      " because is not a valid protobuf: " ++ std.ErrorText err
    decodeLog.map RunnerEvent.effect ++
      processRunnerError deps cfg er msg errMsg (GetRequestId requestMsg)
  | ((requestMsg, none), decodeLog) =>
    let deferred := [RunnerEvent.record (GetRequestId requestMsg)]
    let body : List RunnerEvent :=
      match getResponseHandler cb (std.ToLower (GetFromNode requestMsg)) with
      | none =>
        let errMsg := "Error missing handler for node " ++ std.Quote (GetFromNode requestMsg)
        processRunnerError deps cfg er msg errMsg (GetRequestId requestMsg)
      | some handler =>
        let pre : Option GoError × List RunnerEvent :=
          match cb.preprocessor with
          | some preprocessor =>
            (preprocessor requestMsg (GetPayload requestMsg),
              [RunnerEvent.invoke Stage.preprocessor (GetPayload requestMsg)])
          | none => (none, [])
        match pre.1 with
        | some err =>
          let errMsg := "Error in node " ++ std.Quote cb.process ++
            " executing handler preprocessor for node " ++
            std.Quote (GetFromNode requestMsg) ++ ": " ++ std.ErrorText err
          pre.2 ++ processRunnerError deps cfg er msg errMsg (GetRequestId requestMsg)
        | none =>
          match handler requestMsg (GetPayload requestMsg) with
          | some err =>
            let errMsg := "Error in node " ++ std.Quote cb.process ++
              " executing handler for node " ++
              std.Quote (GetFromNode requestMsg) ++ ": " ++ std.ErrorText err
            pre.2 ++ [RunnerEvent.invoke Stage.handler (GetPayload requestMsg)] ++
              processRunnerError deps cfg er msg errMsg (GetRequestId requestMsg)
          | none =>
            let post : Option GoError × List RunnerEvent :=
              match cb.postprocessor with
              | some postprocessor =>
                (postprocessor requestMsg (GetPayload requestMsg),
                  [RunnerEvent.invoke Stage.postprocessor (GetPayload requestMsg)])
              | none => (none, [])
            match post.1 with
            | some err =>
              let errMsg := "Error in node " ++ std.Quote cb.process ++
                " executing handler postprocessor for node " ++
                std.Quote (GetFromNode requestMsg) ++ ": " ++ std.ErrorText err
              pre.2 ++ [RunnerEvent.invoke Stage.handler (GetPayload requestMsg)] ++
                post.2 ++
                processRunnerError deps cfg er msg errMsg (GetRequestId requestMsg)
            | none =>
              let ackLog : List RunnerEvent :=
                match msg.Ack with
                | some ackErr => [RunnerEvent.effect (Event.logError ackErr)]
                | none => []
              pre.2 ++ [RunnerEvent.invoke Stage.handler (GetPayload requestMsg)] ++
                post.2 ++ [RunnerEvent.ack] ++ ackLog
    decodeLog.map RunnerEvent.effect ++ body ++ deferred

/-- The number of calls to `msg.Ack()` in a trace. -/
def acks (trace : List RunnerEvent) : Nat :=
  trace.count RunnerEvent.ack

/-- The stage calls of a trace, in order, with the payload each was given. -/
def invocations : List RunnerEvent → List (Stage × Option AnyPb)
  | [] => []
  | RunnerEvent.invoke stage payload :: rest => (stage, payload) :: invocations rest
  | _ :: rest => invocations rest

/-- The request identifiers of the metric recordings of a trace. -/
def records : List RunnerEvent → List String
  | [] => []
  | RunnerEvent.record requestID :: rest => requestID :: records rest
  | _ :: rest => records rest

/-- The publisher and logger effects of a trace. -/
def effects : List RunnerEvent → List Event
  | [] => []
  | RunnerEvent.effect e :: rest => e :: effects rest
  | _ :: rest => effects rest

end ExitRunner

/-! ## Vocabulary for the properties of the dispatcher and of the envelopes -/

namespace ExitRunner

/-- What an optional stage returns on a request: success when the stage is not
configured. -/
def stageResult (stage : Option Handler) (requestMsg : Option KaiNatsMessage) :
    Option GoError :=
  match stage with
  | some f => f requestMsg (GetPayload requestMsg)
  | none => none

/-- The call of an optional stage on a request: none when the stage is not configured. -/
def stageCalls (stage : Option Handler) (name : Stage)
    (requestMsg : Option KaiNatsMessage) : List (Stage × Option AnyPb) :=
  match stage with
  | some _ => [(name, GetPayload requestMsg)]
  | none => []

/-- The error message for a failed stage: it names the stage, the consuming node, the
originating node and the text of the error. -/
def stageErrorMessage (std : Std) (process fromNode : String) : Stage → GoError → String
  | Stage.preprocessor, err =>
    "Error in node " ++ std.Quote process ++ " executing handler preprocessor for node " ++
      std.Quote fromNode ++ ": " ++ std.ErrorText err
  | Stage.handler, err =>
    "Error in node " ++ std.Quote process ++ " executing handler for node " ++
      std.Quote fromNode ++ ": " ++ std.ErrorText err
  | Stage.postprocessor, err =>
    "Error in node " ++ std.Quote process ++ " executing handler postprocessor for node " ++
      std.Quote fromNode ++ ": " ++ std.ErrorText err

/-- Whether no `Publish` call comes before the first acknowledgment of a trace. -/
def ackFirst : List RunnerEvent → Bool
  | [] => true
  | RunnerEvent.ack :: _ => true
  | RunnerEvent.effect (Event.publish _ _) :: _ => false
  | _ :: rest => ackFirst rest

end ExitRunner

/-- The envelope invariant of the data model, as the spec words it: the error text is
non-empty exactly when the message type is ERROR, and the payload is present exactly when
the message type is not ERROR. -/
def EnvelopeInvariant (env : KaiNatsMessage) : Prop :=
  (env.Error ≠ "" ↔ env.MessageType = MessageType.ERROR) ∧
  (env.Payload ≠ none ↔ env.MessageType ≠ MessageType.ERROR)

/-! ## What the codec assumes of its libraries -/

/-- The contract of the protobuf and compression libraries on which decoding what was
encoded relies: parsing a serialized envelope gives the envelope back; the output of
`CompressData` carries the compression marker and `UncompressData` reverses it; a
serialized envelope does not carry the marker. -/
structure Deps.Lawful {M : Type} (deps : Deps M) : Prop where
  unmarshal_marshal : ∀ (E : KaiNatsMessage) (b : Bytes),
    deps.Marshal E = .ok b → deps.Unmarshal b = (E, none)
  isCompressed_compress : ∀ b c : Bytes,
    deps.CompressData b = .ok c → deps.IsCompressed c = true
  uncompress_compress : ∀ b c : Bytes,
    deps.CompressData b = .ok c → deps.UncompressData c = .ok b
  isCompressed_marshal : ∀ (E : KaiNatsMessage) (b : Bytes),
    deps.Marshal E = .ok b → deps.IsCompressed b = false

/-! ## A small concrete instance

A table-driven codec on which the definitions can be evaluated: two envelopes with their
wire bytes, and a compressor that knows one short code and otherwise stores its input
behind the marker. -/

namespace Sample

/-- An OK envelope without payload. -/
def okEnvelope : KaiNatsMessage := ⟨"123", none, "parent-node", MessageType.OK, ""⟩

/-- The wire bytes of `okEnvelope`. -/
def okWire : Bytes :=
  [10, 3, 49, 50, 51, 26, 11, 112, 97, 114, 101, 110, 116, 45, 110, 111, 100, 101,
    32, 1]

/-- An ERROR envelope. -/
def errorEnvelope : KaiNatsMessage :=
  ⟨"123", none, "parent-node", MessageType.ERROR, "some-error"⟩

/-- The wire bytes of `errorEnvelope`. -/
def errorWire : Bytes :=
  [10, 3, 49, 50, 51, 26, 11, 112, 97, 114, 101, 110, 116, 45, 110, 111, 100, 101,
    32, 2, 42, 10, 115, 111, 109, 101, 45, 101, 114, 114, 111, 114]

/-- An OK envelope with the payload that the sample `anyNew` builds. -/
def payloadEnvelope : KaiNatsMessage :=
  ⟨"123", some ⟨"type.googleapis.com/google.protobuf.StringValue", [10, 1, 65]⟩,
    "parent-node", MessageType.OK, ""⟩

/-- The wire bytes of `payloadEnvelope`. -/
def payloadWire : Bytes :=
  [10, 3, 49, 50, 51, 18, 54, 10, 47, 116, 121, 112, 101, 46, 103, 111, 111, 103, 108,
    101, 97, 112, 105, 115, 46, 99, 111, 109, 47, 103, 111, 111, 103, 108, 101, 46,
    112, 114, 111, 116, 111, 98, 117, 102, 46, 83, 116, 114, 105, 110, 103, 86, 97,
    108, 117, 101, 18, 3, 10, 1, 65, 26, 11, 112, 97, 114, 101, 110, 116, 45, 110, 111,
    100, 101, 32, 1]

/-- The table-driven libraries. -/
def deps : Deps String where
  Marshal E :=
    if E = okEnvelope then .ok okWire
    else if E = errorEnvelope then .ok errorWire
    else if E = payloadEnvelope then .ok payloadWire
    else .error (.external "proto: cannot marshal")
  Unmarshal b :=
    if b = okWire then (okEnvelope, none)
    else if b = errorWire then (errorEnvelope, none)
    else if b = payloadWire then (payloadEnvelope, none)
    else (⟨"", none, "", MessageType.OK, ""⟩, some (.external "proto: cannot parse"))
  anyNew s :=
    if s = "" then .error (.external "proto: invalid message")
    else .ok ⟨"type.googleapis.com/google.protobuf.StringValue", [10, 1, 65]⟩
  CompressData b := if b = okWire then .ok [31, 139, 0] else .ok (31 :: 139 :: 1 :: b)
  UncompressData c :=
    if c = [31, 139, 0] then .ok okWire
    else if c.take 3 = [31, 139, 1] then .ok (c.drop 3)
    else .error (.external "gzip: invalid header")
  IsCompressed c := decide (c.take 2 = [31, 139])
  uuidNew := "00000000-0000-4000-8000-000000000001"

/-- The configuration of the messaging tests. -/
def viper : Viper := ⟨"test-parent", "parent-node", "test-stream"⟩

/-- A broker whose stream reports `streamMax` and whose `Publish` answers `publishErr`. -/
def jetstream (streamMax : Except GoError Int) (publishErr : Option GoError) : JetStream where
  StreamInfo _ := streamMax.map StreamInfo.mk
  Publish _ _ := publishErr

/-- A `Messaging` whose size negotiation answers `maxSize` and whose broker accepts every
publish. -/
def messaging (maxSize : Except GoError Int) : Messaging :=
  ⟨jetstream (.ok (-1)) none, ⟨maxSize⟩⟩

/-- An exit runner on a stream limited to `streamMax`, on a connection limited to
`serverMax`. -/
def runner (streamMax serverMax : Int) : ExitRunner.Runner :=
  ⟨⟨serverMax⟩, jetstream (.ok streamMax) none⟩

end Sample

/-! ## A concrete dispatcher

The scenario of the spec: an exit node `exit-node` receives a delivery on
`orders.created` from node `Orders`. -/

namespace Sample

/-- The inbound envelope. -/
def inboundEnvelope : KaiNatsMessage := ⟨"req-7", none, "Orders", MessageType.OK, ""⟩

/-- The wire bytes of `inboundEnvelope`. -/
def inboundWire : Bytes :=
  [10, 5, 114, 101, 113, 45, 55, 26, 6, 79, 114, 100, 101, 114, 115, 32, 1]

/-- The ERROR envelope for a handler that fails with "insufficient stock". -/
def stockEnvelope : KaiNatsMessage :=
  ⟨"req-7", none, "parent-node", MessageType.ERROR,
    "Error in node \"exit-node\" executing handler for node \"Orders\": insufficient stock"⟩

/-- The wire bytes of `stockEnvelope`. -/
def stockWire : Bytes :=
  [10, 5, 114, 101, 113, 45, 55, 26, 11, 112, 97, 114, 101, 110, 116, 45, 110, 111,
    100, 101, 32, 2, 42, 81, 69, 114, 114, 111, 114, 32, 105, 110, 32, 110, 111, 100,
    101, 32, 34, 101, 120, 105, 116, 45, 110, 111, 100, 101, 34, 32, 101, 120, 101, 99,
    117, 116, 105, 110, 103, 32, 104, 97, 110, 100, 108, 101, 114, 32, 102, 111, 114,
    32, 110, 111, 100, 101, 32, 34, 79, 114, 100, 101, 114, 115, 34, 58, 32, 105, 110,
    115, 117, 102, 102, 105, 99, 105, 101, 110, 116, 32, 115, 116, 111, 99, 107]

/-- The ERROR envelope for a missing handler. -/
def missingEnvelope : KaiNatsMessage :=
  ⟨"req-7", none, "parent-node", MessageType.ERROR,
    "Error missing handler for node \"Orders\""⟩

/-- The wire bytes of `missingEnvelope`. -/
def missingWire : Bytes :=
  [10, 5, 114, 101, 113, 45, 55, 26, 11, 112, 97, 114, 101, 110, 116, 45, 110, 111,
    100, 101, 32, 2, 42, 39, 69, 114, 114, 111, 114, 32, 109, 105, 115, 115, 105, 110,
    103, 32, 104, 97, 110, 100, 108, 101, 114, 32, 102, 111, 114, 32, 110, 111, 100,
    101, 32, 34, 79, 114, 100, 101, 114, 115, 34]

/-- The sample libraries, extended with the three envelopes of the scenario. -/
def dispatchDeps : Deps String :=
  { deps with
    Marshal := fun E =>
      if E = inboundEnvelope then .ok inboundWire
      else if E = stockEnvelope then .ok stockWire
      else if E = missingEnvelope then .ok missingWire
      else deps.Marshal E
    Unmarshal := fun b =>
      if b = inboundWire then (inboundEnvelope, none)
      else if b = stockWire then (stockEnvelope, none)
      else if b = missingWire then (missingEnvelope, none)
      else deps.Unmarshal b }

/-- The text of an error: that of a wrapped error is its context followed by the text of
its cause. -/
def errorText : GoError → String
  | GoError.ErrMessageToBig => "message too big"
  | GoError.external text => text
  | GoError.wrapped context cause => context ++ errorText cause

/-- Lower-casing of the letters A to Z, quoting of a string without special characters,
and the text of an error. -/
def std : Std where
  ToLower s := String.mk (s.data.map Char.toLower)
  Quote s := "\"" ++ s ++ "\""
  ErrorText := errorText

/-- A handler that succeeds. -/
def okHandler : ExitRunner.Handler := fun _ _ => none

/-- A handler that fails with "insufficient stock". -/
def stockHandler : ExitRunner.Handler := fun _ _ => some (GoError.external "insufficient stock")

/-- An exit node `exit-node` with a default handler and no other stage. -/
def callbacks (handler : ExitRunner.Handler) : ExitRunner.Callbacks :=
  ExitRunner.WithHandler (ExitRunner.NewExitRunner "exit-node") (some handler)

/-- A delivery of the inbound envelope on `orders.created`, whose acknowledgment answers
`ackErr`. -/
def delivery (ackErr : Option GoError) : NatsMsg :=
  { Subject := "orders.created", Data := inboundWire, Ack := ackErr }

end Sample

/-! ## `runner/task/helpers.go` and `runner/task/task_runner.go`: composition and startup -/

/-- What a lifecycle callback or a stage does besides informational logging: the call
`common.InitializeProcessConfiguration(kaiSDK)`, or an action of user code. -/
inductive StageEvent where
  | initializeProcessConfiguration : StageEvent
  | user (action : String) : StageEvent
deriving DecidableEq, Repr

/-- The callback type `common.Initializer`: a callback without result is modelled by the
trace of what it does when it is called. -/
abbrev Initializer := List StageEvent

/-- The callback type `common.Finalizer`, modelled as `Initializer` is. -/
abbrev Finalizer := List StageEvent

/-- A step of `Run` in the task and exit runners: an event of the initializer or of the
finalizer, or the call to `startSubscriber`, which returns at shutdown. -/
inductive RunEvent where
  | stage (e : StageEvent) : RunEvent
  | startSubscriber : RunEvent
deriving DecidableEq, Repr

namespace TaskRunner

/-- The callback type `common.Handler` (and `Preprocessor`, `Handler`, `Postprocessor`
defined from it): the error the callback returns and the trace of what it does, for the
SDK copy that carries the request and for the payload. -/
abbrev Handler := Option KaiNatsMessage → Option AnyPb → Option GoError × List StageEvent

/-- The function `composeInitializer` of package `task`. -/
def composeInitializer (initializer : Option Initializer) : Initializer :=
  [StageEvent.initializeProcessConfiguration] ++
    (match initializer with
     | some userInitializer => userInitializer
     | none => [])

/-- The function `composePreprocessor`. -/
def composePreprocessor (preprocessor : Option Handler) : Handler :=
  fun kaiSDK response =>
    match preprocessor with
    | some userPreprocessor => userPreprocessor kaiSDK response
    | none => (none, [])

/-- The function `composeHandler` of package `task`. -/
def composeHandler (handler : Option Handler) : Handler :=
  fun kaiSDK response =>
    match handler with
    | some userHandler => userHandler kaiSDK response
    | none => (none, [])

/-- The function `composePostprocessor`. -/
def composePostprocessor (postprocessor : Option Handler) : Handler :=
  fun kaiSDK response =>
    match postprocessor with
    | some userPostprocessor => userPostprocessor kaiSDK response
    | none => (none, [])

/-- The function `composeFinalizer` of package `task`. -/
def composeFinalizer (finalizer : Option Finalizer) : Finalizer :=
  match finalizer with
  | some userFinalizer => userFinalizer
  | none => []

/-- The callback fields of the struct `Runner` of package `task`; a nil field is `none`,
and the map `responseHandlers` gives the handler stored under a key. -/
structure Runner where
  responseHandlers : String → Option Handler
  initializer : Option Initializer
  preprocessor : Option Handler
  postprocessor : Option Handler
  finalizer : Option Finalizer

/-- The callbacks of `NewTaskRunner`. -/
def NewTaskRunner : Runner :=
  { responseHandlers := fun _ => none
    initializer := none
    preprocessor := none
    postprocessor := none
    finalizer := none }

/-- The method `Runner.WithInitializer`. -/
def WithInitializer (tr : Runner) (initializer : Option Initializer) : Runner :=
  { tr with initializer := some (composeInitializer initializer) }

/-- The method `Runner.WithPreprocessor`. -/
def WithPreprocessor (tr : Runner) (preprocessor : Option Handler) : Runner :=
  { tr with preprocessor := some (composePreprocessor preprocessor) }

/-- The method `Runner.WithHandler`. -/
def WithHandler (tr : Runner) (handler : Option Handler) : Runner :=
  { tr with
    responseHandlers := fun key =>
      if key = "default" then some (composeHandler handler) else tr.responseHandlers key }

/-- The method `Runner.WithCustomHandler`. -/
def WithCustomHandler (std : Std) (tr : Runner) (subject : String)
    (handler : Option Handler) : Runner :=
  { tr with
    responseHandlers := fun key =>
      if key = std.ToLower subject then some (composeHandler handler)
      else tr.responseHandlers key }

/-- The method `Runner.WithPostprocessor`. -/
def WithPostprocessor (tr : Runner) (postprocessor : Option Handler) : Runner :=
  { tr with postprocessor := some (composePostprocessor postprocessor) }

/-- The method `Runner.WithFinalizer`. -/
def WithFinalizer (tr : Runner) (finalizer : Option Finalizer) : Runner :=
  { tr with finalizer := some (composeFinalizer finalizer) }

/-- The method `Runner.Run`: the panic message, or the trace of a run in which every call
returns. -/
def Run (tr : Runner) : Except String (List RunEvent) :=
  match tr.responseHandlers "default" with
  | none => .error "Undefined default handler"
  | some _ =>
    let initializer : Initializer :=
      match tr.initializer with
      | some initializer => initializer
      | none => composeInitializer none
    let finalizer : Finalizer :=
      match tr.finalizer with
      | some finalizer => finalizer
      | none => composeFinalizer none
    .ok (initializer.map RunEvent.stage ++ [RunEvent.startSubscriber] ++
      finalizer.map RunEvent.stage)

end TaskRunner

/-! ## `runner/exit/exit_runner.go` and `runner/exit/subscriber.go`: startup and consumer name -/

namespace ExitRunner

/-- The method `Runner.Run` of package `exit`, on the handler map of the runner and its
`initializer` and `finalizer` fields. The values `composeInitializer(nil)` and
`composeFinalizer(nil)` of package `exit`, whose `helpers.go` is not part of the embedded
files, are the parameters `defaultInitializer` and `defaultFinalizer`. -/
def Run (er : Callbacks) (initializer : Option Initializer) (finalizer : Option Finalizer)
    (defaultInitializer : Initializer) (defaultFinalizer : Finalizer) :
    Except String (List RunEvent) :=
  match er.responseHandlers "default" with
  | none => .error "Undefined default handler"
  | some _ =>
    let initializer : Initializer :=
      match initializer with
      | some initializer => initializer
      | none => defaultInitializer
    let finalizer : Finalizer :=
      match finalizer with
      | some finalizer => finalizer
      | none => defaultFinalizer
    .ok (initializer.map RunEvent.stage ++ [RunEvent.startSubscriber] ++
      finalizer.map RunEvent.stage)

/-- The call `strings.ReplaceAll(s, old, new)` for patterns `old` and `new` of one
character each. -/
def ReplaceAll (s : String) (old new : Char) : String :=
  String.mk (s.data.map (fun c => if c = old then new else c))

/-- The value of `consumerName` in `Runner.startSubscriber`, for an input subject and the
process name answered by `er.sdk.Metadata.GetProcess()`. -/
def consumerName (subject process : String) : String :=
  ReplaceAll subject '.' '-' ++ "-" ++ ReplaceAll (ReplaceAll process '.' '-') ' ' '-'

end ExitRunner

/-! ## `runner/trigger/helpers.go` and `runner/trigger/trigger_runner.go` -/

namespace TriggerRunner

/-- A channel `chan *anypb.Any`, identified by the number of channels made before it. -/
abbrev Chan := Nat

/-- A value held by the map `responseChannels`, of type `interface{}`: a channel, or a
value of another type. -/
inductive Stored where
  | channel (ch : Chan) : Stored
  | other (description : String) : Stored
deriving DecidableEq, Repr

/-- The errors of package `trigger`: the sentinels `ErrHandlerNotFound` and
`ErrInvalidHandlerType`, and the error built by `fmt.Errorf("%w %q", cause, requestID)`. -/
inductive ResponseError where
  | ErrHandlerNotFound : ResponseError
  | ErrInvalidHandlerType : ResponseError
  | forRequest (cause : ResponseError) (requestID : String) : ResponseError
deriving DecidableEq, Repr

/-- The chain test of `errors.Is` on the errors of package `trigger`. -/
def ResponseError.Is : ResponseError → ResponseError → Bool
  | ResponseError.forRequest cause requestID, target =>
      decide (ResponseError.forRequest cause requestID = target) || ResponseError.Is cause target
  | err, target => decide (err = target)

/-- The entries of a `sync.Map` with string keys, each key once; `Range` visits them in
the order of the list. -/
abbrev SyncMap := List (String × Stored)

/-- The method `sync.Map.Load`. -/
def SyncMap.Load : SyncMap → String → Option Stored
  | [], _ => none
  | (k, v) :: rest, key => if k = key then some v else SyncMap.Load rest key

/-- The entries of a map without those of a key. -/
def SyncMap.Delete (m : SyncMap) (key : String) : SyncMap :=
  m.filter (fun entry => decide (entry.1 ≠ key))

/-- The method `sync.Map.Store`. -/
def SyncMap.Store (m : SyncMap) (key : String) (value : Stored) : SyncMap :=
  (key, value) :: SyncMap.Delete m key

/-- The method `sync.Map.LoadAndDelete`: the value found, and the map left. -/
def SyncMap.LoadAndDelete (m : SyncMap) (key : String) : Option Stored × SyncMap :=
  match SyncMap.Load m key with
  | some value => (some value, SyncMap.Delete m key)
  | none => (none, m)

/-- The waiter table: the field `responseChannels` of the struct `Runner`, with the number
of channels made so far, which gives each new channel its identity. -/
structure Waiters where
  responseChannels : SyncMap
  made : Nat
deriving DecidableEq, Repr

/-- An operation completed on a channel: a send of a payload that a receiver took, or a
close. -/
inductive ChanEvent where
  | send (ch : Chan) (response : Option AnyPb) : ChanEvent
  | close (ch : Chan) : ChanEvent
deriving DecidableEq, Repr

/-- The method `Runner.GetResponseChannel`: the table left and the channel returned, `none`
when the type assertion on the loaded value panics. -/
def GetResponseChannel (tr : Waiters) (requestID : String) : Waiters × Option Chan :=
  let stored : Waiters :=
    { responseChannels := SyncMap.Store tr.responseChannels requestID (Stored.channel tr.made)
      made := tr.made + 1 }
  match SyncMap.Load stored.responseChannels requestID with
  | some (Stored.channel ch) => (stored, some ch)
  | _ => (stored, none)

/-- What a send finds on a channel made by `make(chan *anypb.Any)`, which has no buffer:
the channel is open and a receiver takes the value, the channel is open and no receiver
takes the value, or the channel is closed (before the send, or while the send waits). -/
inductive ChanState where
  | receiver : ChanState
  | noReceiver : ChanState
  | closed : ChanState
deriving DecidableEq, Repr

/-- How a call of the response handler ends: it returns an error (`none` is the nil
error), it stays blocked in the send and does not return, or it panics. -/
inductive Outcome where
  | returned (err : Option ResponseError) : Outcome
  | blocked : Outcome
  | panicked (message : String) : Outcome
deriving DecidableEq, Repr

/-- The handler returned by `getResponseHandler(handlers)`, called with an SDK whose
`GetRequestID()` answers `requestID`, when `chans` tells what a send finds on each
channel: the map left, how the call ends and the sends that were completed. The entry is
taken out of the map before the send; the send `ch <- response` completes, and the
handler goes on to return nil, only when a receiver takes the value; without one the
handler stays in the send, and on a closed channel the send panics. -/
def getResponseHandler (chans : Chan → ChanState) (handlers : SyncMap) (requestID : String)
    (response : Option AnyPb) : SyncMap × Outcome × List ChanEvent :=
  match SyncMap.LoadAndDelete handlers requestID with
  | (none, left) =>
    (left,
      Outcome.returned
        (some (ResponseError.forRequest ResponseError.ErrHandlerNotFound requestID)), [])
  | (some (Stored.channel ch), left) =>
    match chans ch with
    | ChanState.receiver => (left, Outcome.returned none, [ChanEvent.send ch response])
    | ChanState.noReceiver => (left, Outcome.blocked, [])
    | ChanState.closed => (left, Outcome.panicked "send on closed channel", [])
  | (some (Stored.other _), left) =>
    (left, Outcome.returned (some ResponseError.ErrInvalidHandlerType), [])

/-- The user's driver function of type `RunnerFunc`, started as a goroutine: it is
modelled by the trace of what it does. -/
abbrev UserRunner := List StageEvent

/-- A step of the composed runner or of `Run`: an event of the initializer or of the
finalizer, the start of a goroutine for the user's driver, for the stored runner or for
the subscriber, the wait for the termination signal, an operation on a channel, a panic,
`wg.Done()` or `wg.Wait()`. -/
inductive TriggerEvent where
  | stage (e : StageEvent) : TriggerEvent
  | goUserRunner (body : UserRunner) : TriggerEvent
  | goRunner : TriggerEvent
  | goStartSubscriber : TriggerEvent
  | awaitSignal : TriggerEvent
  | chan (e : ChanEvent) : TriggerEvent
  | panicked (message : String) : TriggerEvent
  | wgDone : TriggerEvent
  | wgWait : TriggerEvent
deriving DecidableEq, Repr

/-- The loop `runner.responseChannels.Range(...)` of the shutdown branch, followed by the
steps `after`: each value is asserted to be a channel and closed. -/
def rangeClose : SyncMap → List TriggerEvent → List TriggerEvent
  | [], after => after
  | (_, Stored.channel ch) :: rest, after =>
    TriggerEvent.chan (ChanEvent.close ch) :: rangeClose rest after
  | (_, Stored.other _) :: _, _ => [TriggerEvent.panicked "interface conversion"]

/-- The type `RunnerFunc` of a stored runner: its trace, for the waiter table it finds
when the termination signal arrives. -/
abbrev RunnerFunc := Waiters → List TriggerEvent

/-- The function `composeRunner`. -/
def composeRunner (userRunner : Option UserRunner) : RunnerFunc :=
  fun runner =>
    (match userRunner with
     | some body => [TriggerEvent.goUserRunner body]
     | none => []) ++
    [TriggerEvent.awaitSignal] ++
    rangeClose runner.responseChannels [TriggerEvent.wgDone]

/-- The function `composeInitializer` of package `trigger`. -/
def composeInitializer (initializer : Option Initializer) : Initializer :=
  [StageEvent.initializeProcessConfiguration] ++
    (match initializer with
     | some userInitializer => userInitializer
     | none => [])

/-- The function `composeFinalizer` of package `trigger`. -/
def composeFinalizer (userFinalizer : Option Finalizer) : Finalizer :=
  match userFinalizer with
  | some finalizer => finalizer
  | none => []

/-- The fields of the struct `Runner` of package `trigger` that `Run` reads; a nil field is
`none`. -/
structure Runner where
  initializer : Option Initializer
  runner : Option RunnerFunc
  finalizer : Option Finalizer

/-- The callbacks of `NewTriggerRunner`. -/
def NewTriggerRunner : Runner :=
  { initializer := none, runner := none, finalizer := none }

/-- The method `Runner.WithInitializer`. -/
def WithInitializer (tr : Runner) (initializer : Option Initializer) : Runner :=
  { tr with initializer := some (composeInitializer initializer) }

/-- The method `Runner.WithRunner`. -/
def WithRunner (tr : Runner) (runner : Option UserRunner) : Runner :=
  { tr with runner := some (composeRunner runner) }

/-- The method `Runner.WithFinalizer`. -/
def WithFinalizer (tr : Runner) (finalizer : Option Finalizer) : Runner :=
  { tr with finalizer := some (composeFinalizer finalizer) }

/-- The method `Runner.Run` of package `trigger`: the panic message, or the trace of the
calling goroutine in a run in which `wg.Wait()` returns. -/
def Run (tr : Runner) : Except String (List TriggerEvent) :=
  match tr.runner with
  | none => .error "Undefined runner function"
  | some _ =>
    let initializer : Initializer :=
      match tr.initializer with
      | some initializer => initializer
      | none => composeInitializer none
    let finalizer : Finalizer :=
      match tr.finalizer with
      | some finalizer => finalizer
      | none => composeFinalizer none
    .ok (initializer.map TriggerEvent.stage ++
      [TriggerEvent.goRunner, TriggerEvent.goStartSubscriber, TriggerEvent.wgWait] ++
      finalizer.map TriggerEvent.stage)

/-- An operation on the waiter table: a call to `GetResponseChannel`, or the delivery of a
reply to the response handler. -/
inductive Op where
  | register (requestID : String) : Op
  | reply (requestID : String) (response : Option AnyPb) : Op
deriving DecidableEq, Repr

/-- The waiter table after an operation. The reply is one whose send a receiver takes;
the table that the response handler leaves is the same whatever the send finds, since
the entry is taken out before the send. -/
def step (w : Waiters) : Op → Waiters
  | Op.register requestID => (GetResponseChannel w requestID).1
  | Op.reply requestID response =>
    { w with
      responseChannels :=
        (getResponseHandler (fun _ => ChanState.receiver) w.responseChannels requestID
          response).1 }

/-- The waiter table after a history of operations on the table of `NewTriggerRunner`. -/
def history (ops : List Op) : Waiters :=
  ops.foldl step { responseChannels := [], made := 0 }

/-- The channels closed in a trace, in order. -/
def closed : List TriggerEvent → List Chan
  | [] => []
  | TriggerEvent.chan (ChanEvent.close ch) :: rest => ch :: closed rest
  | _ :: rest => closed rest

/-- What a send finds on each channel once the channels of a list have been closed. -/
def closeAll (chans : Chan → ChanState) (l : List Chan) : Chan → ChanState :=
  fun ch => if ch ∈ l then ChanState.closed else chans ch

/-- The channels held by a map, in the order of `Range`. -/
def channels : SyncMap → List Chan
  | [] => []
  | (_, Stored.channel ch) :: rest => ch :: channels rest
  | (_, Stored.other _) :: rest => channels rest

end TriggerRunner

namespace TriggerRunner

/-- A waiter table in which every value is a channel made before, and no channel is held
twice. -/
def WellFormed (w : Waiters) : Prop :=
  (∀ (k : String) (v : Stored), (k, v) ∈ w.responseChannels →
    ∃ ch : Chan, v = Stored.channel ch ∧ ch < w.made) ∧
  (channels w.responseChannels).Nodup

end TriggerRunner

/-! ## Theorems -/

/-! ### Auxiliary lemmas -/

/-- An error is, in the sense of `errors.Is`, itself. -/
theorem goError_is_self (err : GoError) : GoError.Is err err = true := by
  cases err <;> simp [GoError.Is]

/-- The two ways in which the messaging encoder succeeds. -/
theorem messaging_prepareOutputMessage_ok_cases {M : Type} (deps : Deps M) (ms : Messaging)
    (msg out : Bytes) (h : Messaging.prepareOutputMessage deps ms msg = .ok out) :
    ∃ maxSize : Int, ms.messagingUtils.GetMaxMessageSize = .ok maxSize ∧
      ((out = msg ∧ (msg.length : Int) ≤ maxSize) ∨
       ((msg.length : Int) > maxSize ∧ deps.CompressData msg = .ok out ∧
        (out.length : Int) ≤ maxSize)) := by
  unfold Messaging.prepareOutputMessage at h
  cases hmax : ms.messagingUtils.GetMaxMessageSize with
  | error err => simp [hmax] at h
  | ok maxSize =>
    refine ⟨maxSize, rfl, ?_⟩
    simp only [hmax] at h
    by_cases hlen : (msg.length : Int) ≤ maxSize
    · simp only [hlen, if_true, Except.ok.injEq] at h
      exact Or.inl ⟨h.symm, hlen⟩
    · simp only [hlen, if_false] at h
      cases hcomp : deps.CompressData msg with
      | error err => simp [hcomp] at h
      | ok outMsg =>
        simp only [hcomp] at h
        by_cases hout : (outMsg.length : Int) > maxSize
        · simp [hout] at h
        · simp only [hout, if_false, Except.ok.injEq] at h
          subst h
          exact Or.inr ⟨not_le.mp hlen, rfl, not_lt.mp hout⟩

/-- The two ways in which the exit runner's encoder succeeds. -/
theorem exit_prepareOutputMessage_ok_cases {M : Type} (deps : Deps M) (cfg : Viper)
    (er : ExitRunner.Runner) (msg out : Bytes)
    (h : ExitRunner.prepareOutputMessage deps cfg er msg = .ok out) :
    ∃ maxSize : Int, ExitRunner.getMaxMessageSize cfg er = .ok maxSize ∧
      ((out = msg ∧ (msg.length : Int) ≤ maxSize) ∨
       ((msg.length : Int) > maxSize ∧ deps.CompressData msg = .ok out ∧
        (out.length : Int) ≤ maxSize)) := by
  unfold ExitRunner.prepareOutputMessage at h
  cases hmax : ExitRunner.getMaxMessageSize cfg er with
  | error err => simp [hmax] at h
  | ok maxSize =>
    refine ⟨maxSize, rfl, ?_⟩
    simp only [hmax] at h
    by_cases hlen : (msg.length : Int) ≤ maxSize
    · simp only [hlen, if_true, Except.ok.injEq] at h
      exact Or.inl ⟨h.symm, hlen⟩
    · simp only [hlen, if_false] at h
      cases hcomp : deps.CompressData msg with
      | error err => simp [hcomp] at h
      | ok outMsg =>
        simp only [hcomp] at h
        by_cases hout : (outMsg.length : Int) > maxSize
        · simp [hout] at h
        · simp only [hout, if_false, Except.ok.injEq] at h
          subst h
          exact Or.inr ⟨not_le.mp hlen, rfl, not_lt.mp hout⟩

/-- The `Publish` calls of the messaging `publishResponse`: one, with the prepared
serialization, when serializing and preparing succeed, and none otherwise. -/
theorem messaging_published_publishResponse {M : Type} (deps : Deps M) (cfg : Viper)
    (ms : Messaging) (responseMsg : KaiNatsMessage) (channel : String) :
    published (Messaging.publishResponse deps cfg ms responseMsg channel) =
      match deps.Marshal responseMsg with
      | .error _ => []
      | .ok wire =>
        match Messaging.prepareOutputMessage deps ms wire with
        | .error _ => []
        | .ok data => [(Messaging.getOutputSubject cfg channel, data)] := by
  unfold Messaging.publishResponse
  cases deps.Marshal responseMsg with
  | error err => simp [published]
  | ok wire =>
    cases hprep : Messaging.prepareOutputMessage deps ms wire with
    | error err => simp [published, hprep]
    | ok data =>
      cases hpub : ms.jetstream.Publish (Messaging.getOutputSubject cfg channel) data <;>
        simp [published, hprep, hpub]

/-- The `Publish` calls of the exit runner's `publishResponse`. -/
theorem exit_published_publishResponse {M : Type} (deps : Deps M) (cfg : Viper)
    (er : ExitRunner.Runner) (responseMsg : KaiNatsMessage) (channel : String) :
    published (ExitRunner.publishResponse deps cfg er responseMsg channel) =
      match deps.Marshal responseMsg with
      | .error _ => []
      | .ok wire =>
        match ExitRunner.prepareOutputMessage deps cfg er wire with
        | .error _ => []
        | .ok data => [(ExitRunner.getOutputSubject cfg channel, data)] := by
  unfold ExitRunner.publishResponse
  cases deps.Marshal responseMsg with
  | error err => simp [published]
  | ok wire =>
    cases hprep : ExitRunner.prepareOutputMessage deps cfg er wire with
    | error err => simp [published, hprep]
    | ok data =>
      cases hpub : er.jetstream.Publish (ExitRunner.getOutputSubject cfg channel) data <;>
        simp [published, hprep, hpub]

/-- Decoding, with lawful libraries, what was left uncompressed or was compressed. -/
theorem exit_newRequestMessage_of_encoded {M : Type} (deps : Deps M)
    (hlaw : deps.Lawful) (E : KaiNatsMessage) (wire out : Bytes)
    (hmarshal : deps.Marshal E = .ok wire)
    (hout : out = wire ∨ deps.CompressData wire = .ok out) :
    ExitRunner.newRequestMessage deps out = ((some E, none), []) := by
  rcases hout with rfl | hcomp
  · simp [ExitRunner.newRequestMessage, hlaw.isCompressed_marshal E out hmarshal,
      hlaw.unmarshal_marshal E out hmarshal]
  · simp [ExitRunner.newRequestMessage, hlaw.isCompressed_compress wire out hcomp,
      hlaw.uncompress_compress wire out hcomp, hlaw.unmarshal_marshal E wire hmarshal]

/-- The table-driven sample libraries are lawful. -/
theorem sample_deps_lawful : Sample.deps.Lawful where
  unmarshal_marshal := by
    intro E b h
    simp only [Sample.deps] at h ⊢
    split_ifs at h with h1 h2 h3
    · cases h; subst h1; simp
    · cases h; subst h2; decide
    · cases h; subst h3; decide
  isCompressed_compress := by
    intro b c h
    simp only [Sample.deps] at h ⊢
    split_ifs at h <;> cases h <;> simp
  uncompress_compress := by
    intro b c h
    simp only [Sample.deps] at h ⊢
    split_ifs at h with h1
    · cases h; subst h1; simp
    · cases h; simp
  isCompressed_marshal := by
    intro E b h
    simp only [Sample.deps] at h ⊢
    split_ifs at h <;> cases h <;> decide

/-! ### Properties of the codec, the negotiator and the publisher -/


/-- C1: when the size negotiation answers `maxSize` and the serialized message is no longer
than `maxSize`, `Messaging.prepareOutputMessage` returns the message itself, uncompressed,
with a nil error. -/
theorem prepareOutputMessage_within_limit {M : Type} (deps : Deps M) (ms : Messaging)
    (msg : Bytes) (maxSize : Int)
    (hmax : ms.messagingUtils.GetMaxMessageSize = .ok maxSize)
    (hlen : (msg.length : Int) ≤ maxSize) :
    Messaging.prepareOutputMessage deps ms msg = .ok msg := by
  simp [Messaging.prepareOutputMessage, hmax, hlen]

/-- Evaluation of C1 on the twenty-byte sample envelope under a limit of 2048 bytes. -/
theorem prepareOutputMessage_within_limit_witness :
    (Sample.messaging (.ok 2048)).messagingUtils.GetMaxMessageSize = .ok 2048 ∧
    ((Sample.okWire.length : Int) ≤ 2048) ∧
    Messaging.prepareOutputMessage Sample.deps (Sample.messaging (.ok 2048)) Sample.okWire
      = .ok Sample.okWire :=
  ⟨rfl, by decide,
    prepareOutputMessage_within_limit Sample.deps (Sample.messaging (.ok 2048)) Sample.okWire
      2048 rfl (by decide)⟩

/-- C2: when the serialized message is longer than the negotiated `maxSize` and
`CompressData` succeeds with an output no longer than `maxSize`,
`Messaging.prepareOutputMessage` returns exactly that output with a nil error, and
`Messaging.publishResponse` of an envelope that serializes to the message makes one
`Publish` call, with the compressed bytes, on the output subject. -/
theorem prepareOutputMessage_compresses {M : Type} (deps : Deps M) (cfg : Viper)
    (ms : Messaging) (msg out : Bytes) (maxSize : Int)
    (hmax : ms.messagingUtils.GetMaxMessageSize = .ok maxSize)
    (hlen : (msg.length : Int) > maxSize)
    (hcomp : deps.CompressData msg = .ok out)
    (hout : (out.length : Int) ≤ maxSize) :
    Messaging.prepareOutputMessage deps ms msg = .ok out ∧
    ∀ (responseMsg : KaiNatsMessage) (channel : String),
      deps.Marshal responseMsg = .ok msg →
      published (Messaging.publishResponse deps cfg ms responseMsg channel)
        = [(Messaging.getOutputSubject cfg channel, out)] := by
  have hprep : Messaging.prepareOutputMessage deps ms msg = .ok out := by
    simp [Messaging.prepareOutputMessage, hmax, hcomp, not_le.mpr hlen, not_lt.mpr hout]
  refine ⟨hprep, ?_⟩
  intro responseMsg channel hmarshal
  simp only [Messaging.publishResponse, hmarshal, hprep]
  cases ms.jetstream.Publish (Messaging.getOutputSubject cfg channel) out <;> simp [published]

/-- Evaluation of C2: the twenty-byte sample envelope under a limit of 5 bytes is published
as its three-byte compressed form. -/
theorem prepareOutputMessage_compresses_witness :
    Messaging.prepareOutputMessage Sample.deps (Sample.messaging (.ok 5)) Sample.okWire
      = .ok [31, 139, 0] ∧
    published (Messaging.publishResponse Sample.deps Sample.viper (Sample.messaging (.ok 5))
      Sample.okEnvelope "") = [("test-parent", [31, 139, 0])] :=
  have h := prepareOutputMessage_compresses Sample.deps Sample.viper (Sample.messaging (.ok 5))
    Sample.okWire [31, 139, 0] 5 rfl (by decide) rfl (by decide)
  ⟨h.1, h.2 Sample.okEnvelope "" rfl⟩

/-- C3: when the serialized message is longer than the negotiated `maxSize` and its
compressed form is longer than `maxSize` too, `Messaging.prepareOutputMessage` fails with
`ErrMessageToBig`, and `Messaging.publishResponse` of an envelope that serializes to the
message makes no `Publish` call. -/
theorem prepareOutputMessage_too_big {M : Type} (deps : Deps M) (cfg : Viper)
    (ms : Messaging) (msg out : Bytes) (maxSize : Int)
    (hmax : ms.messagingUtils.GetMaxMessageSize = .ok maxSize)
    (hlen : (msg.length : Int) > maxSize)
    (hcomp : deps.CompressData msg = .ok out)
    (hout : (out.length : Int) > maxSize) :
    Messaging.prepareOutputMessage deps ms msg = .error GoError.ErrMessageToBig ∧
    ∀ (responseMsg : KaiNatsMessage) (channel : String),
      deps.Marshal responseMsg = .ok msg →
      published (Messaging.publishResponse deps cfg ms responseMsg channel) = [] := by
  have hprep : Messaging.prepareOutputMessage deps ms msg = .error GoError.ErrMessageToBig := by
    simp [Messaging.prepareOutputMessage, hmax, hcomp, not_le.mpr hlen, hout]
  refine ⟨hprep, ?_⟩
  intro responseMsg channel hmarshal
  simp [Messaging.publishResponse, hmarshal, hprep, published]

/-- Evaluation of C3: the thirty-two-byte sample ERROR envelope, stored in thirty-five bytes by
the compressor, under a limit of 10 bytes. -/
theorem prepareOutputMessage_too_big_witness :
    Messaging.prepareOutputMessage Sample.deps (Sample.messaging (.ok 10)) Sample.errorWire
      = .error GoError.ErrMessageToBig ∧
    published (Messaging.publishResponse Sample.deps Sample.viper (Sample.messaging (.ok 10))
      Sample.errorEnvelope "") = [] :=
  have h := prepareOutputMessage_too_big Sample.deps Sample.viper (Sample.messaging (.ok 10))
    Sample.errorWire (31 :: 139 :: 1 :: Sample.errorWire) 10 rfl (by decide) rfl (by decide)
  ⟨h.1, h.2 Sample.errorEnvelope "" rfl⟩

/-- C4: round trip. With libraries that keep their contract (`Deps.Lawful`), if envelope `E`
serializes to `wire` and the encoder (the exit runner's `prepareOutputMessage`, or the
messaging one) succeeds on `wire` with output `out`, then `newRequestMessage` decodes
`out` to `E` with a nil error and logs nothing; `out` is `wire` left as it is or its
compressed form, and the decoder is right in both cases. -/
theorem newRequestMessage_roundtrip {M : Type} (deps : Deps M) (cfg : Viper)
    (er : ExitRunner.Runner) (ms : Messaging) (E : KaiNatsMessage) (wire : Bytes)
    (hlaw : deps.Lawful) (hmarshal : deps.Marshal E = .ok wire) :
    (∀ out : Bytes, ExitRunner.prepareOutputMessage deps cfg er wire = .ok out →
      (out = wire ∨ deps.CompressData wire = .ok out) ∧
      ExitRunner.newRequestMessage deps out = ((some E, none), [])) ∧
    (∀ out : Bytes, Messaging.prepareOutputMessage deps ms wire = .ok out →
      (out = wire ∨ deps.CompressData wire = .ok out) ∧
      ExitRunner.newRequestMessage deps out = ((some E, none), [])) := by
  constructor
  · intro out hprep
    obtain ⟨maxSize, -, hcase⟩ := exit_prepareOutputMessage_ok_cases deps cfg er wire out hprep
    have hout : out = wire ∨ deps.CompressData wire = .ok out := by
      rcases hcase with ⟨h, -⟩ | ⟨-, h, -⟩
      · exact Or.inl h
      · exact Or.inr h
    exact ⟨hout, exit_newRequestMessage_of_encoded deps hlaw E wire out hmarshal hout⟩
  · intro out hprep
    obtain ⟨maxSize, -, hcase⟩ := messaging_prepareOutputMessage_ok_cases deps ms wire out hprep
    have hout : out = wire ∨ deps.CompressData wire = .ok out := by
      rcases hcase with ⟨h, -⟩ | ⟨-, h, -⟩
      · exact Or.inl h
      · exact Or.inr h
    exact ⟨hout, exit_newRequestMessage_of_encoded deps hlaw E wire out hmarshal hout⟩

/-- Evaluation of C4 on the sample OK envelope: under a limit of 5 bytes the exit runner
emits the three compressed bytes, under a limit of 2048 bytes the messaging encoder emits
the twenty wire bytes, and both decode to the envelope. -/
theorem newRequestMessage_roundtrip_witness :
    ExitRunner.prepareOutputMessage Sample.deps Sample.viper (Sample.runner 5 1048576)
      Sample.okWire = .ok [31, 139, 0] ∧
    ExitRunner.newRequestMessage Sample.deps [31, 139, 0]
      = ((some Sample.okEnvelope, none), []) ∧
    Messaging.prepareOutputMessage Sample.deps (Sample.messaging (.ok 2048)) Sample.okWire
      = .ok Sample.okWire ∧
    ExitRunner.newRequestMessage Sample.deps Sample.okWire
      = ((some Sample.okEnvelope, none), []) :=
  have h := newRequestMessage_roundtrip Sample.deps Sample.viper (Sample.runner 5 1048576)
    (Sample.messaging (.ok 2048)) Sample.okEnvelope Sample.okWire sample_deps_lawful rfl
  ⟨rfl, (h.1 [31, 139, 0] rfl).2, rfl, (h.2 Sample.okWire rfl).2⟩

/-- C5: size bound. When the size negotiation answers `maxSize`, every byte slice that
`prepareOutputMessage` returns without error has length at most `maxSize`, and so has
every payload that `publishResponse` hands to the broker's `Publish`. -/
theorem prepareOutputMessage_size_bound {M : Type} (deps : Deps M) (cfg : Viper)
    (ms : Messaging) (maxSize : Int)
    (hmax : ms.messagingUtils.GetMaxMessageSize = .ok maxSize) :
    (∀ msg out : Bytes, Messaging.prepareOutputMessage deps ms msg = .ok out →
      (out.length : Int) ≤ maxSize) ∧
    (∀ (responseMsg : KaiNatsMessage) (channel subject : String) (data : Bytes),
      (subject, data) ∈ published (Messaging.publishResponse deps cfg ms responseMsg channel) →
      (data.length : Int) ≤ maxSize) := by
  have hbound : ∀ msg out : Bytes, Messaging.prepareOutputMessage deps ms msg = .ok out →
      (out.length : Int) ≤ maxSize := by
    intro msg out hprep
    obtain ⟨m, hm, hcase⟩ := messaging_prepareOutputMessage_ok_cases deps ms msg out hprep
    rw [hmax] at hm
    cases hm
    rcases hcase with ⟨rfl, h⟩ | ⟨-, -, h⟩
    · exact h
    · exact h
  refine ⟨hbound, ?_⟩
  intro responseMsg channel subject data hmem
  rw [messaging_published_publishResponse] at hmem
  cases hmarshal : deps.Marshal responseMsg with
  | error err => simp [hmarshal] at hmem
  | ok wire =>
    cases hprep : Messaging.prepareOutputMessage deps ms wire with
    | error err => simp [hmarshal, hprep] at hmem
    | ok out =>
      simp [hmarshal, hprep] at hmem
      rw [hmem.2]
      exact hbound wire out hprep

/-- Evaluation of C5: under a limit of 5 bytes the sample OK envelope goes out in three
bytes. -/
theorem prepareOutputMessage_size_bound_witness :
    (([31, 139, 0] : Bytes).length : Int) ≤ 5 ∧
    ("test-parent", ([31, 139, 0] : Bytes)) ∈ published (Messaging.publishResponse Sample.deps
      Sample.viper (Sample.messaging (.ok 5)) Sample.okEnvelope "") :=
  have h := prepareOutputMessage_size_bound Sample.deps Sample.viper (Sample.messaging (.ok 5))
    5 rfl
  ⟨h.1 Sample.okWire [31, 139, 0] rfl, by decide⟩

/-- C6: when the stream metadata lookup succeeds with stream limit `s`, on a connection
with limit `c`, `GetMaxMessageSize` (and the exit runner's `getMaxMessageSize`) returns,
with a nil error, `c` if `s = -1` and `min s c` otherwise. -/
theorem GetMaxMessageSize_eq (cfg : Viper) (js : JetStream) (nc : NatsConn) (s c : Int)
    (hstream : js.StreamInfo cfg.ConfigNatsStreamKey = .ok ⟨s⟩)
    (hconn : nc.MaxPayload = c) :
    MessagingUtilsImpl.GetMaxMessageSize cfg ⟨js, nc⟩
      = .ok (if s = -1 then c else min s c) ∧
    ExitRunner.getMaxMessageSize cfg ⟨nc, js⟩
      = .ok (if s = -1 then c else min s c) := by
  subst hconn
  constructor
  · simp only [MessagingUtilsImpl.GetMaxMessageSize, hstream]
    by_cases h1 : s = -1
    · simp [h1]
    · by_cases h2 : s < nc.MaxPayload
      · simp [h1, h2, min_eq_left (le_of_lt h2)]
      · simp [h1, h2, min_eq_right (not_lt.mp h2)]
  · simp only [ExitRunner.getMaxMessageSize, hstream]
    by_cases h1 : s = -1
    · simp [h1]
    · by_cases h2 : s < nc.MaxPayload
      · simp [h1, h2, min_eq_left (le_of_lt h2)]
      · simp [h1, h2, min_eq_right (not_lt.mp h2)]

/-- Evaluation of C6: a stream limited to 2048 bytes on a connection limited to one
mebibyte negotiates 2048. -/
theorem GetMaxMessageSize_eq_witness :
    MessagingUtilsImpl.GetMaxMessageSize Sample.viper
      ⟨Sample.jetstream (.ok 2048) none, ⟨1048576⟩⟩ = .ok 2048 ∧
    ExitRunner.getMaxMessageSize Sample.viper
      ⟨⟨1048576⟩, Sample.jetstream (.ok 2048) none⟩ = .ok 2048 :=
  GetMaxMessageSize_eq Sample.viper (Sample.jetstream (.ok 2048) none) ⟨1048576⟩ 2048 1048576
    rfl rfl

/-- C7: when `GetMaxMessageSize` returns an error `e`, `prepareOutputMessage` returns, for
every message whatever its length, an error that wraps `e` (no default size is assumed),
and `publishResponse` makes no `Publish` call: when the envelope serializes, its whole
trace is the report of that error to the logger. A failed stream lookup is such an error
of `GetMaxMessageSize`. -/
theorem prepareOutputMessage_negotiation_error {M : Type} (deps : Deps M) (cfg : Viper)
    (ms : Messaging) (e : GoError)
    (herr : ms.messagingUtils.GetMaxMessageSize = .error e) :
    (∀ msg : Bytes,
      Messaging.prepareOutputMessage deps ms msg
        = .error (GoError.wrapped "error getting max message size: " e) ∧
      GoError.Is (GoError.wrapped "error getting max message size: " e) e = true) ∧
    (∀ (responseMsg : KaiNatsMessage) (channel : String),
      published (Messaging.publishResponse deps cfg ms responseMsg channel) = [] ∧
      ∀ wire : Bytes, deps.Marshal responseMsg = .ok wire →
        Messaging.publishResponse deps cfg ms responseMsg channel
          = [Event.logError (GoError.wrapped "error getting max message size: " e)]) ∧
    (∀ (js : JetStream) (nc : NatsConn) (cause : GoError),
      js.StreamInfo cfg.ConfigNatsStreamKey = .error cause →
      MessagingUtilsImpl.GetMaxMessageSize cfg ⟨js, nc⟩
        = .error (GoError.wrapped "error getting stream's max message size: " cause)) := by
  have hprep : ∀ msg : Bytes, Messaging.prepareOutputMessage deps ms msg
      = .error (GoError.wrapped "error getting max message size: " e) := by
    intro msg
    simp [Messaging.prepareOutputMessage, herr]
  refine ⟨fun msg => ⟨hprep msg, ?_⟩, ?_, ?_⟩
  · simp [GoError.Is, goError_is_self]
  · intro responseMsg channel
    constructor
    · rw [messaging_published_publishResponse]
      cases hmarshal : deps.Marshal responseMsg with
      | error err => rfl
      | ok wire => simp [hprep wire]
    · intro wire hmarshal
      simp [Messaging.publishResponse, hmarshal, hprep wire]
  · intro js nc cause hstream
    simp [MessagingUtilsImpl.GetMaxMessageSize, hstream]

/-- Evaluation of C7 on the scenario of the test
`TestMessaging_SendOutput_ErrorOnMaxMessageSize_ExpectError`. -/
theorem prepareOutputMessage_negotiation_error_witness :
    Messaging.prepareOutputMessage Sample.deps
        (Sample.messaging (.error (GoError.external "error getting size"))) []
      = .error (GoError.wrapped "error getting max message size: "
          (GoError.external "error getting size")) ∧
    published (Messaging.publishResponse Sample.deps Sample.viper
      (Sample.messaging (.error (GoError.external "error getting size")))
      Sample.okEnvelope "") = [] :=
  have h := prepareOutputMessage_negotiation_error Sample.deps Sample.viper
    (Sample.messaging (.error (GoError.external "error getting size")))
    (GoError.external "error getting size") rfl
  ⟨(h.1 []).1, (h.2.1 Sample.okEnvelope "").1⟩

/-- C8: `publishMsg` returns a nil error exactly when `anypb.New` can wrap the message,
whatever the outcome of the size negotiation, of the compression and of the broker's
`Publish`; when the message cannot be wrapped it returns the error that wraps the cause
and does nothing. -/
theorem publishMsg_error_iff {M : Type} (deps : Deps M) (cfg : Viper) (ms : Messaging)
    (msg : M) (requestID : String) (msgType : MessageType) (channel : String) :
    ((Messaging.publishMsg deps cfg ms msg requestID msgType channel).1 = none ↔
      ∃ payload : AnyPb, deps.anyNew msg = .ok payload) ∧
    (∀ cause : GoError, deps.anyNew msg = .error cause →
      Messaging.publishMsg deps cfg ms msg requestID msgType channel
        = (some (GoError.wrapped "the handler result is not a valid protobuf: " cause), [])) := by
  unfold Messaging.publishMsg
  cases hany : deps.anyNew msg with
  | error err => simp
  | ok payload => simp

/-- Evaluation of C8 on the scenarios of the messaging tests: a wrappable message is sent
without error when the size negotiation fails, when the broker refuses the publish, and
when the envelope is too big even compressed; an unwrappable one gives an error. -/
theorem publishMsg_error_iff_witness :
    Messaging.publishMsg Sample.deps Sample.viper
      (Sample.messaging (.error (GoError.external "error getting size")))
      "some-message" "123" MessageType.OK ""
      = (none, [Event.logError (GoError.wrapped "error getting max message size: "
          (GoError.external "error getting size"))]) ∧
    Messaging.publishMsg Sample.deps Sample.viper
      ⟨Sample.jetstream (.ok (-1)) (some (GoError.external "error publishing")), ⟨.ok 2048⟩⟩
      "some-message" "123" MessageType.OK ""
      = (none, [Event.publish "test-parent" Sample.payloadWire,
          Event.logError (GoError.external "error publishing")]) ∧
    Messaging.publishMsg Sample.deps Sample.viper (Sample.messaging (.ok 16))
      "some-message" "123" MessageType.OK ""
      = (none, [Event.logError GoError.ErrMessageToBig]) ∧
    (Messaging.publishMsg Sample.deps Sample.viper (Sample.messaging (.ok 2048))
      "" "123" MessageType.OK "").1 ≠ none :=
  have hsent : ∀ ms : Messaging, (Messaging.publishMsg Sample.deps Sample.viper ms
      "some-message" "123" MessageType.OK "").1 = none := fun ms =>
    (publishMsg_error_iff Sample.deps Sample.viper ms "some-message" "123"
      MessageType.OK "").1.mpr ⟨_, rfl⟩
  ⟨Prod.ext (hsent _) rfl, Prod.ext (hsent _) rfl, Prod.ext (hsent _) rfl, by
    rw [(publishMsg_error_iff Sample.deps Sample.viper (Sample.messaging (.ok 2048)) ""
      "123" MessageType.OK "").2 _ rfl]
    simp⟩

/-- C9: for the configured output topic `T`, `getOutputSubject c` is `T` when the channel
`c` is empty and `T ++ "." ++ c` otherwise, and it is the subject envelopes are published
to: when the envelope serializes and is prepared without error, `publishResponse` makes
exactly one `Publish` call, on that subject with the prepared bytes, and every `Publish`
call made by `publishResponse`, `publishMsg`, `publishAny` and `publishError` is on that
subject. -/
theorem getOutputSubject_eq {M : Type} (deps : Deps M) (cfg : Viper) (ms : Messaging)
    (c : String) :
    (c = "" → Messaging.getOutputSubject cfg c = cfg.ConfigNatsOutputKey) ∧
    (c ≠ "" → Messaging.getOutputSubject cfg c = cfg.ConfigNatsOutputKey ++ "." ++ c) ∧
    (∀ (responseMsg : KaiNatsMessage) (wire data : Bytes),
      deps.Marshal responseMsg = .ok wire →
      Messaging.prepareOutputMessage deps ms wire = .ok data →
      published (Messaging.publishResponse deps cfg ms responseMsg c)
        = [(Messaging.getOutputSubject cfg c, data)]) ∧
    (∀ (responseMsg : KaiNatsMessage) (subject : String) (data : Bytes),
      (subject, data) ∈ published (Messaging.publishResponse deps cfg ms responseMsg c) →
      subject = Messaging.getOutputSubject cfg c) ∧
    (∀ (msg : M) (r : String) (t : MessageType) (subject : String) (data : Bytes),
      (subject, data) ∈ published (Messaging.publishMsg deps cfg ms msg r t c).2 →
      subject = Messaging.getOutputSubject cfg c) ∧
    (∀ (payload : Option AnyPb) (r : String) (t : MessageType) (subject : String)
      (data : Bytes),
      (subject, data) ∈ published (Messaging.publishAny deps cfg ms payload r t c) →
      subject = Messaging.getOutputSubject cfg c) ∧
    (∀ (r e subject : String) (data : Bytes),
      (subject, data) ∈ published (Messaging.publishError deps cfg ms r e c) →
      subject = Messaging.getOutputSubject cfg c) := by
  have hsubject : ∀ (responseMsg : KaiNatsMessage) (subject : String) (data : Bytes),
      (subject, data) ∈ published (Messaging.publishResponse deps cfg ms responseMsg c) →
      subject = Messaging.getOutputSubject cfg c := by
    intro responseMsg subject data hmem
    rw [messaging_published_publishResponse] at hmem
    cases hmarshal : deps.Marshal responseMsg with
    | error err => simp [hmarshal] at hmem
    | ok wire =>
      cases hprep : Messaging.prepareOutputMessage deps ms wire with
      | error err => simp [hmarshal, hprep] at hmem
      | ok out =>
        simp [hmarshal, hprep] at hmem
        exact hmem.1
  refine ⟨fun h => by simp [Messaging.getOutputSubject, h],
    fun h => by simp [Messaging.getOutputSubject, h], ?_, hsubject, ?_, ?_, ?_⟩
  · intro responseMsg wire data hmarshal hprep
    simp only [messaging_published_publishResponse, hmarshal, hprep]
  · intro msg r t subject data hmem
    unfold Messaging.publishMsg at hmem
    cases hany : deps.anyNew msg with
    | error err => simp [hany, published] at hmem
    | ok payload =>
      simp only [hany] at hmem
      exact hsubject _ subject data hmem
  · intro payload r t subject data hmem
    exact hsubject _ subject data hmem
  · intro r e subject data hmem
    exact hsubject _ subject data hmem

/-- Evaluation of C9 on the messaging tests: the subjects, the `Publish` of the error
envelope on `test-parent.some-channel`, that of an envelope with a payload on
`test-parent.subtopic`, and that of the error envelope on `test-parent` when the channel
is empty. -/
theorem getOutputSubject_eq_witness :
    Messaging.getOutputSubject Sample.viper "" = "test-parent" ∧
    Messaging.getOutputSubject Sample.viper "subtopic" = "test-parent.subtopic" ∧
    published (Messaging.publishResponse Sample.deps Sample.viper
        (Sample.messaging (.ok 2048)) Sample.errorEnvelope "some-channel")
      = [("test-parent.some-channel", Sample.errorWire)] ∧
    published (Messaging.publishResponse Sample.deps Sample.viper
        (Sample.messaging (.ok 2048)) Sample.payloadEnvelope "subtopic")
      = [("test-parent.subtopic", Sample.payloadWire)] ∧
    published (Messaging.publishResponse Sample.deps Sample.viper
        (Sample.messaging (.ok 2048)) Sample.errorEnvelope "")
      = [("test-parent", Sample.errorWire)] :=
  ⟨(getOutputSubject_eq Sample.deps Sample.viper (Sample.messaging (.ok 2048)) "").1 rfl,
    (getOutputSubject_eq Sample.deps Sample.viper (Sample.messaging (.ok 2048))
      "subtopic").2.1 (by decide),
    (getOutputSubject_eq Sample.deps Sample.viper (Sample.messaging (.ok 2048))
      "some-channel").2.2.1 Sample.errorEnvelope Sample.errorWire Sample.errorWire rfl rfl,
    (getOutputSubject_eq Sample.deps Sample.viper (Sample.messaging (.ok 2048))
      "subtopic").2.2.1 Sample.payloadEnvelope Sample.payloadWire Sample.payloadWire rfl rfl,
    (getOutputSubject_eq Sample.deps Sample.viper (Sample.messaging (.ok 2048))
      "").2.2.1 Sample.errorEnvelope Sample.errorWire Sample.errorWire rfl rfl⟩

/-- C10: `publishError` (of the messaging module, and of the exit runner on the bare output
topic) publishes the envelope with `requestId = r`, `error = e`, `fromNode` the configured
process identifier, `messageType = ERROR` and no payload: its effects are those of
`publishResponse` on that envelope, so when the envelope serializes and is prepared
without error exactly one `Publish` call is made, with the prepared serialization of
that envelope, and every `Publish` call it makes carries such bytes. -/
theorem publishError_envelope {M : Type} (deps : Deps M) (cfg : Viper) (ms : Messaging)
    (er : ExitRunner.Runner) (r e channel : String) :
    Messaging.publishError deps cfg ms r e channel
      = Messaging.publishResponse deps cfg ms
          { RequestId := r, Payload := none, FromNode := cfg.ConfigMetadataProcessIDKey,
            MessageType := MessageType.ERROR, Error := e } channel ∧
    ExitRunner.publishError deps cfg er r e
      = ExitRunner.publishResponse deps cfg er
          { RequestId := r, Payload := none, FromNode := cfg.ConfigMetadataProcessIDKey,
            MessageType := MessageType.ERROR, Error := e } "" ∧
    (∀ wire data : Bytes,
      deps.Marshal { RequestId := r, Payload := none,
                     FromNode := cfg.ConfigMetadataProcessIDKey,
                     MessageType := MessageType.ERROR, Error := e } = .ok wire →
      Messaging.prepareOutputMessage deps ms wire = .ok data →
      published (Messaging.publishError deps cfg ms r e channel)
        = [(Messaging.getOutputSubject cfg channel, data)]) ∧
    (∀ (subject : String) (data : Bytes),
      (subject, data) ∈ published (Messaging.publishError deps cfg ms r e channel) →
      ∃ wire : Bytes,
        deps.Marshal { RequestId := r, Payload := none,
                       FromNode := cfg.ConfigMetadataProcessIDKey,
                       MessageType := MessageType.ERROR, Error := e } = .ok wire ∧
        Messaging.prepareOutputMessage deps ms wire = .ok data) ∧
    (∀ wire data : Bytes,
      deps.Marshal { RequestId := r, Payload := none,
                     FromNode := cfg.ConfigMetadataProcessIDKey,
                     MessageType := MessageType.ERROR, Error := e } = .ok wire →
      ExitRunner.prepareOutputMessage deps cfg er wire = .ok data →
      published (ExitRunner.publishError deps cfg er r e)
        = [(cfg.ConfigNatsOutputKey, data)]) := by
  refine ⟨rfl, rfl, ?_, ?_, ?_⟩
  · intro wire data hmarshal hprep
    simp only [Messaging.publishError, messaging_published_publishResponse, hmarshal, hprep]
  · intro subject data hmem
    simp only [Messaging.publishError, messaging_published_publishResponse] at hmem
    cases hmarshal : deps.Marshal
        (KaiNatsMessage.mk r none cfg.ConfigMetadataProcessIDKey MessageType.ERROR e) with
    | error err => simp [hmarshal] at hmem
    | ok wire =>
      cases hprep : Messaging.prepareOutputMessage deps ms wire with
      | error err => simp [hmarshal, hprep] at hmem
      | ok out =>
        simp [hmarshal, hprep] at hmem
        exact ⟨wire, rfl, by rw [hprep, hmem.2]⟩
  · intro wire data hmarshal hprep
    simp [ExitRunner.publishError, exit_published_publishResponse, hmarshal, hprep,
      ExitRunner.getOutputSubject]

/-- Evaluation of C10 on the scenarios of the tests `TestMessaging_PublishError_ExpectOk`
and `TestMessaging_PublishError_WithChannel_ExpectOk`. -/
theorem publishError_envelope_witness :
    published (Messaging.publishError Sample.deps Sample.viper (Sample.messaging (.ok 2048))
      "123" "some-error" "") = [("test-parent", Sample.errorWire)] ∧
    published (Messaging.publishError Sample.deps Sample.viper (Sample.messaging (.ok 2048))
      "123" "some-error" "some-channel") = [("test-parent.some-channel", Sample.errorWire)] ∧
    Sample.deps.Unmarshal Sample.errorWire
      = (⟨"123", none, "parent-node", MessageType.ERROR, "some-error"⟩, none) :=
  ⟨(publishError_envelope Sample.deps Sample.viper (Sample.messaging (.ok 2048))
      (Sample.runner 2048 1048576) "123" "some-error" "").2.2.1 Sample.errorWire
      Sample.errorWire rfl rfl,
    (publishError_envelope Sample.deps Sample.viper (Sample.messaging (.ok 2048))
      (Sample.runner 2048 1048576) "123" "some-error" "some-channel").2.2.1 Sample.errorWire
      Sample.errorWire rfl rfl,
    rfl⟩

/-! ### Auxiliary lemmas on the traces of the dispatcher -/

/-- The `Publish` calls of a concatenation. -/
theorem published_append (a b : List Event) :
    published (a ++ b) = published a ++ published b := by
  induction a with
  | nil => rfl
  | cons e rest ih => cases e <;> simp [published, ih]

/-- The acknowledgments of a concatenation. -/
theorem exit_acks_append (a b : List ExitRunner.RunnerEvent) :
    ExitRunner.acks (a ++ b) = ExitRunner.acks a + ExitRunner.acks b := by
  simp [ExitRunner.acks]

/-- The stage calls of a concatenation. -/
theorem exit_invocations_append (a b : List ExitRunner.RunnerEvent) :
    ExitRunner.invocations (a ++ b) = ExitRunner.invocations a ++ ExitRunner.invocations b := by
  induction a with
  | nil => rfl
  | cons e rest ih => cases e <;> simp [ExitRunner.invocations, ih]

/-- The metric recordings of a concatenation. -/
theorem exit_records_append (a b : List ExitRunner.RunnerEvent) :
    ExitRunner.records (a ++ b) = ExitRunner.records a ++ ExitRunner.records b := by
  induction a with
  | nil => rfl
  | cons e rest ih => cases e <;> simp [ExitRunner.records, ih]

/-- The effects of a concatenation. -/
theorem exit_effects_append (a b : List ExitRunner.RunnerEvent) :
    ExitRunner.effects (a ++ b) = ExitRunner.effects a ++ ExitRunner.effects b := by
  induction a with
  | nil => rfl
  | cons e rest ih => cases e <;> simp [ExitRunner.effects, ih]

/-- A list of effects holds no acknowledgment. -/
theorem exit_acks_map_effect (l : List Event) :
    ExitRunner.acks (l.map ExitRunner.RunnerEvent.effect) = 0 := by
  induction l with
  | nil => rfl
  | cons e rest ih =>
    simp only [ExitRunner.acks] at ih
    simp [ExitRunner.acks, ih]

/-- A list of effects holds no stage call. -/
theorem exit_invocations_map_effect (l : List Event) :
    ExitRunner.invocations (l.map ExitRunner.RunnerEvent.effect) = [] := by
  induction l with
  | nil => rfl
  | cons e rest ih => simp [ExitRunner.invocations, ih]

/-- A list of effects holds no metric recording. -/
theorem exit_records_map_effect (l : List Event) :
    ExitRunner.records (l.map ExitRunner.RunnerEvent.effect) = [] := by
  induction l with
  | nil => rfl
  | cons e rest ih => simp [ExitRunner.records, ih]

/-- The effects of a list of effects. -/
theorem exit_effects_map_effect (l : List Event) :
    ExitRunner.effects (l.map ExitRunner.RunnerEvent.effect) = l := by
  induction l with
  | nil => rfl
  | cons e rest ih => simp [ExitRunner.effects, ih]

/-- The error path acknowledges once. -/
theorem exit_acks_processRunnerError {M : Type} (deps : Deps M) (cfg : Viper)
    (er : ExitRunner.Runner) (msg : NatsMsg) (errMsg requestID : String) :
    ExitRunner.acks (ExitRunner.processRunnerError deps cfg er msg errMsg requestID) = 1 := by
  unfold ExitRunner.processRunnerError
  cases msg.Ack <;> simp [ExitRunner.acks] <;> exact exit_acks_map_effect _

/-- The error path calls no stage. -/
theorem exit_invocations_processRunnerError {M : Type} (deps : Deps M) (cfg : Viper)
    (er : ExitRunner.Runner) (msg : NatsMsg) (errMsg requestID : String) :
    ExitRunner.invocations (ExitRunner.processRunnerError deps cfg er msg errMsg requestID)
      = [] := by
  unfold ExitRunner.processRunnerError
  cases msg.Ack <;>
    simp [exit_invocations_append, exit_invocations_map_effect, ExitRunner.invocations]

/-- The error path records no metric. -/
theorem exit_records_processRunnerError {M : Type} (deps : Deps M) (cfg : Viper)
    (er : ExitRunner.Runner) (msg : NatsMsg) (errMsg requestID : String) :
    ExitRunner.records (ExitRunner.processRunnerError deps cfg er msg errMsg requestID)
      = [] := by
  unfold ExitRunner.processRunnerError
  cases msg.Ack <;>
    simp [exit_records_append, exit_records_map_effect, ExitRunner.records]

/-- The `Publish` calls of the error path are those of `publishError`, whatever the
acknowledgment answers. -/
theorem exit_published_processRunnerError {M : Type} (deps : Deps M) (cfg : Viper)
    (er : ExitRunner.Runner) (msg : NatsMsg) (errMsg requestID : String) :
    published (ExitRunner.effects
        (ExitRunner.processRunnerError deps cfg er msg errMsg requestID))
      = published (ExitRunner.publishError deps cfg er requestID errMsg) := by
  unfold ExitRunner.processRunnerError
  cases msg.Ack <;>
    simp [exit_effects_append, exit_effects_map_effect, ExitRunner.effects, published_append,
      published]

/-- A decoding without error returns an envelope and logs nothing. -/
theorem exit_newRequestMessage_ok {M : Type} (deps : Deps M) (data : Bytes)
    (requestMsg : Option KaiNatsMessage) (log : List Event)
    (h : ExitRunner.newRequestMessage deps data = ((requestMsg, none), log)) :
    (∃ req, requestMsg = some req) ∧ log = [] := by
  unfold ExitRunner.newRequestMessage at h
  split at h
  · split at h
    · simp at h
    · simp only [Prod.mk.injEq] at h
      exact ⟨⟨_, h.1.1.symm⟩, h.2.symm⟩
  · simp only [Prod.mk.injEq] at h
    exact ⟨⟨_, h.1.1.symm⟩, h.2.symm⟩

/-- The acknowledgments of a trace that starts with an event. -/
theorem exit_acks_cons (e : ExitRunner.RunnerEvent) (l : List ExitRunner.RunnerEvent) :
    ExitRunner.acks (e :: l)
      = (if e = ExitRunner.RunnerEvent.ack then 1 else 0) + ExitRunner.acks l := by
  by_cases h : e = ExitRunner.RunnerEvent.ack
  · subst h; simp [ExitRunner.acks, Nat.add_comm]
  · have h2 : ¬ (ExitRunner.RunnerEvent.ack = e) := fun h3 => h h3.symm
    simp [ExitRunner.acks, h, h2, List.count_cons]

/-- The empty trace holds no acknowledgment. -/
theorem exit_acks_nil : ExitRunner.acks [] = 0 := rfl

/-- In a trace that passes `ackFirst`, an acknowledgment precedes every `Publish` call. -/
theorem exit_ackFirst_sound (trace : List ExitRunner.RunnerEvent)
    (h : ExitRunner.ackFirst trace = true) :
    ∀ (pre post : List ExitRunner.RunnerEvent) (subject : String) (data : Bytes),
      trace = pre ++ ExitRunner.RunnerEvent.effect (Event.publish subject data) :: post →
      ExitRunner.RunnerEvent.ack ∈ pre := by
  induction trace with
  | nil =>
    intro pre post subject data heq
    cases pre <;> simp at heq
  | cons e rest ih =>
    intro pre post subject data heq
    cases pre with
    | nil =>
      simp only [List.nil_append, List.cons.injEq] at heq
      rw [heq.1] at h
      simp [ExitRunner.ackFirst] at h
    | cons p pre2 =>
      simp only [List.cons_append, List.cons.injEq] at heq
      obtain ⟨rfl, hrest⟩ := heq
      by_cases hack : e = ExitRunner.RunnerEvent.ack
      · simp [hack]
      · have hrest2 : ExitRunner.ackFirst rest = true := by
          cases e with
          | ack => exact absurd rfl hack
          | invoke stage payload => simpa [ExitRunner.ackFirst] using h
          | record requestID => simpa [ExitRunner.ackFirst] using h
          | effect ev =>
            cases ev with
            | publish s d => simp [ExitRunner.ackFirst] at h
            | logError err => simpa [ExitRunner.ackFirst] using h
        exact List.mem_cons_of_mem _ (ih hrest2 pre2 post subject data hrest)

/-- The decoder logs nothing or one error. -/
theorem exit_newRequestMessage_log {M : Type} (deps : Deps M) (data : Bytes) :
    (ExitRunner.newRequestMessage deps data).2 = [] ∨
    ∃ err, (ExitRunner.newRequestMessage deps data).2 = [Event.logError err] := by
  unfold ExitRunner.newRequestMessage
  split
  · split
    · exact Or.inr ⟨_, rfl⟩
    · exact Or.inl rfl
  · exact Or.inl rfl

/-- The trace of `processMessage` passes `ackFirst`. -/
theorem exit_ackFirst_processMessage {M : Type} (deps : Deps M) (std : Std) (cfg : Viper)
    (er : ExitRunner.Runner) (cb : ExitRunner.Callbacks) (msg : NatsMsg) :
    ExitRunner.ackFirst (ExitRunner.processMessage deps std cfg er cb msg) = true := by
  have hlog := exit_newRequestMessage_log deps msg.Data
  unfold ExitRunner.processMessage
  rcases hnew : ExitRunner.newRequestMessage deps msg.Data with
    ⟨⟨requestMsg, err⟩, decodeLog⟩
  rw [hnew] at hlog
  simp only at hlog
  have hquiet : ∀ rest : List ExitRunner.RunnerEvent,
      ExitRunner.ackFirst (decodeLog.map ExitRunner.RunnerEvent.effect ++ rest)
        = ExitRunner.ackFirst rest := by
    intro rest
    rcases hlog with rfl | ⟨e, rfl⟩ <;> simp [ExitRunner.ackFirst]
  cases err with
  | some err =>
    simp [hquiet, ExitRunner.processRunnerError, ExitRunner.ackFirst]
  | none =>
    simp only [List.append_assoc, hquiet]
    cases hsel : ExitRunner.getResponseHandler cb (std.ToLower (GetFromNode requestMsg)) with
    | none => simp [ExitRunner.processRunnerError, ExitRunner.ackFirst]
    | some handler =>
      simp only []
      cases hpre : cb.preprocessor <;> cases hpost : cb.postprocessor <;>
        simp only [] <;> (repeat' split) <;>
        simp [ExitRunner.processRunnerError, ExitRunner.ackFirst]

/-- The stage calls of the empty trace. -/
theorem exit_invocations_nil : ExitRunner.invocations [] = [] := rfl

/-- A stage call at the head of a trace. -/
theorem exit_invocations_invoke (stage : ExitRunner.Stage) (payload : Option AnyPb)
    (l : List ExitRunner.RunnerEvent) :
    ExitRunner.invocations (ExitRunner.RunnerEvent.invoke stage payload :: l)
      = (stage, payload) :: ExitRunner.invocations l := rfl

/-- An acknowledgment at the head of a trace is no stage call. -/
theorem exit_invocations_ack (l : List ExitRunner.RunnerEvent) :
    ExitRunner.invocations (ExitRunner.RunnerEvent.ack :: l) = ExitRunner.invocations l := rfl

/-- A metric recording at the head of a trace is no stage call. -/
theorem exit_invocations_record (requestID : String) (l : List ExitRunner.RunnerEvent) :
    ExitRunner.invocations (ExitRunner.RunnerEvent.record requestID :: l)
      = ExitRunner.invocations l := rfl

/-- An effect at the head of a trace is no stage call. -/
theorem exit_invocations_effect (e : Event) (l : List ExitRunner.RunnerEvent) :
    ExitRunner.invocations (ExitRunner.RunnerEvent.effect e :: l)
      = ExitRunner.invocations l := rfl

/-- The effects of the empty trace. -/
theorem exit_effects_nil : ExitRunner.effects [] = [] := rfl

/-- A stage call at the head of a trace is no effect. -/
theorem exit_effects_invoke (stage : ExitRunner.Stage) (payload : Option AnyPb)
    (l : List ExitRunner.RunnerEvent) :
    ExitRunner.effects (ExitRunner.RunnerEvent.invoke stage payload :: l)
      = ExitRunner.effects l := rfl

/-- An acknowledgment at the head of a trace is no effect. -/
theorem exit_effects_ack (l : List ExitRunner.RunnerEvent) :
    ExitRunner.effects (ExitRunner.RunnerEvent.ack :: l) = ExitRunner.effects l := rfl

/-- A metric recording at the head of a trace is no effect. -/
theorem exit_effects_record (requestID : String) (l : List ExitRunner.RunnerEvent) :
    ExitRunner.effects (ExitRunner.RunnerEvent.record requestID :: l)
      = ExitRunner.effects l := rfl

/-- An effect at the head of a trace. -/
theorem exit_effects_effect (e : Event) (l : List ExitRunner.RunnerEvent) :
    ExitRunner.effects (ExitRunner.RunnerEvent.effect e :: l)
      = e :: ExitRunner.effects l := rfl

/-- The `Publish` calls of the empty trace. -/
theorem published_nil : published [] = [] := rfl

/-! ### Properties of the envelopes, of the request identifier and of the dispatcher -/

/-- C11: when `anypb.New` wraps the message as `payload`, `publishMsg` with a non-empty
request identifier `r` hands `publishResponse` the envelope with `requestId = r`, that
payload, `messageType = t`, `fromNode` the configured process identifier and an empty
error, and `publishAny` does the same with the payload it is given; the generated
identifier is used only when `r` is empty. -/
theorem publishMsg_envelope {M : Type} (deps : Deps M) (cfg : Viper) (ms : Messaging)
    (msg : M) (payload : AnyPb) (anyPayload : Option AnyPb) (r : String) (t : MessageType)
    (channel : String) (hany : deps.anyNew msg = .ok payload) :
    (r ≠ "" →
      Messaging.publishMsg deps cfg ms msg r t channel
        = (none, Messaging.publishResponse deps cfg ms
            { RequestId := r, Payload := some payload,
              FromNode := cfg.ConfigMetadataProcessIDKey, MessageType := t, Error := "" }
            channel) ∧
      Messaging.publishAny deps cfg ms anyPayload r t channel
        = Messaging.publishResponse deps cfg ms
            { RequestId := r, Payload := anyPayload,
              FromNode := cfg.ConfigMetadataProcessIDKey, MessageType := t, Error := "" }
            channel) ∧
    (Messaging.publishMsg deps cfg ms msg "" t channel
        = (none, Messaging.publishResponse deps cfg ms
            { RequestId := deps.uuidNew, Payload := some payload,
              FromNode := cfg.ConfigMetadataProcessIDKey, MessageType := t, Error := "" }
            channel) ∧
      Messaging.publishAny deps cfg ms anyPayload "" t channel
        = Messaging.publishResponse deps cfg ms
            { RequestId := deps.uuidNew, Payload := anyPayload,
              FromNode := cfg.ConfigMetadataProcessIDKey, MessageType := t, Error := "" }
            channel) := by
  constructor
  · intro hr
    simp [Messaging.publishMsg, Messaging.publishAny, Messaging.newResponseMsg, hany, hr]
  · simp [Messaging.publishMsg, Messaging.publishAny, Messaging.newResponseMsg, hany]

/-- Evaluation of C11 on the scenario of the test
`TestMessaging_SendOutputWithExistingRequestMessage_ExpectOk`. -/
theorem publishMsg_envelope_witness :
    Messaging.publishMsg Sample.deps Sample.viper (Sample.messaging (.ok 2048))
      "some-message" "123" MessageType.OK ""
      = (none, [Event.publish "test-parent" Sample.payloadWire]) ∧
    Sample.deps.Unmarshal Sample.payloadWire
      = (⟨"123", some ⟨"type.googleapis.com/google.protobuf.StringValue", [10, 1, 65]⟩,
          "parent-node", MessageType.OK, ""⟩, none) :=
  ⟨((publishMsg_envelope Sample.deps Sample.viper (Sample.messaging (.ok 2048))
      "some-message" ⟨"type.googleapis.com/google.protobuf.StringValue", [10, 1, 65]⟩ none
      "123" MessageType.OK "" rfl).1 (by decide)).1.trans rfl, rfl⟩

/-- C12, as stated, fails: `publishAny` with a nil payload and type OK builds an envelope of
type OK without payload, and `publishError` with an empty text builds an envelope of type
ERROR with an empty error. -/
theorem envelope_invariant_counterexample :
    (Messaging.publishAny Sample.deps Sample.viper (Sample.messaging (.ok 2048)) none "123"
        MessageType.OK ""
      = Messaging.publishResponse Sample.deps Sample.viper (Sample.messaging (.ok 2048))
          (Messaging.newResponseMsg Sample.viper none "123" MessageType.OK) "" ∧
      ¬ EnvelopeInvariant (Messaging.newResponseMsg Sample.viper none "123" MessageType.OK)) ∧
    (Messaging.publishError Sample.deps Sample.viper (Sample.messaging (.ok 2048)) "123" "" ""
      = Messaging.publishResponse Sample.deps Sample.viper (Sample.messaging (.ok 2048))
          ⟨"123", none, "parent-node", MessageType.ERROR, ""⟩ "" ∧
      ¬ EnvelopeInvariant ⟨"123", none, "parent-node", MessageType.ERROR, ""⟩) := by
  refine ⟨⟨rfl, ?_⟩, ⟨rfl, ?_⟩⟩
  · simp [EnvelopeInvariant, Messaging.newResponseMsg]
  · simp [EnvelopeInvariant]

/-- C12, amended: an envelope built by `newResponseMsg` (through `publishMsg` or
`publishAny`) has an empty error, the payload and the message type it is given; an
envelope built by `publishError` has type ERROR, no payload and the error text it is
given. So no envelope has both a payload and an error text, and the invariant of the data
model holds for `newResponseMsg` when the payload is present and the type is not ERROR,
and for `publishError` when the error text is not empty. -/
theorem envelope_invariant_amended {M : Type} (deps : Deps M) (cfg : Viper) (ms : Messaging)
    (payload : Option AnyPb) (r e channel : String) (t : MessageType) :
    ((Messaging.newResponseMsg cfg payload r t).Error = "" ∧
      (Messaging.newResponseMsg cfg payload r t).Payload = payload ∧
      (Messaging.newResponseMsg cfg payload r t).MessageType = t) ∧
    (payload ≠ none → t ≠ MessageType.ERROR →
      EnvelopeInvariant (Messaging.newResponseMsg cfg payload r t)) ∧
    (Messaging.publishError deps cfg ms r e channel
      = Messaging.publishResponse deps cfg ms
          { RequestId := r, Payload := none, FromNode := cfg.ConfigMetadataProcessIDKey,
            MessageType := MessageType.ERROR, Error := e } channel) ∧
    (e ≠ "" →
      EnvelopeInvariant
        { RequestId := r, Payload := none, FromNode := cfg.ConfigMetadataProcessIDKey,
          MessageType := MessageType.ERROR, Error := e }) := by
  refine ⟨⟨rfl, rfl, rfl⟩, ?_, rfl, ?_⟩
  · intro hp ht
    simp [EnvelopeInvariant, Messaging.newResponseMsg, hp, ht]
  · intro he
    simp [EnvelopeInvariant, he]

/-- Evaluation of C12, amended, on the envelopes of the messaging tests. -/
theorem envelope_invariant_amended_witness :
    EnvelopeInvariant (Messaging.newResponseMsg Sample.viper
      (some ⟨"type.googleapis.com/google.protobuf.StringValue", [10, 1, 65]⟩) "123"
      MessageType.OK) ∧
    EnvelopeInvariant ⟨"123", none, "parent-node", MessageType.ERROR, "some-error"⟩ :=
  have h := envelope_invariant_amended Sample.deps Sample.viper (Sample.messaging (.ok 2048))
    (some ⟨"type.googleapis.com/google.protobuf.StringValue", [10, 1, 65]⟩) "123"
    "some-error" "" MessageType.OK
  ⟨h.2.1 (by decide) (by decide), h.2.2.2 (by decide)⟩

/-- C13: `GetRequestID` returns the request identifier of the envelope, a nil error and an
empty log when the data, decompressed if it carries the marker, parses as an envelope;
with libraries that keep their contract, it returns `E.RequestId` on the serialization of
any envelope `E`, compressed or not; and it returns the empty string together with the
error, which it logs, when decompression fails or parsing fails. -/
theorem GetRequestID_spec {M : Type} (deps : Deps M) (msg : NatsMsg) :
    (∀ (data : Bytes) (req : KaiNatsMessage),
      ((deps.IsCompressed msg.Data = false ∧ data = msg.Data) ∨
        (deps.IsCompressed msg.Data = true ∧ deps.UncompressData msg.Data = .ok data)) →
      deps.Unmarshal data = (req, none) →
      Messaging.GetRequestID deps msg = ((req.RequestId, none), [])) ∧
    (deps.Lawful → ∀ (E : KaiNatsMessage) (wire : Bytes), deps.Marshal E = .ok wire →
      (msg.Data = wire ∨ deps.CompressData wire = .ok msg.Data) →
      Messaging.GetRequestID deps msg = ((E.RequestId, none), [])) ∧
    (∀ err : GoError, deps.IsCompressed msg.Data = true →
      deps.UncompressData msg.Data = .error err →
      Messaging.GetRequestID deps msg = (("", some err), [Event.logError err])) ∧
    (∀ (data : Bytes) (leftover : KaiNatsMessage) (err : GoError),
      ((deps.IsCompressed msg.Data = false ∧ data = msg.Data) ∨
        (deps.IsCompressed msg.Data = true ∧ deps.UncompressData msg.Data = .ok data)) →
      deps.Unmarshal data = (leftover, some err) →
      Messaging.GetRequestID deps msg = (("", some err), [Event.logError err])) := by
  have hparsed : ∀ (data : Bytes) (req : KaiNatsMessage),
      ((deps.IsCompressed msg.Data = false ∧ data = msg.Data) ∨
        (deps.IsCompressed msg.Data = true ∧ deps.UncompressData msg.Data = .ok data)) →
      deps.Unmarshal data = (req, none) →
      Messaging.GetRequestID deps msg = ((req.RequestId, none), []) := by
    intro data req hdata hparse
    rcases hdata with ⟨hc, rfl⟩ | ⟨hc, hu⟩
    · simp [Messaging.GetRequestID, hc, hparse]
    · simp [Messaging.GetRequestID, hc, hu, hparse]
  refine ⟨hparsed, ?_, ?_, ?_⟩
  · intro hlaw E wire hmarshal hdata
    rcases hdata with hd | hcomp
    · exact hparsed wire E (Or.inl ⟨by rw [hd]; exact hlaw.isCompressed_marshal E wire hmarshal,
        hd.symm⟩) (hlaw.unmarshal_marshal E wire hmarshal)
    · exact hparsed wire E (Or.inr ⟨hlaw.isCompressed_compress wire msg.Data hcomp,
        hlaw.uncompress_compress wire msg.Data hcomp⟩) (hlaw.unmarshal_marshal E wire hmarshal)
  · intro err hc hu
    simp [Messaging.GetRequestID, hc, hu]
  · intro data leftover err hdata hparse
    rcases hdata with ⟨hc, rfl⟩ | ⟨hc, hu⟩
    · simp [Messaging.GetRequestID, hc, hparse]
    · simp [Messaging.GetRequestID, hc, hu, hparse]

/-- Evaluation of C13: the request identifier of the sample envelope is read from its wire
bytes and from their compressed form; bytes that do not parse, and bytes that carry the
marker and do not decompress, give the empty string and an error. -/
theorem GetRequestID_spec_witness :
    Messaging.GetRequestID Sample.deps ⟨"some-subject", Sample.okWire, none⟩
      = (("123", none), []) ∧
    Messaging.GetRequestID Sample.deps ⟨"some-subject", [31, 139, 0], none⟩
      = (("123", none), []) ∧
    Messaging.GetRequestID Sample.deps ⟨"some-subject", [115, 111, 109, 101], none⟩
      = (("", some (GoError.external "proto: cannot parse")),
          [Event.logError (GoError.external "proto: cannot parse")]) ∧
    Messaging.GetRequestID Sample.deps ⟨"some-subject", [31, 139, 8], none⟩
      = (("", some (GoError.external "gzip: invalid header")),
          [Event.logError (GoError.external "gzip: invalid header")]) :=
  ⟨(GetRequestID_spec Sample.deps ⟨"some-subject", Sample.okWire, none⟩).2.1
      sample_deps_lawful Sample.okEnvelope Sample.okWire rfl (Or.inl rfl),
    (GetRequestID_spec Sample.deps ⟨"some-subject", [31, 139, 0], none⟩).2.1
      sample_deps_lawful Sample.okEnvelope Sample.okWire rfl (Or.inr rfl),
    (GetRequestID_spec Sample.deps ⟨"some-subject", [115, 111, 109, 101], none⟩).2.2.2
      [115, 111, 109, 101] ⟨"", none, "", MessageType.OK, ""⟩
      (GoError.external "proto: cannot parse") (Or.inl ⟨rfl, rfl⟩) rfl,
    (GetRequestID_spec Sample.deps ⟨"some-subject", [31, 139, 8], none⟩).2.2.1
      (GoError.external "gzip: invalid header") rfl rfl⟩

/-- C14: `getResponseHandler` on the lower-cased node name `n` returns the handler stored
under that key if there is one and the handler stored under "default" otherwise, which is
nil when there is none. `WithCustomHandler` stores the composed handler under the
lower-cased subject, so it serves every `n` whose lower-cased form is that of the subject;
`WithHandler` stores it under "default"; a new runner has no handler. -/
theorem getResponseHandler_selection (std : Std) (er : ExitRunner.Callbacks) (n s : String)
    (h : Option ExitRunner.Handler) :
    (∀ f : ExitRunner.Handler, er.responseHandlers (std.ToLower n) = some f →
      ExitRunner.getResponseHandler er (std.ToLower n) = some f) ∧
    (er.responseHandlers (std.ToLower n) = none →
      ExitRunner.getResponseHandler er (std.ToLower n) = er.responseHandlers "default") ∧
    (std.ToLower n = std.ToLower s →
      ExitRunner.getResponseHandler (ExitRunner.WithCustomHandler std er s h) (std.ToLower n)
        = some (ExitRunner.composeHandler h)) ∧
    (std.ToLower n ≠ std.ToLower s →
      ExitRunner.getResponseHandler (ExitRunner.WithCustomHandler std er s h) (std.ToLower n)
        = ExitRunner.getResponseHandler
            (if std.ToLower s = "default" then ExitRunner.WithHandler er h else er)
            (std.ToLower n)) ∧
    (er.responseHandlers (std.ToLower n) = none →
      ExitRunner.getResponseHandler (ExitRunner.WithHandler er h) (std.ToLower n)
        = some (ExitRunner.composeHandler h)) ∧
    (∀ process : String,
      ExitRunner.getResponseHandler (ExitRunner.NewExitRunner process) (std.ToLower n)
        = none) := by
  refine ⟨?_, ?_, ?_, ?_, ?_, ?_⟩
  · intro f hf
    simp [ExitRunner.getResponseHandler, hf]
  · intro hnone
    simp [ExitRunner.getResponseHandler, hnone]
  · intro heq
    simp [ExitRunner.getResponseHandler, ExitRunner.WithCustomHandler, heq]
  · intro hne
    by_cases hd : std.ToLower s = "default"
    · have hne2 : ¬ std.ToLower n = "default" := fun h2 => hne (h2.trans hd.symm)
      simp [ExitRunner.getResponseHandler, ExitRunner.WithCustomHandler,
        ExitRunner.WithHandler, hne, hd, hne2]
    · have hd2 : ¬ "default" = std.ToLower s := fun h2 => hd h2.symm
      simp [ExitRunner.getResponseHandler, ExitRunner.WithCustomHandler, hne, hd, hd2]
  · intro hnone
    by_cases hd : std.ToLower n = "default"
    · simp [ExitRunner.getResponseHandler, ExitRunner.WithHandler, hd]
    · simp [ExitRunner.getResponseHandler, ExitRunner.WithHandler, hd, hnone]
  · intro process
    simp [ExitRunner.getResponseHandler, ExitRunner.NewExitRunner]

/-- Evaluation of C14: with a default handler that succeeds and a handler registered for
`ORDERS` that fails, node `Orders` is served by the latter and node `billing` by the
default. -/
theorem getResponseHandler_selection_witness :
    (ExitRunner.getResponseHandler
        (ExitRunner.WithCustomHandler Sample.std (Sample.callbacks Sample.okHandler) "ORDERS"
          (some Sample.stockHandler))
        (Sample.std.ToLower "Orders")).map (fun f => f none none)
      = some (some (GoError.external "insufficient stock")) ∧
    (ExitRunner.getResponseHandler
        (ExitRunner.WithCustomHandler Sample.std (Sample.callbacks Sample.okHandler) "ORDERS"
          (some Sample.stockHandler))
        (Sample.std.ToLower "billing")).map (fun f => f none none)
      = some none := by
  constructor
  · rw [(getResponseHandler_selection Sample.std (Sample.callbacks Sample.okHandler) "Orders"
      "ORDERS" (some Sample.stockHandler)).2.2.1 (by decide)]
    rfl
  · rw [(getResponseHandler_selection Sample.std (Sample.callbacks Sample.okHandler) "billing"
      "ORDERS" (some Sample.stockHandler)).2.2.2.1 (by decide)]
    rfl

/-- C15: whatever the delivery and whatever the outcome (decode failure, missing handler,
failure of a stage, success), the trace of `processMessage` holds exactly one call to
`msg.Ack()`. -/
theorem processMessage_acks_once {M : Type} (deps : Deps M) (std : Std) (cfg : Viper)
    (er : ExitRunner.Runner) (cb : ExitRunner.Callbacks) (msg : NatsMsg) :
    ExitRunner.acks (ExitRunner.processMessage deps std cfg er cb msg) = 1 := by
  unfold ExitRunner.processMessage
  rcases hnew : ExitRunner.newRequestMessage deps msg.Data with
    ⟨⟨requestMsg, err⟩, decodeLog⟩
  cases err with
  | some err =>
    simp [exit_acks_append, exit_acks_map_effect, exit_acks_processRunnerError]
  | none =>
    simp only []
    cases hsel : ExitRunner.getResponseHandler cb (std.ToLower (GetFromNode requestMsg)) with
    | none =>
      simp [exit_acks_append, exit_acks_map_effect, exit_acks_processRunnerError,
        exit_acks_cons, exit_acks_nil]
    | some handler =>
      simp only []
      cases hpre : cb.preprocessor <;> cases hpost : cb.postprocessor <;>
        simp only [] <;> (repeat' split) <;>
        simp [exit_acks_append, exit_acks_map_effect, exit_acks_processRunnerError,
          exit_acks_cons, exit_acks_nil]

/-- C16: when the delivery decodes to `req`, a handler is selected for its source node and
the preprocessor (if configured), the handler and the postprocessor (if configured) all
return success, `processMessage` calls the stages in order, acknowledges the delivery
once, records the metric once, tagged with the request identifier, and makes no `Publish`
call: its only possible effect is the log of a failed acknowledgment. -/
theorem processMessage_success {M : Type} (deps : Deps M) (std : Std) (cfg : Viper)
    (er : ExitRunner.Runner) (cb : ExitRunner.Callbacks) (msg : NatsMsg)
    (req : KaiNatsMessage) (log : List Event) (handler : ExitRunner.Handler)
    (hdec : ExitRunner.newRequestMessage deps msg.Data = ((some req, none), log))
    (hsel : ExitRunner.getResponseHandler cb (std.ToLower req.FromNode) = some handler)
    (hpre : ExitRunner.stageResult cb.preprocessor (some req) = none)
    (hhandler : handler (some req) req.Payload = none)
    (hpost : ExitRunner.stageResult cb.postprocessor (some req) = none) :
    ExitRunner.acks (ExitRunner.processMessage deps std cfg er cb msg) = 1 ∧
    ExitRunner.records (ExitRunner.processMessage deps std cfg er cb msg) = [req.RequestId] ∧
    published (ExitRunner.effects (ExitRunner.processMessage deps std cfg er cb msg)) = [] ∧
    ExitRunner.effects (ExitRunner.processMessage deps std cfg er cb msg)
      = (match msg.Ack with
         | some ackErr => [Event.logError ackErr]
         | none => []) ∧
    ExitRunner.invocations (ExitRunner.processMessage deps std cfg er cb msg)
      = ExitRunner.stageCalls cb.preprocessor ExitRunner.Stage.preprocessor (some req) ++
          [(ExitRunner.Stage.handler, req.Payload)] ++
          ExitRunner.stageCalls cb.postprocessor ExitRunner.Stage.postprocessor (some req) := by
  obtain ⟨-, rfl⟩ := exit_newRequestMessage_ok deps msg.Data (some req) log hdec
  unfold ExitRunner.processMessage
  simp only [hdec, GetFromNode, GetRequestId, GetPayload, hsel, hhandler]
  cases hp : cb.preprocessor <;> cases hq : cb.postprocessor <;>
    simp only [hp, hq, ExitRunner.stageResult, GetPayload] at hpre hpost <;>
    cases hack : msg.Ack <;>
    simp [hpre, hpost, hhandler, ExitRunner.stageCalls, GetPayload, exit_acks_cons,
      exit_acks_nil, ExitRunner.records, ExitRunner.effects, ExitRunner.invocations,
      published]

/-- Evaluation of C16 on the scenario of the spec: the default handler succeeds on a
delivery from node `Orders`. -/
theorem processMessage_success_witness :
    ExitRunner.processMessage Sample.dispatchDeps Sample.std Sample.viper
        (Sample.runner 2048 1048576) (Sample.callbacks Sample.okHandler) (Sample.delivery none)
      = [ExitRunner.RunnerEvent.invoke ExitRunner.Stage.handler none,
          ExitRunner.RunnerEvent.ack, ExitRunner.RunnerEvent.record "req-7"] ∧
    ExitRunner.acks (ExitRunner.processMessage Sample.dispatchDeps Sample.std Sample.viper
        (Sample.runner 2048 1048576) (Sample.callbacks Sample.okHandler) (Sample.delivery none))
      = 1 ∧
    published (ExitRunner.effects (ExitRunner.processMessage Sample.dispatchDeps Sample.std
        Sample.viper (Sample.runner 2048 1048576) (Sample.callbacks Sample.okHandler)
        (Sample.delivery none))) = [] :=
  have h := processMessage_success Sample.dispatchDeps Sample.std Sample.viper
    (Sample.runner 2048 1048576) (Sample.callbacks Sample.okHandler) (Sample.delivery none)
    Sample.inboundEnvelope [] (ExitRunner.composeHandler (some Sample.okHandler))
    rfl rfl rfl rfl rfl
  ⟨rfl, h.1, h.2.2.1⟩

/-- C17: in the trace of `processMessage` every `Publish` call comes after the call to
`msg.Ack()`, so on every error path the delivery is acknowledged before the ERROR envelope
is published; and `processRunnerError` goes on to `publishError` whatever the
acknowledgment answers: a failed acknowledgment is logged and the `Publish` calls are the
same. -/
theorem processMessage_ack_before_publish {M : Type} (deps : Deps M) (std : Std)
    (cfg : Viper) (er : ExitRunner.Runner) (cb : ExitRunner.Callbacks) (msg : NatsMsg)
    (errMsg requestID : String) :
    (∀ (pre post : List ExitRunner.RunnerEvent) (subject : String) (data : Bytes),
      ExitRunner.processMessage deps std cfg er cb msg
        = pre ++ ExitRunner.RunnerEvent.effect (Event.publish subject data) :: post →
      ExitRunner.RunnerEvent.ack ∈ pre) ∧
    (msg.Ack = none →
      ExitRunner.processRunnerError deps cfg er msg errMsg requestID
        = ExitRunner.RunnerEvent.ack ::
            (ExitRunner.publishError deps cfg er requestID errMsg).map
              ExitRunner.RunnerEvent.effect) ∧
    (∀ ackErr : GoError, msg.Ack = some ackErr →
      ExitRunner.processRunnerError deps cfg er msg errMsg requestID
        = ExitRunner.RunnerEvent.ack ::
            ExitRunner.RunnerEvent.effect (Event.logError ackErr) ::
            (ExitRunner.publishError deps cfg er requestID errMsg).map
              ExitRunner.RunnerEvent.effect) ∧
    published (ExitRunner.effects
        (ExitRunner.processRunnerError deps cfg er msg errMsg requestID))
      = published (ExitRunner.publishError deps cfg er requestID errMsg) := by
  refine ⟨exit_ackFirst_sound _ (exit_ackFirst_processMessage deps std cfg er cb msg), ?_, ?_,
    exit_published_processRunnerError deps cfg er msg errMsg requestID⟩
  · intro hack
    simp [ExitRunner.processRunnerError, hack]
  · intro ackErr hack
    simp [ExitRunner.processRunnerError, hack]

/-- Evaluation of C17 on the scenario of the spec with a failing acknowledgment: the
handler fails, the acknowledgment fails and is logged, and the ERROR envelope is published
after it. -/
theorem processMessage_ack_before_publish_witness :
    ExitRunner.processMessage Sample.dispatchDeps Sample.std Sample.viper
        (Sample.runner 2048 1048576) (Sample.callbacks Sample.stockHandler)
        (Sample.delivery (some (GoError.external "nats: timeout")))
      = [ExitRunner.RunnerEvent.invoke ExitRunner.Stage.handler none,
          ExitRunner.RunnerEvent.ack,
          ExitRunner.RunnerEvent.effect (Event.logError (GoError.external "nats: timeout")),
          ExitRunner.RunnerEvent.effect (Event.publish "test-parent" Sample.stockWire),
          ExitRunner.RunnerEvent.record "req-7"] ∧
    ExitRunner.RunnerEvent.ack ∈
      [ExitRunner.RunnerEvent.invoke ExitRunner.Stage.handler none,
        ExitRunner.RunnerEvent.ack,
        ExitRunner.RunnerEvent.effect (Event.logError (GoError.external "nats: timeout"))] :=
  ⟨rfl,
    (processMessage_ack_before_publish Sample.dispatchDeps Sample.std Sample.viper
      (Sample.runner 2048 1048576) (Sample.callbacks Sample.stockHandler)
      (Sample.delivery (some (GoError.external "nats: timeout"))) "" "").1
      [ExitRunner.RunnerEvent.invoke ExitRunner.Stage.handler none,
        ExitRunner.RunnerEvent.ack,
        ExitRunner.RunnerEvent.effect (Event.logError (GoError.external "nats: timeout"))]
      [ExitRunner.RunnerEvent.record "req-7"] "test-parent" Sample.stockWire rfl⟩

/-- C18: the stage calls of `processMessage` are, in order and each at most once, an
initial part of: preprocessor (if configured), handler, postprocessor (if configured),
each with the payload of the decoded envelope. When the delivery decodes and a handler is
selected: if the preprocessor returns an error it is the only stage called; if the handler
returns an error the postprocessor is not called; otherwise all configured stages are
called. -/
theorem processMessage_stage_order {M : Type} (deps : Deps M) (std : Std) (cfg : Viper)
    (er : ExitRunner.Runner) (cb : ExitRunner.Callbacks) (msg : NatsMsg) :
    (ExitRunner.invocations (ExitRunner.processMessage deps std cfg er cb msg) <+:
      ExitRunner.stageCalls cb.preprocessor ExitRunner.Stage.preprocessor
          (ExitRunner.newRequestMessage deps msg.Data).1.1 ++
        [(ExitRunner.Stage.handler, GetPayload (ExitRunner.newRequestMessage deps msg.Data).1.1)] ++
        ExitRunner.stageCalls cb.postprocessor ExitRunner.Stage.postprocessor
          (ExitRunner.newRequestMessage deps msg.Data).1.1) ∧
    ((ExitRunner.invocations (ExitRunner.processMessage deps std cfg er cb msg)).map
      Prod.fst).Nodup ∧
    (∀ (req : KaiNatsMessage) (log : List Event) (handler : ExitRunner.Handler),
      ExitRunner.newRequestMessage deps msg.Data = ((some req, none), log) →
      ExitRunner.getResponseHandler cb (std.ToLower req.FromNode) = some handler →
      (∀ err : GoError, ExitRunner.stageResult cb.preprocessor (some req) = some err →
        ExitRunner.invocations (ExitRunner.processMessage deps std cfg er cb msg)
          = [(ExitRunner.Stage.preprocessor, req.Payload)]) ∧
      (∀ err : GoError, ExitRunner.stageResult cb.preprocessor (some req) = none →
        handler (some req) req.Payload = some err →
        ExitRunner.invocations (ExitRunner.processMessage deps std cfg er cb msg)
          = ExitRunner.stageCalls cb.preprocessor ExitRunner.Stage.preprocessor (some req) ++
              [(ExitRunner.Stage.handler, req.Payload)]) ∧
      (ExitRunner.stageResult cb.preprocessor (some req) = none →
        handler (some req) req.Payload = none →
        ExitRunner.invocations (ExitRunner.processMessage deps std cfg er cb msg)
          = ExitRunner.stageCalls cb.preprocessor ExitRunner.Stage.preprocessor (some req) ++
              [(ExitRunner.Stage.handler, req.Payload)] ++
              ExitRunner.stageCalls cb.postprocessor ExitRunner.Stage.postprocessor
                (some req))) := by
  refine ⟨?_, ?_, ?_⟩
  · unfold ExitRunner.processMessage
    rcases hnew : ExitRunner.newRequestMessage deps msg.Data with
      ⟨⟨requestMsg, err⟩, decodeLog⟩
    cases err with
    | some err =>
      simp [exit_invocations_append, exit_invocations_map_effect,
        exit_invocations_processRunnerError]
    | none =>
      simp only []
      cases hsel : ExitRunner.getResponseHandler cb (std.ToLower (GetFromNode requestMsg)) with
      | none =>
        simp [exit_invocations_append, exit_invocations_map_effect,
          exit_invocations_processRunnerError, exit_invocations_nil,
            exit_invocations_invoke, exit_invocations_ack, exit_invocations_record,
            exit_invocations_effect]
      | some handler =>
        simp only []
        cases hpre : cb.preprocessor <;> cases hpost : cb.postprocessor <;>
          simp only [] <;> (repeat' split) <;>
          simp [exit_invocations_append, exit_invocations_map_effect,
            exit_invocations_processRunnerError, exit_invocations_nil,
            exit_invocations_invoke, exit_invocations_ack, exit_invocations_record,
            exit_invocations_effect, ExitRunner.stageCalls]
  · unfold ExitRunner.processMessage
    rcases hnew : ExitRunner.newRequestMessage deps msg.Data with
      ⟨⟨requestMsg, err⟩, decodeLog⟩
    cases err with
    | some err =>
      simp [exit_invocations_append, exit_invocations_map_effect,
        exit_invocations_processRunnerError]
    | none =>
      simp only []
      cases hsel : ExitRunner.getResponseHandler cb (std.ToLower (GetFromNode requestMsg)) with
      | none =>
        simp [exit_invocations_append, exit_invocations_map_effect,
          exit_invocations_processRunnerError, exit_invocations_nil,
            exit_invocations_invoke, exit_invocations_ack, exit_invocations_record,
            exit_invocations_effect]
      | some handler =>
        simp only []
        cases hpre : cb.preprocessor <;> cases hpost : cb.postprocessor <;>
          simp only [] <;> (repeat' split) <;>
          simp [exit_invocations_append, exit_invocations_map_effect,
            exit_invocations_processRunnerError, exit_invocations_nil,
            exit_invocations_invoke, exit_invocations_ack, exit_invocations_record,
            exit_invocations_effect]
  · intro req log handler hdec hsel
    obtain ⟨-, rfl⟩ := exit_newRequestMessage_ok deps msg.Data (some req) log hdec
    refine ⟨?_, ?_, ?_⟩
    · intro err hpre
      unfold ExitRunner.processMessage
      simp only [hdec, GetFromNode, GetRequestId, GetPayload, hsel]
      cases hp : cb.preprocessor <;>
        simp only [hp, ExitRunner.stageResult, GetPayload] at hpre
      · exact absurd hpre (by simp)
      · simp [hpre, exit_invocations_append, exit_invocations_processRunnerError,
          exit_invocations_nil, exit_invocations_invoke, exit_invocations_ack,
          exit_invocations_record, exit_invocations_effect]
    · intro err hpre hhandler
      unfold ExitRunner.processMessage
      simp only [hdec, GetFromNode, GetRequestId, GetPayload, hsel]
      cases hp : cb.preprocessor <;>
        simp only [hp, ExitRunner.stageResult, GetPayload] at hpre <;>
        simp [hpre, hhandler, exit_invocations_append, exit_invocations_processRunnerError,
          exit_invocations_nil, exit_invocations_invoke, exit_invocations_ack,
          exit_invocations_record, exit_invocations_effect, ExitRunner.stageCalls, GetPayload]
    · intro hpre hhandler
      unfold ExitRunner.processMessage
      simp only [hdec, GetFromNode, GetRequestId, GetPayload, hsel]
      cases hp : cb.preprocessor <;> cases hq : cb.postprocessor <;>
        simp only [hp, ExitRunner.stageResult, GetPayload] at hpre <;>
        simp only [] <;> (repeat' split) <;>
        simp [hpre, hhandler, exit_invocations_append, exit_invocations_processRunnerError,
          exit_invocations_nil, exit_invocations_invoke, exit_invocations_ack,
          exit_invocations_record, exit_invocations_effect, ExitRunner.stageCalls,
          GetPayload] <;> simp_all

/-- Evaluation of C18: with a preprocessor and a postprocessor that succeed around a
handler that fails, the preprocessor and the handler are called and the postprocessor is
not; with a preprocessor that fails, it alone is called. -/
theorem processMessage_stage_order_witness :
    ExitRunner.invocations (ExitRunner.processMessage Sample.dispatchDeps Sample.std
        Sample.viper (Sample.runner 2048 1048576)
        { Sample.callbacks Sample.stockHandler with
          preprocessor := some Sample.okHandler, postprocessor := some Sample.okHandler }
        (Sample.delivery none))
      = [(ExitRunner.Stage.preprocessor, none), (ExitRunner.Stage.handler, none)] ∧
    ExitRunner.invocations (ExitRunner.processMessage Sample.dispatchDeps Sample.std
        Sample.viper (Sample.runner 2048 1048576)
        { Sample.callbacks Sample.okHandler with
          preprocessor := some Sample.stockHandler, postprocessor := some Sample.okHandler }
        (Sample.delivery none))
      = [(ExitRunner.Stage.preprocessor, none)] :=
  ⟨((processMessage_stage_order Sample.dispatchDeps Sample.std Sample.viper
      (Sample.runner 2048 1048576)
      { Sample.callbacks Sample.stockHandler with
        preprocessor := some Sample.okHandler, postprocessor := some Sample.okHandler }
      (Sample.delivery none)).2.2 Sample.inboundEnvelope []
      (ExitRunner.composeHandler (some Sample.stockHandler)) rfl rfl).2.1
      (GoError.external "insufficient stock") rfl rfl,
    ((processMessage_stage_order Sample.dispatchDeps Sample.std Sample.viper
      (Sample.runner 2048 1048576)
      { Sample.callbacks Sample.okHandler with
        preprocessor := some Sample.stockHandler, postprocessor := some Sample.okHandler }
      (Sample.delivery none)).2.2 Sample.inboundEnvelope []
      (ExitRunner.composeHandler (some Sample.okHandler)) rfl rfl).1
      (GoError.external "insufficient stock") rfl⟩

/-- C19: when the delivery decodes to `req`, a handler is selected, and the first stage to
fail is `stage`, with error `e`, the `Publish` calls of `processMessage` are those of
`publishError` for the request identifier of `req` and the message that names the stage,
the consuming node, the originating node and the text of `e`. So when the ERROR envelope
with that message, that request identifier, the process identifier and no payload
serializes to `wire` and `wire` is prepared as `data`, exactly one `Publish` call is made,
on the output topic, with `data`. -/
theorem processMessage_stage_error {M : Type} (deps : Deps M) (std : Std) (cfg : Viper)
    (er : ExitRunner.Runner) (cb : ExitRunner.Callbacks) (msg : NatsMsg)
    (req : KaiNatsMessage) (log : List Event) (handler : ExitRunner.Handler)
    (stage : ExitRunner.Stage) (e : GoError)
    (hdec : ExitRunner.newRequestMessage deps msg.Data = ((some req, none), log))
    (hsel : ExitRunner.getResponseHandler cb (std.ToLower req.FromNode) = some handler)
    (hfail :
      (stage = ExitRunner.Stage.preprocessor ∧
        ExitRunner.stageResult cb.preprocessor (some req) = some e) ∨
      (stage = ExitRunner.Stage.handler ∧
        ExitRunner.stageResult cb.preprocessor (some req) = none ∧
        handler (some req) req.Payload = some e) ∨
      (stage = ExitRunner.Stage.postprocessor ∧
        ExitRunner.stageResult cb.preprocessor (some req) = none ∧
        handler (some req) req.Payload = none ∧
        ExitRunner.stageResult cb.postprocessor (some req) = some e)) :
    published (ExitRunner.effects (ExitRunner.processMessage deps std cfg er cb msg))
      = published (ExitRunner.publishError deps cfg er req.RequestId
          (ExitRunner.stageErrorMessage std cb.process req.FromNode stage e)) ∧
    (∀ wire data : Bytes,
      deps.Marshal
          { RequestId := req.RequestId, Payload := none,
            FromNode := cfg.ConfigMetadataProcessIDKey, MessageType := MessageType.ERROR,
            Error := ExitRunner.stageErrorMessage std cb.process req.FromNode stage e }
        = .ok wire →
      ExitRunner.prepareOutputMessage deps cfg er wire = .ok data →
      published (ExitRunner.effects (ExitRunner.processMessage deps std cfg er cb msg))
        = [(cfg.ConfigNatsOutputKey, data)]) := by
  obtain ⟨-, rfl⟩ := exit_newRequestMessage_ok deps msg.Data (some req) log hdec
  have hpub : published (ExitRunner.effects (ExitRunner.processMessage deps std cfg er cb msg))
      = published (ExitRunner.publishError deps cfg er req.RequestId
          (ExitRunner.stageErrorMessage std cb.process req.FromNode stage e)) := by
    unfold ExitRunner.processMessage
    simp only [hdec, GetFromNode, GetRequestId, GetPayload, hsel]
    rcases hfail with ⟨rfl, hpre⟩ | ⟨rfl, hpre, hhandler⟩ | ⟨rfl, hpre, hhandler, hpost⟩
    · cases hp : cb.preprocessor <;>
        simp only [hp, ExitRunner.stageResult, GetPayload] at hpre
      · exact absurd hpre (by simp)
      · simp [hpre, exit_effects_append, published_append,
          exit_published_processRunnerError, exit_effects_nil, exit_effects_invoke,
          exit_effects_ack, exit_effects_record, exit_effects_effect, published_nil,
          ExitRunner.stageErrorMessage]
    · cases hp : cb.preprocessor <;>
        simp only [hp, ExitRunner.stageResult, GetPayload] at hpre <;>
        simp [hpre, hhandler, exit_effects_append, published_append,
          exit_published_processRunnerError, exit_effects_nil, exit_effects_invoke,
          exit_effects_ack, exit_effects_record, exit_effects_effect, published_nil,
          ExitRunner.stageErrorMessage]
    · cases hp : cb.preprocessor <;> cases hq : cb.postprocessor <;>
        simp only [hp, hq, ExitRunner.stageResult, GetPayload] at hpre hpost <;>
        first
        | exact absurd hpost (by simp)
        | simp [hpre, hhandler, hpost, exit_effects_append, published_append,
            exit_published_processRunnerError, exit_effects_nil, exit_effects_invoke,
            exit_effects_ack, exit_effects_record, exit_effects_effect, published_nil,
            ExitRunner.stageErrorMessage]
  refine ⟨hpub, ?_⟩
  intro wire data hmarshal hprep
  rw [hpub]
  simp [ExitRunner.publishError, exit_published_publishResponse, hmarshal, hprep,
    ExitRunner.getOutputSubject]

/-- Evaluation of C19 on the scenario of the spec: the handler fails with "insufficient
stock" and one ERROR envelope goes to the output topic, with that text and the request
identifier of the inbound envelope. -/
theorem processMessage_stage_error_witness :
    published (ExitRunner.effects (ExitRunner.processMessage Sample.dispatchDeps Sample.std
        Sample.viper (Sample.runner 2048 1048576) (Sample.callbacks Sample.stockHandler)
        (Sample.delivery none))) = [("test-parent", Sample.stockWire)] ∧
    Sample.dispatchDeps.Unmarshal Sample.stockWire
      = (Sample.stockEnvelope, none) ∧
    Sample.stockEnvelope.RequestId = Sample.inboundEnvelope.RequestId ∧
    Sample.stockEnvelope.Error
      = "Error in node \"exit-node\" executing handler for node \"Orders\": " ++
          "insufficient stock" :=
  ⟨(processMessage_stage_error Sample.dispatchDeps Sample.std Sample.viper
      (Sample.runner 2048 1048576) (Sample.callbacks Sample.stockHandler) (Sample.delivery none)
      Sample.inboundEnvelope [] (ExitRunner.composeHandler (some Sample.stockHandler))
      ExitRunner.Stage.handler (GoError.external "insufficient stock") rfl rfl
      (Or.inr (Or.inl ⟨rfl, rfl, rfl⟩))).2 Sample.stockWire Sample.stockWire rfl rfl,
    rfl, rfl, by decide⟩

/-- C20: when the delivery decodes to `req` and neither the lower-cased source node nor
"default" has a handler, `processMessage` calls no stage, acknowledges the delivery once,
and hands `publishError` one ERROR envelope, with the request identifier of `req` and the
missing-handler message: after the acknowledgment (and the log of its failure) the trace
is that of `publishError`, followed by the metric recording. So when that envelope
serializes to `wire` and `wire` is prepared as `data`, exactly one `Publish` call is made,
on the output topic, with `data`. -/
theorem processMessage_missing_handler {M : Type} (deps : Deps M) (std : Std) (cfg : Viper)
    (er : ExitRunner.Runner) (cb : ExitRunner.Callbacks) (msg : NatsMsg)
    (req : KaiNatsMessage) (log : List Event)
    (hdec : ExitRunner.newRequestMessage deps msg.Data = ((some req, none), log))
    (hnode : cb.responseHandlers (std.ToLower req.FromNode) = none)
    (hdefault : cb.responseHandlers "default" = none) :
    ExitRunner.invocations (ExitRunner.processMessage deps std cfg er cb msg) = [] ∧
    ExitRunner.acks (ExitRunner.processMessage deps std cfg er cb msg) = 1 ∧
    ExitRunner.processMessage deps std cfg er cb msg
      = ExitRunner.processRunnerError deps cfg er msg
          ("Error missing handler for node " ++ std.Quote req.FromNode) req.RequestId ++
        [ExitRunner.RunnerEvent.record req.RequestId] ∧
    published (ExitRunner.effects (ExitRunner.processMessage deps std cfg er cb msg))
      = published (ExitRunner.publishError deps cfg er req.RequestId
          ("Error missing handler for node " ++ std.Quote req.FromNode)) ∧
    (∀ wire data : Bytes,
      deps.Marshal
          { RequestId := req.RequestId, Payload := none,
            FromNode := cfg.ConfigMetadataProcessIDKey, MessageType := MessageType.ERROR,
            Error := "Error missing handler for node " ++ std.Quote req.FromNode }
        = .ok wire →
      ExitRunner.prepareOutputMessage deps cfg er wire = .ok data →
      published (ExitRunner.effects (ExitRunner.processMessage deps std cfg er cb msg))
        = [(cfg.ConfigNatsOutputKey, data)]) := by
  obtain ⟨-, rfl⟩ := exit_newRequestMessage_ok deps msg.Data (some req) log hdec
  have hsel : ExitRunner.getResponseHandler cb (std.ToLower req.FromNode) = none := by
    simp [ExitRunner.getResponseHandler, hnode, hdefault]
  have htrace : ExitRunner.processMessage deps std cfg er cb msg
      = ExitRunner.processRunnerError deps cfg er msg
          ("Error missing handler for node " ++ std.Quote req.FromNode) req.RequestId ++
        [ExitRunner.RunnerEvent.record req.RequestId] := by
    unfold ExitRunner.processMessage
    simp [hdec, GetFromNode, GetRequestId, hsel]
  have hpub : published (ExitRunner.effects (ExitRunner.processMessage deps std cfg er cb msg))
      = published (ExitRunner.publishError deps cfg er req.RequestId
          ("Error missing handler for node " ++ std.Quote req.FromNode)) := by
    rw [htrace]
    simp [exit_effects_append, published_append, exit_published_processRunnerError,
      exit_effects_nil, exit_effects_record, published_nil]
  refine ⟨?_, ?_, htrace, hpub, ?_⟩
  · rw [htrace]
    simp [exit_invocations_append, exit_invocations_processRunnerError,
      exit_invocations_record, exit_invocations_nil]
  · rw [htrace]
    simp [exit_acks_append, exit_acks_processRunnerError, exit_acks_cons, exit_acks_nil]
  · intro wire data hmarshal hprep
    rw [hpub]
    simp [ExitRunner.publishError, exit_published_publishResponse, hmarshal, hprep,
      ExitRunner.getOutputSubject]

/-- Evaluation of C20 on a runner without handlers that receives the delivery of the
scenario. -/
theorem processMessage_missing_handler_witness :
    ExitRunner.processMessage Sample.dispatchDeps Sample.std Sample.viper
        (Sample.runner 2048 1048576) (ExitRunner.NewExitRunner "exit-node")
        (Sample.delivery none)
      = [ExitRunner.RunnerEvent.ack,
          ExitRunner.RunnerEvent.effect (Event.publish "test-parent" Sample.missingWire),
          ExitRunner.RunnerEvent.record "req-7"] ∧
    published (ExitRunner.effects (ExitRunner.processMessage Sample.dispatchDeps Sample.std
        Sample.viper (Sample.runner 2048 1048576) (ExitRunner.NewExitRunner "exit-node")
        (Sample.delivery none))) = [("test-parent", Sample.missingWire)] ∧
    Sample.dispatchDeps.Unmarshal Sample.missingWire
      = (⟨"req-7", none, "parent-node", MessageType.ERROR,
          "Error missing handler for node \"Orders\""⟩, none) :=
  ⟨rfl,
    (processMessage_missing_handler Sample.dispatchDeps Sample.std Sample.viper
      (Sample.runner 2048 1048576) (ExitRunner.NewExitRunner "exit-node")
      (Sample.delivery none) Sample.inboundEnvelope [] rfl rfl rfl).2.2.2.2
      Sample.missingWire Sample.missingWire rfl rfl,
    rfl⟩

/-! ### Auxiliary lemmas on the consumer name and on the waiter table -/

/-- The characters of `ReplaceAll`. -/
theorem exit_replaceAll_data (s : String) (old new : Char) :
    (ExitRunner.ReplaceAll s old new).data
      = s.data.map (fun c => if c = old then new else c) := rfl

/-- After `ReplaceAll`, the replaced character is gone unless it replaces itself. -/
theorem exit_replaceAll_not_mem (s : String) (old new : Char) (h : new ≠ old) :
    old ∉ (ExitRunner.ReplaceAll s old new).data := by
  rw [exit_replaceAll_data]
  intro hmem
  obtain ⟨c, -, hc⟩ := List.mem_map.mp hmem
  have hc2 : (if c = old then new else c) = old := hc
  by_cases hco : c = old
  · rw [if_pos hco] at hc2
    exact h hc2
  · rw [if_neg hco] at hc2
    exact hco hc2

/-- A character that is absent, and is not the replacement, stays absent after
`ReplaceAll`. -/
theorem exit_replaceAll_preserves_not_mem (s : String) (old new x : Char) (hx : x ≠ new)
    (h : x ∉ s.data) : x ∉ (ExitRunner.ReplaceAll s old new).data := by
  rw [exit_replaceAll_data]
  intro hmem
  obtain ⟨c, hcs, hc⟩ := List.mem_map.mp hmem
  have hc2 : (if c = old then new else c) = x := hc
  by_cases hco : c = old
  · rw [if_pos hco] at hc2
    exact hx hc2.symm
  · rw [if_neg hco] at hc2
    exact h (hc2 ▸ hcs)

/-- An effect at the head of a trace is no metric recording. -/
theorem exit_records_effect (e : Event) (l : List ExitRunner.RunnerEvent) :
    ExitRunner.records (ExitRunner.RunnerEvent.effect e :: l) = ExitRunner.records l := rfl

/-- Deleting a key drops an entry of that key at the head. -/
theorem trigger_delete_cons_eq (rest : TriggerRunner.SyncMap) (key : String)
    (v : TriggerRunner.Stored) :
    TriggerRunner.SyncMap.Delete ((key, v) :: rest) key
      = TriggerRunner.SyncMap.Delete rest key := by
  simp [TriggerRunner.SyncMap.Delete]

/-- Deleting a key keeps an entry of another key at the head. -/
theorem trigger_delete_cons_ne (rest : TriggerRunner.SyncMap) (key k : String)
    (v : TriggerRunner.Stored) (h : k ≠ key) :
    TriggerRunner.SyncMap.Delete ((k, v) :: rest) key
      = (k, v) :: TriggerRunner.SyncMap.Delete rest key := by
  simp [TriggerRunner.SyncMap.Delete, h]

/-- Loading the key of the head entry. -/
theorem trigger_load_cons_eq (rest : TriggerRunner.SyncMap) (key : String)
    (v : TriggerRunner.Stored) :
    TriggerRunner.SyncMap.Load ((key, v) :: rest) key = some v := by
  simp [TriggerRunner.SyncMap.Load]

/-- Loading a key other than that of the head entry. -/
theorem trigger_load_cons_ne (rest : TriggerRunner.SyncMap) (key k : String)
    (v : TriggerRunner.Stored) (h : k ≠ key) :
    TriggerRunner.SyncMap.Load ((k, v) :: rest) key = TriggerRunner.SyncMap.Load rest key := by
  simp [TriggerRunner.SyncMap.Load, h]

/-- A deleted key is absent. -/
theorem trigger_load_delete_self (m : TriggerRunner.SyncMap) (key : String) :
    TriggerRunner.SyncMap.Load (TriggerRunner.SyncMap.Delete m key) key = none := by
  induction m with
  | nil => rfl
  | cons e rest ih =>
    obtain ⟨k, v⟩ := e
    by_cases hk : k = key
    · rw [hk, trigger_delete_cons_eq]
      exact ih
    · rw [trigger_delete_cons_ne _ _ _ _ hk, trigger_load_cons_ne _ _ _ _ hk]
      exact ih

/-- Deleting a key leaves the other keys as they are. -/
theorem trigger_load_delete_ne (m : TriggerRunner.SyncMap) (key other : String)
    (h : other ≠ key) :
    TriggerRunner.SyncMap.Load (TriggerRunner.SyncMap.Delete m key) other
      = TriggerRunner.SyncMap.Load m other := by
  induction m with
  | nil => rfl
  | cons e rest ih =>
    obtain ⟨k, v⟩ := e
    by_cases hk : k = key
    · have hko : k ≠ other := fun h2 => h (h2.symm.trans hk)
      rw [trigger_load_cons_ne _ _ _ _ hko, hk, trigger_delete_cons_eq]
      exact ih
    · rw [trigger_delete_cons_ne _ _ _ _ hk]
      by_cases hko : k = other
      · rw [hko, trigger_load_cons_eq, trigger_load_cons_eq]
      · rw [trigger_load_cons_ne _ _ _ _ hko, trigger_load_cons_ne _ _ _ _ hko]
        exact ih

/-- Deleting an absent key changes nothing. -/
theorem trigger_delete_of_load_none (m : TriggerRunner.SyncMap) (key : String)
    (h : TriggerRunner.SyncMap.Load m key = none) :
    TriggerRunner.SyncMap.Delete m key = m := by
  induction m with
  | nil => rfl
  | cons e rest ih =>
    obtain ⟨k, v⟩ := e
    by_cases hk : k = key
    · rw [hk, trigger_load_cons_eq] at h
      exact absurd h (by simp)
    · rw [trigger_load_cons_ne _ _ _ _ hk] at h
      rw [trigger_delete_cons_ne _ _ _ _ hk, ih h]

/-- The entries left by a deletion are entries of the map. -/
theorem trigger_mem_of_mem_delete (m : TriggerRunner.SyncMap) (key : String)
    (e : String × TriggerRunner.Stored) (h : e ∈ TriggerRunner.SyncMap.Delete m key) :
    e ∈ m := by
  simp only [TriggerRunner.SyncMap.Delete, List.mem_filter] at h
  exact h.1

/-- The channels left by a deletion are, in order, channels of the map. -/
theorem trigger_channels_delete_sublist (m : TriggerRunner.SyncMap) (key : String) :
    (TriggerRunner.channels (TriggerRunner.SyncMap.Delete m key)).Sublist
      (TriggerRunner.channels m) := by
  induction m with
  | nil => exact List.Sublist.slnil
  | cons e rest ih =>
    obtain ⟨k, v⟩ := e
    by_cases hk : k = key
    · rw [hk, trigger_delete_cons_eq]
      cases v with
      | channel ch => exact List.Sublist.cons _ ih
      | other d => exact ih
    · rw [trigger_delete_cons_ne _ _ _ _ hk]
      cases v with
      | channel ch => exact List.Sublist.cons₂ _ ih
      | other d => exact ih

/-- A channel held by a map is the value of an entry. -/
theorem trigger_mem_channels (m : TriggerRunner.SyncMap) (ch : TriggerRunner.Chan)
    (h : ch ∈ TriggerRunner.channels m) :
    ∃ k : String, (k, TriggerRunner.Stored.channel ch) ∈ m := by
  induction m with
  | nil => simp [TriggerRunner.channels] at h
  | cons e rest ih =>
    obtain ⟨k, v⟩ := e
    cases v with
    | channel c =>
      simp only [TriggerRunner.channels, List.mem_cons] at h
      rcases h with rfl | h
      · exact ⟨k, List.mem_cons_self _ _⟩
      · obtain ⟨k2, hk2⟩ := ih h
        exact ⟨k2, List.mem_cons_of_mem _ hk2⟩
    | other d =>
      simp only [TriggerRunner.channels] at h
      obtain ⟨k2, hk2⟩ := ih h
      exact ⟨k2, List.mem_cons_of_mem _ hk2⟩

/-- A channel found under a key is held by the map. -/
theorem trigger_mem_channels_of_load (m : TriggerRunner.SyncMap) (key : String)
    (ch : TriggerRunner.Chan)
    (h : TriggerRunner.SyncMap.Load m key = some (TriggerRunner.Stored.channel ch)) :
    ch ∈ TriggerRunner.channels m := by
  induction m with
  | nil => simp [TriggerRunner.SyncMap.Load] at h
  | cons e rest ih =>
    obtain ⟨k, v⟩ := e
    by_cases hk : k = key
    · rw [hk, trigger_load_cons_eq] at h
      simp only [Option.some.injEq] at h
      subst h
      simp [TriggerRunner.channels]
    · rw [trigger_load_cons_ne _ _ _ _ hk] at h
      cases v with
      | channel c => simp [TriggerRunner.channels, ih h]
      | other d => simp [TriggerRunner.channels, ih h]

/-- In a map that holds no channel twice, the channel found under a key is gone once the
key is deleted. -/
theorem trigger_not_mem_channels_delete (m : TriggerRunner.SyncMap) (key : String)
    (ch : TriggerRunner.Chan) (hnodup : (TriggerRunner.channels m).Nodup)
    (h : TriggerRunner.SyncMap.Load m key = some (TriggerRunner.Stored.channel ch)) :
    ch ∉ TriggerRunner.channels (TriggerRunner.SyncMap.Delete m key) := by
  induction m with
  | nil => simp [TriggerRunner.SyncMap.Load] at h
  | cons e rest ih =>
    obtain ⟨k, v⟩ := e
    by_cases hk : k = key
    · rw [hk, trigger_load_cons_eq] at h
      simp only [Option.some.injEq] at h
      subst h
      simp only [TriggerRunner.channels, List.nodup_cons] at hnodup
      have hsub := trigger_channels_delete_sublist rest key
      rw [hk, trigger_delete_cons_eq]
      exact fun hmem => hnodup.1 (hsub.subset hmem)
    · rw [trigger_load_cons_ne _ _ _ _ hk] at h
      have hin := trigger_mem_channels_of_load rest key ch h
      rw [trigger_delete_cons_ne _ _ _ _ hk]
      cases v with
      | channel c =>
        simp only [TriggerRunner.channels, List.nodup_cons] at hnodup
        simp only [TriggerRunner.channels, List.mem_cons, not_or]
        refine ⟨?_, ih hnodup.2 h⟩
        intro hc
        exact hnodup.1 (hc ▸ hin)
      | other d =>
        simp only [TriggerRunner.channels] at hnodup
        simp only [TriggerRunner.channels]
        exact ih hnodup h

/-- What `GetResponseChannel` returns: the table with a new channel stored under the key,
and that channel. -/
theorem trigger_getResponseChannel_eq (w : TriggerRunner.Waiters) (requestID : String) :
    TriggerRunner.GetResponseChannel w requestID
      = ({ responseChannels := TriggerRunner.SyncMap.Store w.responseChannels requestID
             (TriggerRunner.Stored.channel w.made)
           made := w.made + 1 }, some w.made) := by
  simp [TriggerRunner.GetResponseChannel, TriggerRunner.SyncMap.Store, trigger_load_cons_eq]

/-- The map left by the response handler is the map without the key, whatever the send
finds on the channel. -/
theorem trigger_getResponseHandler_map (chans : TriggerRunner.Chan → TriggerRunner.ChanState)
    (m : TriggerRunner.SyncMap) (requestID : String) (response : Option AnyPb) :
    (TriggerRunner.getResponseHandler chans m requestID response).1
      = TriggerRunner.SyncMap.Delete m requestID := by
  unfold TriggerRunner.getResponseHandler TriggerRunner.SyncMap.LoadAndDelete
  cases h : TriggerRunner.SyncMap.Load m requestID with
  | none => simp [trigger_delete_of_load_none m requestID h]
  | some v =>
    cases v with
    | channel ch => cases hstate : chans ch <;> simp [hstate]
    | other d => simp

/-- The response handler on a table that holds a channel under the key: what it does
follows what the send finds on that channel. -/
theorem trigger_getResponseHandler_channel
    (chans : TriggerRunner.Chan → TriggerRunner.ChanState) (m : TriggerRunner.SyncMap)
    (requestID : String) (response : Option AnyPb) (ch : TriggerRunner.Chan)
    (h : TriggerRunner.SyncMap.Load m requestID = some (TriggerRunner.Stored.channel ch)) :
    TriggerRunner.getResponseHandler chans m requestID response
      = match chans ch with
        | TriggerRunner.ChanState.receiver =>
          (TriggerRunner.SyncMap.Delete m requestID, TriggerRunner.Outcome.returned none,
            [TriggerRunner.ChanEvent.send ch response])
        | TriggerRunner.ChanState.noReceiver =>
          (TriggerRunner.SyncMap.Delete m requestID, TriggerRunner.Outcome.blocked, [])
        | TriggerRunner.ChanState.closed =>
          (TriggerRunner.SyncMap.Delete m requestID,
            TriggerRunner.Outcome.panicked "send on closed channel", []) := by
  simp only [TriggerRunner.getResponseHandler, TriggerRunner.SyncMap.LoadAndDelete, h]

/-- The table after a reply is the table that the response handler leaves, whatever the
send finds on the channel. -/
theorem trigger_step_reply (chans : TriggerRunner.Chan → TriggerRunner.ChanState)
    (w : TriggerRunner.Waiters) (requestID : String) (response : Option AnyPb) :
    TriggerRunner.step w (TriggerRunner.Op.reply requestID response)
      = { w with
          responseChannels :=
            (TriggerRunner.getResponseHandler chans w.responseChannels requestID
              response).1 } := by
  simp only [TriggerRunner.step, trigger_getResponseHandler_map]

/-- An operation keeps a waiter table well formed. -/
theorem trigger_wellFormed_step (w : TriggerRunner.Waiters) (op : TriggerRunner.Op)
    (h : TriggerRunner.WellFormed w) : TriggerRunner.WellFormed (TriggerRunner.step w op) := by
  obtain ⟨hval, hnodup⟩ := h
  cases op with
  | register requestID =>
    simp only [TriggerRunner.step, trigger_getResponseChannel_eq]
    constructor
    · intro k v hmem
      simp only [TriggerRunner.SyncMap.Store, List.mem_cons, Prod.mk.injEq] at hmem
      rcases hmem with ⟨-, rfl⟩ | hmem
      · exact ⟨w.made, rfl, Nat.lt_succ_self _⟩
      · obtain ⟨ch, hch, hlt⟩ := hval k v (trigger_mem_of_mem_delete _ _ _ hmem)
        exact ⟨ch, hch, Nat.lt_succ_of_lt hlt⟩
    · simp only [TriggerRunner.SyncMap.Store, TriggerRunner.channels, List.nodup_cons]
      refine ⟨?_, hnodup.sublist (trigger_channels_delete_sublist _ _)⟩
      intro hmem
      obtain ⟨k, hk⟩ := trigger_mem_channels _ _ hmem
      obtain ⟨ch, hch, hlt⟩ := hval k _ (trigger_mem_of_mem_delete _ _ _ hk)
      cases hch
      exact Nat.lt_irrefl _ hlt
  | reply requestID response =>
    simp only [TriggerRunner.step, trigger_getResponseHandler_map]
    exact ⟨fun k v hmem => hval k v (trigger_mem_of_mem_delete _ _ _ hmem),
      hnodup.sublist (trigger_channels_delete_sublist _ _)⟩

/-- A history of operations keeps a well-formed table well formed. -/
theorem trigger_wellFormed_foldl (ops : List TriggerRunner.Op) (w : TriggerRunner.Waiters)
    (h : TriggerRunner.WellFormed w) :
    TriggerRunner.WellFormed (ops.foldl TriggerRunner.step w) := by
  induction ops generalizing w with
  | nil => exact h
  | cons op rest ih => exact ih _ (trigger_wellFormed_step w op h)

/-- The table of every history is well formed. -/
theorem trigger_wellFormed_history (ops : List TriggerRunner.Op) :
    TriggerRunner.WellFormed (TriggerRunner.history ops) :=
  trigger_wellFormed_foldl ops _ ⟨fun k v hmem => by simp at hmem, List.nodup_nil⟩

/-- On a map that holds only channels, the shutdown loop closes each of them, in order,
and goes on. -/
theorem trigger_rangeClose_eq (m : TriggerRunner.SyncMap)
    (after : List TriggerRunner.TriggerEvent)
    (h : ∀ (k : String) (v : TriggerRunner.Stored), (k, v) ∈ m →
      ∃ ch : TriggerRunner.Chan, v = TriggerRunner.Stored.channel ch) :
    TriggerRunner.rangeClose m after
      = (TriggerRunner.channels m).map
          (fun ch => TriggerRunner.TriggerEvent.chan (TriggerRunner.ChanEvent.close ch)) ++
        after := by
  induction m with
  | nil => rfl
  | cons e rest ih =>
    obtain ⟨k, v⟩ := e
    obtain ⟨ch, rfl⟩ := h k v (List.mem_cons_self _ _)
    have ih2 := ih (fun k2 v2 hmem => h k2 v2 (List.mem_cons_of_mem _ hmem))
    simp [TriggerRunner.rangeClose, TriggerRunner.channels, ih2]

/-- The channels closed by a list of closes followed by `wg.Done()`. -/
theorem trigger_closed_closes (l : List TriggerRunner.Chan) :
    TriggerRunner.closed (l.map
        (fun ch => TriggerRunner.TriggerEvent.chan (TriggerRunner.ChanEvent.close ch)) ++
      [TriggerRunner.TriggerEvent.wgDone]) = l := by
  induction l with
  | nil => rfl
  | cons ch rest ih => simp [TriggerRunner.closed, ih]

/-- A channel that is not held and was made before stays out of the table. -/
theorem trigger_absent_foldl (ops : List TriggerRunner.Op) (w : TriggerRunner.Waiters)
    (ch : TriggerRunner.Chan) (hlt : ch < w.made)
    (h : ch ∉ TriggerRunner.channels w.responseChannels) :
    ch ∉ TriggerRunner.channels (ops.foldl TriggerRunner.step w).responseChannels := by
  induction ops generalizing w with
  | nil => exact h
  | cons op rest ih =>
    simp only [List.foldl_cons]
    cases op with
    | register requestID =>
      apply ih
      · simp only [TriggerRunner.step, trigger_getResponseChannel_eq]
        exact Nat.lt_succ_of_lt hlt
      · simp only [TriggerRunner.step, trigger_getResponseChannel_eq,
          TriggerRunner.SyncMap.Store, TriggerRunner.channels, List.mem_cons, not_or]
        exact ⟨Nat.ne_of_lt hlt,
          fun hmem => h ((trigger_channels_delete_sublist _ _).subset hmem)⟩
    | reply requestID response =>
      apply ih
      · simpa [TriggerRunner.step] using hlt
      · simp only [TriggerRunner.step, trigger_getResponseHandler_map]
        exact fun hmem => h ((trigger_channels_delete_sublist _ _).subset hmem)

/-! ### Properties of startup, of composition, of the trigger runner and of the copies -/

/-- C21: when the delivery does not decode, `processMessage` (a total function: the nil
envelope is read through nil-safe getters) calls no stage, records no metric, acknowledges
the delivery once and takes the error path with the parse message and the request
identifier of what the decoder returned: the empty string when decompression failed, since
the envelope is then nil, and the identifier left in the envelope by `proto.Unmarshal`
when parsing failed. -/
theorem processMessage_decode_failure {M : Type} (deps : Deps M) (std : Std) (cfg : Viper)
    (er : ExitRunner.Runner) (cb : ExitRunner.Callbacks) (msg : NatsMsg) :
    (∀ err : GoError, deps.IsCompressed msg.Data = true →
      deps.UncompressData msg.Data = .error err →
      ExitRunner.processMessage deps std cfg er cb msg
        = ExitRunner.RunnerEvent.effect (Event.logError err) ::
            ExitRunner.processRunnerError deps cfg er msg
              ("Error parsing msg.data coming from subject " ++ msg.Subject ++
                " because is not a valid protobuf: " ++ std.ErrorText err) "" ∧
      ExitRunner.invocations (ExitRunner.processMessage deps std cfg er cb msg) = [] ∧
      ExitRunner.acks (ExitRunner.processMessage deps std cfg er cb msg) = 1 ∧
      ExitRunner.records (ExitRunner.processMessage deps std cfg er cb msg) = []) ∧
    (∀ (data : Bytes) (leftover : KaiNatsMessage) (err : GoError),
      ((deps.IsCompressed msg.Data = false ∧ data = msg.Data) ∨
        (deps.IsCompressed msg.Data = true ∧ deps.UncompressData msg.Data = .ok data)) →
      deps.Unmarshal data = (leftover, some err) →
      ExitRunner.processMessage deps std cfg er cb msg
        = ExitRunner.processRunnerError deps cfg er msg
            ("Error parsing msg.data coming from subject " ++ msg.Subject ++
              " because is not a valid protobuf: " ++ std.ErrorText err)
            leftover.RequestId ∧
      ExitRunner.invocations (ExitRunner.processMessage deps std cfg er cb msg) = [] ∧
      ExitRunner.acks (ExitRunner.processMessage deps std cfg er cb msg) = 1 ∧
      ExitRunner.records (ExitRunner.processMessage deps std cfg er cb msg) = []) := by
  constructor
  · intro err hc hu
    have hdec : ExitRunner.newRequestMessage deps msg.Data
        = ((none, some err), [Event.logError err]) := by
      simp [ExitRunner.newRequestMessage, hc, hu]
    have htrace : ExitRunner.processMessage deps std cfg er cb msg
        = ExitRunner.RunnerEvent.effect (Event.logError err) ::
            ExitRunner.processRunnerError deps cfg er msg
              ("Error parsing msg.data coming from subject " ++ msg.Subject ++
                " because is not a valid protobuf: " ++ std.ErrorText err) "" := by
      unfold ExitRunner.processMessage
      simp [hdec, GetRequestId]
    refine ⟨htrace, ?_, ?_, ?_⟩
    · rw [htrace, exit_invocations_effect, exit_invocations_processRunnerError]
    · rw [htrace, exit_acks_cons, exit_acks_processRunnerError]
      simp
    · rw [htrace, exit_records_effect, exit_records_processRunnerError]
  · intro data leftover err hdata hparse
    have hdec : ExitRunner.newRequestMessage deps msg.Data
        = ((some leftover, some err), []) := by
      rcases hdata with ⟨hc, rfl⟩ | ⟨hc, hu⟩
      · simp [ExitRunner.newRequestMessage, hc, hparse]
      · simp [ExitRunner.newRequestMessage, hc, hu, hparse]
    have htrace : ExitRunner.processMessage deps std cfg er cb msg
        = ExitRunner.processRunnerError deps cfg er msg
            ("Error parsing msg.data coming from subject " ++ msg.Subject ++
              " because is not a valid protobuf: " ++ std.ErrorText err)
            leftover.RequestId := by
      unfold ExitRunner.processMessage
      simp [hdec, GetRequestId]
    refine ⟨htrace, ?_, ?_, ?_⟩
    · rw [htrace, exit_invocations_processRunnerError]
    · rw [htrace, exit_acks_processRunnerError]
    · rw [htrace, exit_records_processRunnerError]

/-- Evaluation of C21 on bytes that do not parse and on bytes that carry the marker and do
not decompress: the delivery is acknowledged, no stage is called, and the error path gets
the empty request identifier. -/
theorem processMessage_decode_failure_witness :
    ExitRunner.processMessage Sample.dispatchDeps Sample.std Sample.viper
        (Sample.runner 2048 1048576) (Sample.callbacks Sample.okHandler)
        ⟨"orders.created", [115, 111, 109, 101], none⟩
      = ExitRunner.processRunnerError Sample.dispatchDeps Sample.viper
          (Sample.runner 2048 1048576) ⟨"orders.created", [115, 111, 109, 101], none⟩
          ("Error parsing msg.data coming from subject orders.created" ++
            " because is not a valid protobuf: proto: cannot parse") "" ∧
    ExitRunner.acks (ExitRunner.processMessage Sample.dispatchDeps Sample.std Sample.viper
        (Sample.runner 2048 1048576) (Sample.callbacks Sample.okHandler)
        ⟨"orders.created", [31, 139, 8], none⟩) = 1 ∧
    ExitRunner.invocations (ExitRunner.processMessage Sample.dispatchDeps Sample.std
        Sample.viper (Sample.runner 2048 1048576) (Sample.callbacks Sample.okHandler)
        ⟨"orders.created", [31, 139, 8], none⟩) = [] :=
  have hparse := (processMessage_decode_failure Sample.dispatchDeps Sample.std Sample.viper
    (Sample.runner 2048 1048576) (Sample.callbacks Sample.okHandler)
    ⟨"orders.created", [115, 111, 109, 101], none⟩).2 [115, 111, 109, 101]
    ⟨"", none, "", MessageType.OK, ""⟩ (GoError.external "proto: cannot parse")
    (Or.inl ⟨rfl, rfl⟩) rfl
  have hgzip := (processMessage_decode_failure Sample.dispatchDeps Sample.std Sample.viper
    (Sample.runner 2048 1048576) (Sample.callbacks Sample.okHandler)
    ⟨"orders.created", [31, 139, 8], none⟩).1 (GoError.external "gzip: invalid header")
    rfl rfl
  ⟨hparse.1.trans rfl, hgzip.2.2.1, hgzip.2.1⟩

/-- C22: `Run` of the task runner and of the exit runner panics with "Undefined default
handler", before any step, when the handler map has nothing under "default", and runs the
initializer, the subscriber and the finalizer, in this order, when it has. A new runner
has nothing under "default"; `WithHandler` stores the composed handler there; the setters
of the other stages leave the handler map as it is. -/
theorem Run_default_handler (tr : TaskRunner.Runner) (er : ExitRunner.Callbacks)
    (initializer : Option Initializer) (finalizer : Option Finalizer)
    (defaultInitializer : Initializer) (defaultFinalizer : Finalizer) :
    (tr.responseHandlers "default" = none →
      TaskRunner.Run tr = .error "Undefined default handler") ∧
    (∀ handler : TaskRunner.Handler, tr.responseHandlers "default" = some handler →
      TaskRunner.Run tr
        = .ok ((tr.initializer.getD (TaskRunner.composeInitializer none)).map RunEvent.stage ++
            [RunEvent.startSubscriber] ++
            (tr.finalizer.getD (TaskRunner.composeFinalizer none)).map RunEvent.stage)) ∧
    (er.responseHandlers "default" = none →
      ExitRunner.Run er initializer finalizer defaultInitializer defaultFinalizer
        = .error "Undefined default handler") ∧
    (∀ handler : ExitRunner.Handler, er.responseHandlers "default" = some handler →
      ExitRunner.Run er initializer finalizer defaultInitializer defaultFinalizer
        = .ok ((initializer.getD defaultInitializer).map RunEvent.stage ++
            [RunEvent.startSubscriber] ++
            (finalizer.getD defaultFinalizer).map RunEvent.stage)) ∧
    (TaskRunner.NewTaskRunner.responseHandlers "default" = none ∧
      ∀ process : String,
        (ExitRunner.NewExitRunner process).responseHandlers "default" = none) ∧
    (∀ (h : Option TaskRunner.Handler) (g : Option ExitRunner.Handler),
      (TaskRunner.WithHandler tr h).responseHandlers "default"
        = some (TaskRunner.composeHandler h) ∧
      (ExitRunner.WithHandler er g).responseHandlers "default"
        = some (ExitRunner.composeHandler g)) ∧
    (∀ (i : Option Initializer) (f : Option Finalizer) (p : Option TaskRunner.Handler),
      (TaskRunner.WithInitializer tr i).responseHandlers = tr.responseHandlers ∧
      (TaskRunner.WithPreprocessor tr p).responseHandlers = tr.responseHandlers ∧
      (TaskRunner.WithPostprocessor tr p).responseHandlers = tr.responseHandlers ∧
      (TaskRunner.WithFinalizer tr f).responseHandlers = tr.responseHandlers) := by
  refine ⟨?_, ?_, ?_, ?_, ⟨rfl, fun _ => rfl⟩, ?_, fun _ _ _ => ⟨rfl, rfl, rfl, rfl⟩⟩
  · intro h
    simp [TaskRunner.Run, h]
  · intro handler h
    cases hi : tr.initializer <;> cases hf : tr.finalizer <;>
      simp [TaskRunner.Run, h, hi, hf]
  · intro h
    simp [ExitRunner.Run, h]
  · intro handler h
    cases initializer <;> cases finalizer <;> simp [ExitRunner.Run, h]
  · intro h g
    exact ⟨by simp [TaskRunner.WithHandler], by simp [ExitRunner.WithHandler]⟩

/-- Evaluation of C22: a new task runner configured with an initializer only panics; the
same runner with a handler runs the three steps. -/
theorem Run_default_handler_witness :
    TaskRunner.Run (TaskRunner.WithInitializer TaskRunner.NewTaskRunner
        (some [StageEvent.user "load model"]))
      = .error "Undefined default handler" ∧
    TaskRunner.Run (TaskRunner.WithHandler
        (TaskRunner.WithInitializer TaskRunner.NewTaskRunner
          (some [StageEvent.user "load model"])) none)
      = .ok [RunEvent.stage StageEvent.initializeProcessConfiguration,
          RunEvent.stage (StageEvent.user "load model"), RunEvent.startSubscriber] ∧
    ExitRunner.Run (ExitRunner.NewExitRunner "exit-node") none none [] []
      = .error "Undefined default handler" :=
  ⟨(Run_default_handler (TaskRunner.WithInitializer TaskRunner.NewTaskRunner
      (some [StageEvent.user "load model"])) (ExitRunner.NewExitRunner "exit-node")
      none none [] []).1 rfl,
    ((Run_default_handler (TaskRunner.WithHandler
      (TaskRunner.WithInitializer TaskRunner.NewTaskRunner
        (some [StageEvent.user "load model"])) none) (ExitRunner.NewExitRunner "exit-node")
      none none [] []).2.1 (TaskRunner.composeHandler none) rfl).trans rfl,
    (Run_default_handler TaskRunner.NewTaskRunner (ExitRunner.NewExitRunner "exit-node")
      none none [] []).2.2.1 rfl⟩

/-- C23, as stated, fails: after `WithRunner(nil)` the stored runner is the composed
function, which is not nil, and `Run` goes on to the initializer. -/
theorem Run_nil_runner_counterexample :
    TriggerRunner.Run (TriggerRunner.WithRunner TriggerRunner.NewTriggerRunner none)
      = .ok [TriggerRunner.TriggerEvent.stage StageEvent.initializeProcessConfiguration,
          TriggerRunner.TriggerEvent.goRunner, TriggerRunner.TriggerEvent.goStartSubscriber,
          TriggerRunner.TriggerEvent.wgWait] := rfl

/-- C23, amended: `Run` of the trigger runner panics with "Undefined runner function",
before any step, when the field `runner` is nil, which is so on a new runner and is left
so by `WithInitializer` and `WithFinalizer`. After `WithRunner`, with a driver or with
nil, the field holds the composed runner and `Run` executes the initializer, starts the
runner and the subscriber, waits, and executes the finalizer; the composed runner of a nil
driver starts no user goroutine. -/
theorem Run_runner_amended (tr : TriggerRunner.Runner)
    (userRunner : Option TriggerRunner.UserRunner)
    (i : Option Initializer) (f : Option Finalizer) (w : TriggerRunner.Waiters) :
    (tr.runner = none → TriggerRunner.Run tr = .error "Undefined runner function") ∧
    TriggerRunner.NewTriggerRunner.runner = none ∧
    (TriggerRunner.WithInitializer tr i).runner = tr.runner ∧
    (TriggerRunner.WithFinalizer tr f).runner = tr.runner ∧
    TriggerRunner.Run (TriggerRunner.WithRunner tr userRunner)
      = .ok ((tr.initializer.getD (TriggerRunner.composeInitializer none)).map
            TriggerRunner.TriggerEvent.stage ++
          [TriggerRunner.TriggerEvent.goRunner, TriggerRunner.TriggerEvent.goStartSubscriber,
            TriggerRunner.TriggerEvent.wgWait] ++
          (tr.finalizer.getD (TriggerRunner.composeFinalizer none)).map
            TriggerRunner.TriggerEvent.stage) ∧
    TriggerRunner.composeRunner none w
      = TriggerRunner.TriggerEvent.awaitSignal ::
          TriggerRunner.rangeClose w.responseChannels [TriggerRunner.TriggerEvent.wgDone] := by
  refine ⟨?_, rfl, rfl, rfl, ?_, rfl⟩
  · intro h
    simp [TriggerRunner.Run, h]
  · cases hi : tr.initializer <;> cases hf : tr.finalizer <;>
      simp [TriggerRunner.Run, TriggerRunner.WithRunner, hi, hf]

/-- Evaluation of C23, amended: a trigger runner on which only `WithInitializer` was called
panics. -/
theorem Run_runner_amended_witness :
    TriggerRunner.Run (TriggerRunner.WithInitializer TriggerRunner.NewTriggerRunner none)
      = .error "Undefined runner function" :=
  (Run_runner_amended (TriggerRunner.WithInitializer TriggerRunner.NewTriggerRunner none)
    none none none ⟨[], 0⟩).1 rfl

/-- C24, as stated, fails: the channel that `GetResponseChannel` makes has no buffer, so
after `GetResponseChannel("req-1")` on an empty table the response handler called with
the reply tagged `req-1` returns nil only if a receiver takes the value. With no
receiver it takes `req-1` out of the table and stays in the send, without returning; and
once the shutdown loop has closed the channel, which it leaves in the table, the send
panics. -/
theorem getResponseHandler_delivers_counterexample :
    TriggerRunner.GetResponseChannel ⟨[], 0⟩ "req-1"
      = (⟨[("req-1", TriggerRunner.Stored.channel 0)], 1⟩, some 0) ∧
    TriggerRunner.getResponseHandler (fun _ => TriggerRunner.ChanState.noReceiver)
        (TriggerRunner.GetResponseChannel ⟨[], 0⟩ "req-1").1.responseChannels "req-1"
        (some ⟨"type.googleapis.com/google.protobuf.StringValue", [10, 1, 65]⟩)
      = ([], TriggerRunner.Outcome.blocked, []) ∧
    TriggerRunner.composeRunner none (TriggerRunner.GetResponseChannel ⟨[], 0⟩ "req-1").1
      = [TriggerRunner.TriggerEvent.awaitSignal,
          TriggerRunner.TriggerEvent.chan (TriggerRunner.ChanEvent.close 0),
          TriggerRunner.TriggerEvent.wgDone] ∧
    TriggerRunner.getResponseHandler
        (TriggerRunner.closeAll (fun _ => TriggerRunner.ChanState.receiver)
          (TriggerRunner.closed
            (TriggerRunner.composeRunner none
              (TriggerRunner.GetResponseChannel ⟨[], 0⟩ "req-1").1)))
        (TriggerRunner.GetResponseChannel ⟨[], 0⟩ "req-1").1.responseChannels "req-1"
        (some ⟨"type.googleapis.com/google.protobuf.StringValue", [10, 1, 65]⟩)
      = ([], TriggerRunner.Outcome.panicked "send on closed channel", []) ∧
    ¬ (∀ (chans : TriggerRunner.Chan → TriggerRunner.ChanState) (R : String)
        (p : Option AnyPb) (w : TriggerRunner.Waiters),
        TriggerRunner.getResponseHandler chans
            (TriggerRunner.GetResponseChannel w R).1.responseChannels R p
          = (TriggerRunner.SyncMap.Delete w.responseChannels R,
              TriggerRunner.Outcome.returned none,
              [TriggerRunner.ChanEvent.send w.made p])) := by
  refine ⟨by decide, by decide, by decide, by decide, ?_⟩
  intro hall
  have h := hall (fun _ => TriggerRunner.ChanState.noReceiver) "req-1" none ⟨[], 0⟩
  revert h
  decide

/-- C24, amended: `GetResponseChannel(R)` stores a new channel under `R`, leaves the other
entries as they are and returns that channel. On a table that holds channel `ch` under
`R`, the response handler called with a reply tagged `R` and payload `p` leaves the
table without `R` and with every other entry as it was, whatever the send finds; when
the channel is open and a receiver takes the value, the handler makes one send, of `p`
on `ch`, and returns a nil error, and so it does right after `GetResponseChannel(R)` on
the channel that was returned; when the channel is open and no receiver takes the
value, the handler sends nothing and does not return. -/
theorem getResponseHandler_delivers_amended
    (chans : TriggerRunner.Chan → TriggerRunner.ChanState) (w : TriggerRunner.Waiters)
    (m : TriggerRunner.SyncMap) (R : String) (p : Option AnyPb) (ch : TriggerRunner.Chan) :
    ((TriggerRunner.GetResponseChannel w R).2 = some w.made ∧
      TriggerRunner.SyncMap.Load (TriggerRunner.GetResponseChannel w R).1.responseChannels R
        = some (TriggerRunner.Stored.channel w.made) ∧
      ∀ k : String, k ≠ R →
        TriggerRunner.SyncMap.Load (TriggerRunner.GetResponseChannel w R).1.responseChannels k
          = TriggerRunner.SyncMap.Load w.responseChannels k) ∧
    (TriggerRunner.SyncMap.Load m R = some (TriggerRunner.Stored.channel ch) →
      (TriggerRunner.getResponseHandler chans m R p).1 = TriggerRunner.SyncMap.Delete m R ∧
      TriggerRunner.SyncMap.Load (TriggerRunner.getResponseHandler chans m R p).1 R = none ∧
      ∀ k : String, k ≠ R →
        TriggerRunner.SyncMap.Load (TriggerRunner.getResponseHandler chans m R p).1 k
          = TriggerRunner.SyncMap.Load m k) ∧
    (TriggerRunner.SyncMap.Load m R = some (TriggerRunner.Stored.channel ch) →
      chans ch = TriggerRunner.ChanState.receiver →
      TriggerRunner.getResponseHandler chans m R p
        = (TriggerRunner.SyncMap.Delete m R, TriggerRunner.Outcome.returned none,
            [TriggerRunner.ChanEvent.send ch p])) ∧
    (chans w.made = TriggerRunner.ChanState.receiver →
      TriggerRunner.getResponseHandler chans
          (TriggerRunner.GetResponseChannel w R).1.responseChannels R p
        = (TriggerRunner.SyncMap.Delete w.responseChannels R,
            TriggerRunner.Outcome.returned none,
            [TriggerRunner.ChanEvent.send w.made p])) ∧
    (TriggerRunner.SyncMap.Load m R = some (TriggerRunner.Stored.channel ch) →
      chans ch = TriggerRunner.ChanState.noReceiver →
      TriggerRunner.getResponseHandler chans m R p
        = (TriggerRunner.SyncMap.Delete m R, TriggerRunner.Outcome.blocked, [])) := by
  refine ⟨⟨?_, ?_, ?_⟩, ?_, ?_, ?_, ?_⟩
  · rw [trigger_getResponseChannel_eq]
  · rw [trigger_getResponseChannel_eq]
    exact trigger_load_cons_eq _ _ _
  · intro k hk
    rw [trigger_getResponseChannel_eq]
    simp only [TriggerRunner.SyncMap.Store]
    rw [trigger_load_cons_ne _ _ _ _ (Ne.symm hk), trigger_load_delete_ne _ _ _ hk]
  · intro _
    refine ⟨trigger_getResponseHandler_map chans m R p, ?_, ?_⟩
    · rw [trigger_getResponseHandler_map]
      exact trigger_load_delete_self m R
    · intro k hk
      rw [trigger_getResponseHandler_map]
      exact trigger_load_delete_ne m R k hk
  · intro h hstate
    rw [trigger_getResponseHandler_channel chans m R p ch h, hstate]
  · intro hstate
    rw [trigger_getResponseChannel_eq]
    simp only [TriggerRunner.SyncMap.Store]
    rw [trigger_getResponseHandler_channel chans _ R p w.made (trigger_load_cons_eq _ _ _),
      hstate]
    simp only [trigger_delete_cons_eq]
    have hdd : TriggerRunner.SyncMap.Delete (TriggerRunner.SyncMap.Delete w.responseChannels R) R
        = TriggerRunner.SyncMap.Delete w.responseChannels R :=
      trigger_delete_of_load_none _ _ (trigger_load_delete_self _ _)
    rw [hdd]
  · intro h hstate
    rw [trigger_getResponseHandler_channel chans m R p ch h, hstate]

/-- Evaluation of C24, amended: with a waiter for `req-1`, a waiter registered for `req-2`
and receiving on its channel gets the payload of the reply tagged `req-2`, and the waiter
for `req-1` stays; when nobody receives on the channel of `req-2`, the entry is taken out
all the same, nothing is sent and the handler does not return. -/
theorem getResponseHandler_delivers_amended_witness :
    TriggerRunner.GetResponseChannel ⟨[("req-1", TriggerRunner.Stored.channel 0)], 1⟩ "req-2"
      = (⟨[("req-2", TriggerRunner.Stored.channel 1),
            ("req-1", TriggerRunner.Stored.channel 0)], 2⟩, some 1) ∧
    TriggerRunner.getResponseHandler (fun _ => TriggerRunner.ChanState.receiver)
        [("req-2", TriggerRunner.Stored.channel 1), ("req-1", TriggerRunner.Stored.channel 0)]
        "req-2" (some ⟨"type.googleapis.com/google.protobuf.StringValue", [10, 1, 65]⟩)
      = ([("req-1", TriggerRunner.Stored.channel 0)], TriggerRunner.Outcome.returned none,
          [TriggerRunner.ChanEvent.send 1
            (some ⟨"type.googleapis.com/google.protobuf.StringValue", [10, 1, 65]⟩)]) ∧
    TriggerRunner.getResponseHandler (fun _ => TriggerRunner.ChanState.noReceiver)
        [("req-2", TriggerRunner.Stored.channel 1), ("req-1", TriggerRunner.Stored.channel 0)]
        "req-2" (some ⟨"type.googleapis.com/google.protobuf.StringValue", [10, 1, 65]⟩)
      = ([("req-1", TriggerRunner.Stored.channel 0)], TriggerRunner.Outcome.blocked, []) :=
  ⟨by decide,
    ((getResponseHandler_delivers_amended (fun _ => TriggerRunner.ChanState.receiver)
      ⟨[("req-1", TriggerRunner.Stored.channel 0)], 1⟩
      [("req-2", TriggerRunner.Stored.channel 1), ("req-1", TriggerRunner.Stored.channel 0)]
      "req-2" (some ⟨"type.googleapis.com/google.protobuf.StringValue", [10, 1, 65]⟩)
      1).2.2.1 (by decide) rfl).trans (by decide),
    ((getResponseHandler_delivers_amended (fun _ => TriggerRunner.ChanState.noReceiver)
      ⟨[("req-1", TriggerRunner.Stored.channel 0)], 1⟩
      [("req-2", TriggerRunner.Stored.channel 1), ("req-1", TriggerRunner.Stored.channel 0)]
      "req-2" (some ⟨"type.googleapis.com/google.protobuf.StringValue", [10, 1, 65]⟩)
      1).2.2.2.2 (by decide) rfl).trans (by decide)⟩

/-- C25: on a table that has no entry for the request identifier of a reply, the response
handler returns the error that wraps `ErrHandlerNotFound` with that identifier, makes no
send and leaves the table as it is, whatever the state of the channels. So after one
registration of `R` and one reply tagged `R`, a second reply tagged `R` gets that error
and is not delivered. -/
theorem getResponseHandler_unmatched
    (chans chans2 : TriggerRunner.Chan → TriggerRunner.ChanState) (w : TriggerRunner.Waiters)
    (m : TriggerRunner.SyncMap) (R : String) (p p2 : Option AnyPb) :
    (TriggerRunner.SyncMap.Load m R = none →
      TriggerRunner.getResponseHandler chans m R p
        = (m, TriggerRunner.Outcome.returned
            (some (TriggerRunner.ResponseError.forRequest
              TriggerRunner.ResponseError.ErrHandlerNotFound R)), [])) ∧
    TriggerRunner.ResponseError.Is
        (TriggerRunner.ResponseError.forRequest
          TriggerRunner.ResponseError.ErrHandlerNotFound R)
        TriggerRunner.ResponseError.ErrHandlerNotFound = true ∧
    TriggerRunner.getResponseHandler chans2
        (TriggerRunner.getResponseHandler chans
          (TriggerRunner.GetResponseChannel w R).1.responseChannels R p).1 R p2
      = ((TriggerRunner.getResponseHandler chans
            (TriggerRunner.GetResponseChannel w R).1.responseChannels R p).1,
          TriggerRunner.Outcome.returned
            (some (TriggerRunner.ResponseError.forRequest
              TriggerRunner.ResponseError.ErrHandlerNotFound R)), []) := by
  have hnone : ∀ m : TriggerRunner.SyncMap, TriggerRunner.SyncMap.Load m R = none →
      TriggerRunner.getResponseHandler chans2 m R p2
        = (m, TriggerRunner.Outcome.returned
            (some (TriggerRunner.ResponseError.forRequest
              TriggerRunner.ResponseError.ErrHandlerNotFound R)), []) := by
    intro m h
    simp [TriggerRunner.getResponseHandler, TriggerRunner.SyncMap.LoadAndDelete, h]
  refine ⟨?_, ?_, ?_⟩
  · intro h
    simp [TriggerRunner.getResponseHandler, TriggerRunner.SyncMap.LoadAndDelete, h]
  · simp [TriggerRunner.ResponseError.Is]
  · apply hnone
    rw [trigger_getResponseHandler_map]
    exact trigger_load_delete_self _ _

/-- Evaluation of C25: a reply tagged `req-9` finds no waiter in a table that has one for
`req-1`. -/
theorem getResponseHandler_unmatched_witness :
    TriggerRunner.getResponseHandler (fun _ => TriggerRunner.ChanState.receiver)
        [("req-1", TriggerRunner.Stored.channel 0)] "req-9" none
      = ([("req-1", TriggerRunner.Stored.channel 0)],
          TriggerRunner.Outcome.returned
            (some (TriggerRunner.ResponseError.forRequest
              TriggerRunner.ResponseError.ErrHandlerNotFound "req-9")), []) :=
  (getResponseHandler_unmatched (fun _ => TriggerRunner.ChanState.receiver)
    (fun _ => TriggerRunner.ChanState.receiver) ⟨[], 0⟩
    [("req-1", TriggerRunner.Stored.channel 0)] "req-9" none none).1 (by decide)

/-- C26: for the waiter table left by any history of registrations and replies, the
shutdown loop of the composed runner closes the channels the table holds, each once, and
reaches `wg.Done()`: a channel found under a key is closed exactly once, no channel is
closed twice, and a channel that a reply has taken out of the table, at any point of the
history, is not closed. -/
theorem shutdown_closes_once (ops : List TriggerRunner.Op)
    (userRunner : Option TriggerRunner.UserRunner) :
    TriggerRunner.rangeClose (TriggerRunner.history ops).responseChannels
        [TriggerRunner.TriggerEvent.wgDone]
      = (TriggerRunner.channels (TriggerRunner.history ops).responseChannels).map
          (fun ch => TriggerRunner.TriggerEvent.chan (TriggerRunner.ChanEvent.close ch)) ++
        [TriggerRunner.TriggerEvent.wgDone] ∧
    TriggerRunner.closed (TriggerRunner.composeRunner userRunner (TriggerRunner.history ops))
      = TriggerRunner.channels (TriggerRunner.history ops).responseChannels ∧
    (TriggerRunner.closed
      (TriggerRunner.composeRunner userRunner (TriggerRunner.history ops))).Nodup ∧
    (∀ (R : String) (ch : TriggerRunner.Chan),
      TriggerRunner.SyncMap.Load (TriggerRunner.history ops).responseChannels R
        = some (TriggerRunner.Stored.channel ch) →
      (TriggerRunner.closed
        (TriggerRunner.composeRunner userRunner (TriggerRunner.history ops))).count ch = 1) ∧
    (∀ (later : List TriggerRunner.Op) (R : String) (p : Option AnyPb)
      (ch : TriggerRunner.Chan),
      TriggerRunner.SyncMap.Load (TriggerRunner.history ops).responseChannels R
        = some (TriggerRunner.Stored.channel ch) →
      ch ∉ TriggerRunner.closed (TriggerRunner.composeRunner userRunner
        (TriggerRunner.history (ops ++ TriggerRunner.Op.reply R p :: later)))) := by
  have hclosed : ∀ ops2 : List TriggerRunner.Op,
      TriggerRunner.rangeClose (TriggerRunner.history ops2).responseChannels
          [TriggerRunner.TriggerEvent.wgDone]
        = (TriggerRunner.channels (TriggerRunner.history ops2).responseChannels).map
            (fun ch => TriggerRunner.TriggerEvent.chan (TriggerRunner.ChanEvent.close ch)) ++
          [TriggerRunner.TriggerEvent.wgDone] := by
    intro ops2
    apply trigger_rangeClose_eq
    intro k v hmem
    obtain ⟨ch, hch, -⟩ := (trigger_wellFormed_history ops2).1 k v hmem
    exact ⟨ch, hch⟩
  have hcompose : ∀ ops2 : List TriggerRunner.Op,
      TriggerRunner.closed
          (TriggerRunner.composeRunner userRunner (TriggerRunner.history ops2))
        = TriggerRunner.channels (TriggerRunner.history ops2).responseChannels := by
    intro ops2
    unfold TriggerRunner.composeRunner
    rw [hclosed ops2]
    cases userRunner <;>
      simp [TriggerRunner.closed, trigger_closed_closes]
  have hnodup := (trigger_wellFormed_history ops).2
  refine ⟨hclosed ops, hcompose ops, ?_, ?_, ?_⟩
  · rw [hcompose]
    exact hnodup
  · intro R ch hload
    rw [hcompose]
    exact List.count_eq_one_of_mem hnodup (trigger_mem_channels_of_load _ _ _ hload)
  · intro later R p ch hload
    rw [hcompose]
    have hwf := trigger_wellFormed_history ops
    have hlt : ch < (TriggerRunner.history ops).made := by
      obtain ⟨k, hk⟩ := trigger_mem_channels _ _ (trigger_mem_channels_of_load _ _ _ hload)
      obtain ⟨c, hc, hclt⟩ := hwf.1 k _ hk
      cases hc
      exact hclt
    have hsplit : TriggerRunner.history (ops ++ TriggerRunner.Op.reply R p :: later)
        = later.foldl TriggerRunner.step
            (TriggerRunner.step (TriggerRunner.history ops) (TriggerRunner.Op.reply R p)) := by
      simp [TriggerRunner.history, List.foldl_append]
    rw [hsplit]
    apply trigger_absent_foldl
    · simpa [TriggerRunner.step] using hlt
    · simp only [TriggerRunner.step, trigger_getResponseHandler_map]
      exact trigger_not_mem_channels_delete _ R ch hwf.2 hload

/-- Evaluation of C26: three waiters are registered and the second gets its reply; at
shutdown the channels of the first and of the third are closed, once each, and the
channel of the second is not. -/
theorem shutdown_closes_once_witness :
    TriggerRunner.composeRunner none
        (TriggerRunner.history
          [TriggerRunner.Op.register "req-1", TriggerRunner.Op.register "req-2",
            TriggerRunner.Op.reply "req-2" none, TriggerRunner.Op.register "req-3"])
      = [TriggerRunner.TriggerEvent.awaitSignal,
          TriggerRunner.TriggerEvent.chan (TriggerRunner.ChanEvent.close 2),
          TriggerRunner.TriggerEvent.chan (TriggerRunner.ChanEvent.close 0),
          TriggerRunner.TriggerEvent.wgDone] ∧
    (1 : TriggerRunner.Chan) ∉ TriggerRunner.closed (TriggerRunner.composeRunner none
        (TriggerRunner.history
          ([TriggerRunner.Op.register "req-1", TriggerRunner.Op.register "req-2"] ++
            TriggerRunner.Op.reply "req-2" none :: [TriggerRunner.Op.register "req-3"]))) :=
  ⟨by decide,
    (shutdown_closes_once [TriggerRunner.Op.register "req-1", TriggerRunner.Op.register "req-2"]
      none).2.2.2.2 [TriggerRunner.Op.register "req-3"] "req-2" none 1 (by decide)⟩

/-- C27, as stated, fails for the initializer: composed from a nil callback, the
initializer of the task runner and that of the trigger runner call
`common.InitializeProcessConfiguration`. -/
theorem compose_nil_counterexample :
    TaskRunner.composeInitializer none = [StageEvent.initializeProcessConfiguration] ∧
    TriggerRunner.composeInitializer none = [StageEvent.initializeProcessConfiguration] ∧
    TaskRunner.composeInitializer none ≠ [] := by
  refine ⟨rfl, rfl, ?_⟩
  simp [TaskRunner.composeInitializer]

/-- C27, amended: composed from a nil callback, the preprocessor, the handler and the
postprocessor return success and do nothing, and the finalizer does nothing; composed from
a callback, they return what one call of it returns and do what it does. The composed
initializer calls `common.InitializeProcessConfiguration` and then, once, the user
initializer if there is one. The setters store the composed stage, never nil. -/
theorem compose_amended (h : TaskRunner.Handler) (userInitializer : Initializer)
    (userFinalizer : Finalizer) (kaiSDK : Option KaiNatsMessage) (response : Option AnyPb)
    (tr : TaskRunner.Runner) (user : Option TaskRunner.Handler) :
    (TaskRunner.composePreprocessor none kaiSDK response = (none, []) ∧
      TaskRunner.composeHandler none kaiSDK response = (none, []) ∧
      TaskRunner.composePostprocessor none kaiSDK response = (none, []) ∧
      TaskRunner.composeFinalizer none = [] ∧
      TriggerRunner.composeFinalizer none = []) ∧
    (TaskRunner.composePreprocessor (some h) kaiSDK response = h kaiSDK response ∧
      TaskRunner.composeHandler (some h) kaiSDK response = h kaiSDK response ∧
      TaskRunner.composePostprocessor (some h) kaiSDK response = h kaiSDK response ∧
      TaskRunner.composeFinalizer (some userFinalizer) = userFinalizer ∧
      TriggerRunner.composeFinalizer (some userFinalizer) = userFinalizer) ∧
    (TaskRunner.composeInitializer none = [StageEvent.initializeProcessConfiguration] ∧
      TaskRunner.composeInitializer (some userInitializer)
        = StageEvent.initializeProcessConfiguration :: userInitializer ∧
      TriggerRunner.composeInitializer none = [StageEvent.initializeProcessConfiguration] ∧
      TriggerRunner.composeInitializer (some userInitializer)
        = StageEvent.initializeProcessConfiguration :: userInitializer) ∧
    ((TaskRunner.WithPreprocessor tr user).preprocessor
        = some (TaskRunner.composePreprocessor user) ∧
      (TaskRunner.WithPostprocessor tr user).postprocessor
        = some (TaskRunner.composePostprocessor user) ∧
      (TaskRunner.WithHandler tr user).responseHandlers "default"
        = some (TaskRunner.composeHandler user)) :=
  ⟨⟨rfl, rfl, rfl, rfl, rfl⟩, ⟨rfl, rfl, rfl, rfl, rfl⟩, ⟨rfl, rfl, rfl, rfl⟩,
    ⟨rfl, rfl, by simp [TaskRunner.WithHandler]⟩⟩

/-- C28, as stated, fails: for the topic `orders created` the consumer name holds a
space. -/
theorem consumerName_counterexample :
    ExitRunner.consumerName "orders created" "exit node.v1" = "orders created-exit-node-v1" ∧
    ' ' ∈ (ExitRunner.consumerName "orders created" "exit node.v1").data := by
  constructor
  · decide
  · decide

/-- C28, amended: the consumer name is the topic with each `.` replaced by `-`, then `-`,
then the process identifier with each `.` and each space replaced by `-`. It holds no
`.`, and it holds no space when the topic holds none. -/
theorem consumerName_amended (subject process : String) :
    ExitRunner.consumerName subject process
      = ExitRunner.ReplaceAll subject '.' '-' ++ "-" ++
          ExitRunner.ReplaceAll (ExitRunner.ReplaceAll process '.' '-') ' ' '-' ∧
    '.' ∉ (ExitRunner.consumerName subject process).data ∧
    (' ' ∉ subject.data → ' ' ∉ (ExitRunner.consumerName subject process).data) := by
  refine ⟨rfl, ?_, ?_⟩
  · unfold ExitRunner.consumerName
    simp only [String.data_append, List.mem_append, not_or]
    refine ⟨⟨exit_replaceAll_not_mem subject '.' '-' (by decide), by decide⟩, ?_⟩
    exact exit_replaceAll_preserves_not_mem _ ' ' '-' '.' (by decide)
      (exit_replaceAll_not_mem process '.' '-' (by decide))
  · intro hsubject
    unfold ExitRunner.consumerName
    simp only [String.data_append, List.mem_append, not_or]
    refine ⟨⟨exit_replaceAll_preserves_not_mem subject '.' '-' ' ' (by decide) hsubject,
      by decide⟩, ?_⟩
    exact exit_replaceAll_not_mem _ ' ' '-' (by decide)

/-- Evaluation of C28, amended, on the topic of the spec's scenario. -/
theorem consumerName_amended_witness :
    ExitRunner.consumerName "orders.created" "exit node.v1" = "orders-created-exit-node-v1" ∧
    ' ' ∉ (ExitRunner.consumerName "orders.created" "exit node.v1").data :=
  ⟨by decide,
    (consumerName_amended "orders.created" "exit node.v1").2.2 (by decide)⟩

/-- C29: on the same broker and configuration the exit runner's `getMaxMessageSize`
returns what `MessagingUtilsImpl.GetMaxMessageSize` returns, value or error, and the exit
runner's `prepareOutputMessage` returns what `Messaging.prepareOutputMessage` returns, bytes
or failure, for a `Messaging` whose size negotiation is that implementation or answers the
same. -/
theorem exit_copies_agree {M : Type} (deps : Deps M) (cfg : Viper) (js js2 : JetStream)
    (nc : NatsConn) (msg : Bytes) :
    ExitRunner.getMaxMessageSize cfg ⟨nc, js⟩
      = MessagingUtilsImpl.GetMaxMessageSize cfg ⟨js, nc⟩ ∧
    ExitRunner.prepareOutputMessage deps cfg ⟨nc, js⟩ msg
      = Messaging.prepareOutputMessage deps
          ⟨js2, MessagingUtilsImpl.toMessagingUtils cfg ⟨js, nc⟩⟩ msg ∧
    (∀ ms : Messaging,
      ms.messagingUtils.GetMaxMessageSize = ExitRunner.getMaxMessageSize cfg ⟨nc, js⟩ →
      ExitRunner.prepareOutputMessage deps cfg ⟨nc, js⟩ msg
        = Messaging.prepareOutputMessage deps ms msg) := by
  have hsize : ExitRunner.getMaxMessageSize cfg ⟨nc, js⟩
      = MessagingUtilsImpl.GetMaxMessageSize cfg ⟨js, nc⟩ := rfl
  have hprep : ∀ ms : Messaging,
      ms.messagingUtils.GetMaxMessageSize = ExitRunner.getMaxMessageSize cfg ⟨nc, js⟩ →
      ExitRunner.prepareOutputMessage deps cfg ⟨nc, js⟩ msg
        = Messaging.prepareOutputMessage deps ms msg := by
    intro ms hms
    unfold ExitRunner.prepareOutputMessage Messaging.prepareOutputMessage
    rw [hms]
  exact ⟨hsize, hprep _ rfl, hprep⟩

/-- Evaluation of C29 on the three outcomes of the encoder and on a failed lookup. -/
theorem exit_copies_agree_witness :
    ExitRunner.prepareOutputMessage Sample.deps Sample.viper (Sample.runner 5 1048576)
        Sample.okWire
      = Messaging.prepareOutputMessage Sample.deps (Sample.messaging (.ok 5)) Sample.okWire ∧
    Messaging.prepareOutputMessage Sample.deps (Sample.messaging (.ok 5)) Sample.okWire
      = .ok [31, 139, 0] ∧
    ExitRunner.prepareOutputMessage Sample.deps Sample.viper (Sample.runner 10 1048576)
        Sample.errorWire
      = Messaging.prepareOutputMessage Sample.deps (Sample.messaging (.ok 10))
          Sample.errorWire ∧
    Messaging.prepareOutputMessage Sample.deps (Sample.messaging (.ok 10)) Sample.errorWire
      = .error GoError.ErrMessageToBig :=
  ⟨(exit_copies_agree Sample.deps Sample.viper (Sample.jetstream (.ok 5) none)
      (Sample.jetstream (.ok (-1)) none) ⟨1048576⟩ Sample.okWire).2.2
      (Sample.messaging (.ok 5)) rfl,
    rfl,
    (exit_copies_agree Sample.deps Sample.viper (Sample.jetstream (.ok 10) none)
      (Sample.jetstream (.ok (-1)) none) ⟨1048576⟩ Sample.errorWire).2.2
      (Sample.messaging (.ok 10)) rfl,
    rfl⟩

end KaiGoSDK
